import Mathlib

/-!
# Callosum extension: streaming inference client and page-content extractor

A shallow embedding of `src/lib/ollama.js`, `src/lib/context.js`,
`src/content.js`, and of the chat exchange of `src/sidebar.js`, the actions
and the configuration of `src/background.js`, and the settings form of
`src/options.js`.

* JavaScript strings are sequences of UTF-16 code units (`JStr`).
* Values produced by `JSON.parse` are the inductive type `JVal`; `JSON.parse`
  itself is a parameter `parse : JStr → Option JVal` (`none` = `SyntaxError`).
* An `async` function is a total function returning an `Outcome`: the value it
  resolves to or the error it rejects with, together with what it did on the
  way (callback invocations, `console.error` calls).
* The network is an environment `Env`: which abort signals fire while a request
  is pending and what the server answers.
* `browser.storage.local` is explicit state, and its calls succeed.
-/

namespace Callosum

/-! ## JavaScript strings -/

/-- A JavaScript string: its UTF-16 code units. -/
abbrev JStr := List Nat

/-- UTF-16 encoding of one Unicode scalar value. -/
def utf16 (c : Char) : List Nat :=
  if c.toNat < 65536 then [c.toNat]
  else [55296 + (c.toNat - 65536) / 1024, 56320 + (c.toNat - 65536) % 1024]

/-- The JavaScript string written as the literal `s`. -/
def js (s : String) : JStr := (s.toList.map utf16).flatten

/-- Code units that are `WhiteSpace` or `LineTerminator` in ECMAScript: what
`String.prototype.trim` strips and what the regular expression `\s` matches. -/
def isSpace (c : Nat) : Bool :=
  c == 9 || c == 10 || c == 11 || c == 12 || c == 13 || c == 32 || c == 160 ||
  c == 5760 || (8192 ≤ c && c ≤ 8202) || c == 8232 || c == 8233 || c == 8239 ||
  c == 8287 || c == 12288 || c == 65279

/-- `s.trim()`. -/
def trim (s : JStr) : JStr :=
  ((s.dropWhile isSpace).reverse.dropWhile isSpace).reverse

/-- `s.startsWith(p)`. -/
def startsWith (s p : JStr) : Bool := p.isPrefixOf s

/-- `s.substring(0, n)` for a non-negative integer `n`. -/
def substring0 (s : JStr) (n : Nat) : JStr := s.take n

/-- `s.split('\n')`. -/
def splitLines : JStr → List JStr
  | [] => [[]]
  | c :: cs =>
    if c = 10 then [] :: splitLines cs
    else
      match splitLines cs with
      | [] => [[c]]
      | l :: ls => (c :: l) :: ls

/-- `lines.join('\n')`. -/
def joinLines : List JStr → JStr
  | [] => []
  | [l] => l
  | l :: ls => l ++ 10 :: joinLines ls

/-- Decimal text of a non-negative integer, as a template literal renders a
number that is an integer below `10^21`. -/
def natText (n : Nat) : JStr := (Nat.toDigits 10 n).map Char.toNat

/-! ## JavaScript values -/

/-- The values `JSON.parse` can produce, and `undefined` for an absent property.
A number is recorded by what this code can observe of it: whether it is `0` or
`-0` (the falsy numbers `JSON.parse` can produce) and its `ToString`. -/
inductive JVal where
  | undefined
  | null
  | bool (b : Bool)
  | num (isZero : Bool) (shown : JStr)
  | str (s : JStr)
  | arr (items : List JVal)
  | obj (fields : List (JStr × JVal))

namespace JVal

/-- `v === undefined || v === null`. -/
def isNullish : JVal → Bool
  | undefined => true
  | null => true
  | _ => false

/-- `ToBoolean(v)`. -/
def truthy : JVal → Bool
  | undefined => false
  | null => false
  | bool b => b
  | num z _ => !z
  | str s => !s.isEmpty
  | arr _ => true
  | obj _ => true

/-- Own data property `key` of a parsed object (`undefined` when absent). -/
def field (fields : List (JStr × JVal)) (key : JStr) : JVal :=
  match fields.find? (fun kv => kv.1 == key) with
  | some kv => kv.2
  | none => undefined

/-- Property read `v.key` for a key that no prototype defines (`response`, `message`,
`content`, `error`): `none` is the `TypeError` of reading a property of `null`
or `undefined`. -/
def getProp (v : JVal) (key : JStr) : Option JVal :=
  match v with
  | undefined => none
  | null => none
  | obj fields => some (field fields key)
  | _ => some undefined

/-- Optional chaining `v?.key`. -/
def getPropOpt (v : JVal) (key : JStr) : Option JVal :=
  if v.isNullish then some undefined else getProp v key

mutual
/-- `ToString(v)`, as performed by `'' + v` and by `new Error(v)`; `none` is the
`TypeError` raised for a parsed object that has an own (hence non-callable)
`toString` property. -/
def toStr : JVal → Option JStr
  | undefined => some (js "undefined")
  | null => some (js "null")
  | bool b => some (if b then js "true" else js "false")
  | num _ s => some s
  | str s => some s
  | arr xs => joinItems xs
  | obj fs =>
    if fs.any (fun kv => kv.1 == js "toString") then none else some (js "[object Object]")
termination_by structural v => v
/-- `Array.prototype.join` with the default separator `,`. -/
def joinItems : List JVal → Option JStr
  | [] => some []
  | x :: xs =>
    match (if x.isNullish then some [] else toStr x), xs, joinItems xs with
    | some a, [], _ => some a
    | some a, _ :: _, some b => some (a ++ 44 :: b)
    | _, _, _ => none
termination_by structural xs => xs
end

end JVal

/-- What a promise can reject with, or a `throw` can raise. -/
inductive JsError where
  /-- `new Error(message)` -/
  | error (message : JStr)
  /-- the `AbortError` DOMException of an aborted fetch or read -/
  | abortError
  /-- a `TypeError` raised by the engine while evaluating an expression -/
  | typeError
  /-- any other rejection reason supplied by the platform -/
  | other (name message : JStr)
  deriving DecidableEq

/-- `error.name`. -/
def JsError.name : JsError → JStr
  | .error _ => js "Error"
  | .abortError => js "AbortError"
  | .typeError => js "TypeError"
  | .other n _ => n

/-- `error.message`. The message of an error the platform raises itself is
implementation-defined: `engine` supplies it. -/
def JsError.message (engine : JsError → JStr) : JsError → JStr
  | .error message => message
  | .other _ message => message
  | e => engine e

/-! ## `src/lib/ollama.js` -/

namespace OllamaAPI

/-- The `AbortSignal`s a call can involve. -/
inductive Signal where
  /-- signal of the `AbortController` that `generate`/`chat` create -/
  | own
  /-- signal supplied by the caller in `options.signal` -/
  | caller
  /-- signal of the `AbortController` that `_fetchWithTimeout` creates -/
  | timer
  /-- signal of the `AbortController` that `sendMessage` of `sidebar.js` creates -/
  | sidebar
  deriving DecidableEq

/-- The client configuration `this.config`. -/
structure Config where
  endpoint : JStr
  model : JStr
  temperature : JVal
  maxTokens : JVal
  timeout : Nat

/-- `DEFAULT_CONFIG` of `ollama.js`. -/
def DEFAULT_CONFIG : Config where
  endpoint := js "http://127.0.0.1:11434"
  model := js "mistral"
  temperature := .num false (js "0.7")
  maxTokens := .num false (js "1000")
  timeout := 30000

/-- The mutable fields of an `OllamaAPI` instance. -/
structure Instance where
  config : Config
  abortController : Option Signal

/-- A chat message. -/
structure Message where
  role : JStr
  content : JStr

/-- The `prompt` or `messages` member of a request body. -/
inductive Payload where
  | prompt (text : JStr)
  | messages (list : List Message)

/-- The object that `generate`/`chat` pass to `JSON.stringify`. -/
structure RequestBody where
  model : JStr
  payload : Payload
  stream : Bool
  temperature : JVal
  num_predict : JVal

/-- The options object given to `_fetchWithTimeout`, and the init object given
to `fetch`. -/
structure RequestInit where
  method : Option JStr := none
  headers : List (JStr × JStr) := []
  body : Option RequestBody := none
  signal : Option Signal := none
  timeout : Option Nat := none

/-- How reading a response body ends. -/
inductive ReadEnd where
  /-- `reader.read()` resolves with `done: true` -/
  | done
  /-- `reader.read()` rejects -/
  | fail (e : JsError)

/-- A response body: the decoded chunks delivered by successive `reader.read()`
calls, then the way the stream ends. -/
structure Body where
  chunks : List JStr
  ending : ReadEnd

/-- A `Response`. -/
structure Response where
  status : Nat
  /-- what `response.json()` resolves to; `none` when it rejects -/
  json : Option JVal
  /-- `response.body`; `none` when it is `null` -/
  body : Option Body

/-- `response.ok`. -/
def Response.ok (r : Response) : Bool := 200 ≤ r.status && r.status ≤ 299

/-- What the network would settle a pending `fetch` with if it is not aborted. -/
inductive Reply where
  | rejected (e : JsError)
  | resolved (r : Response)

/-- The environment of one call. -/
structure Env where
  /-- the signals that are aborted while the request is pending -/
  aborted : Signal → Bool
  /-- the server's answer to a request -/
  reply : JStr → RequestInit → Reply

/-- The platform's `fetch(resource, init)`: it rejects with an `AbortError` when
the signal in `init` is aborted, and otherwise settles with the server's answer. -/
def fetch (env : Env) (resource : JStr) (init : RequestInit) : Except JsError Response :=
  if (init.signal.map env.aborted).getD false then .error .abortError
  else
    match env.reply resource init with
    | .rejected e => .error e
    | .resolved r => .ok r

/-- The init object `{ ...options, signal: controller.signal }` that
`_fetchWithTimeout` hands to `fetch`. -/
def fetchInit (options : RequestInit) : RequestInit :=
  { options with signal := some Signal.timer }

/-- The `timeout` that `_fetchWithTimeout` arms its timer with:
`const { timeout = this.config.timeout } = options`. -/
def timeoutOf (self : Instance) (options : RequestInit) : Nat :=
  options.timeout.getD self.config.timeout

/-- Method `_fetchWithTimeout(resource, options)`. -/
def _fetchWithTimeout (self : Instance) (env : Env) (resource : JStr)
    (options : RequestInit) : Except JsError Response :=
  match fetch env resource (fetchInit options) with
  | .ok response => .ok response
  | .error error =>
    if error.name = js "AbortError" then
      .error (.error (js "Request timed out after " ++ natText (timeoutOf self options) ++ js "ms"))
    else .error error

/-- What a streaming call has done so far. -/
structure Progress where
  /-- the accumulator `fullResponse` -/
  fullResponse : JStr
  /-- the arguments `onToken` has been called with, oldest first -/
  tokens : List JVal
  /-- the number of `console.error('Error parsing chunk:', e)` calls -/
  logged : Nat

/-- The state before the first chunk. -/
def Progress.init : Progress := ⟨[], [], 0⟩

/-- An `onToken` callback, as far as the client can observe it: whether the call
with a given delta throws. -/
abbrev OnToken := JVal → Bool

/-- The delta `generate` reads from a parsed chunk: `parsed.response`. -/
def responseOf (parsed : JVal) : Option JVal := parsed.getProp (js "response")

/-- The delta `chat` reads from a parsed chunk: `parsed.message?.content`. -/
def contentOf (parsed : JVal) : Option JVal :=
  (parsed.getProp (js "message")).bind (fun m => m.getPropOpt (js "content"))

/-- The body of the `for (const line of lines)` loop; `delta` is `responseOf` in
`generate` and `contentOf` in `chat`. Whatever is thrown inside the `try` is
caught and logged. -/
def processLine (delta : JVal → Option JVal) (parse : JStr → Option JVal)
    (onToken : Option OnToken) (st : Progress) (line : JStr) : Progress :=
  if startsWith line (js "data: ") then
    let data := line.drop 6
    if data = js "[DONE]" then st
    else
      match parse data with
      | none => { st with logged := st.logged + 1 }
      | some parsed =>
        match delta parsed with
        | none => { st with logged := st.logged + 1 }
        | some d =>
          if d.truthy then
            match d.toStr with
            | none => { st with logged := st.logged + 1 }
            | some text =>
              match onToken with
              | none => { st with fullResponse := st.fullResponse ++ text }
              | some cb =>
                { fullResponse := st.fullResponse ++ text
                  tokens := st.tokens ++ [d]
                  logged := if cb d then st.logged + 1 else st.logged }
          else st
  else st

/-- The lines of a chunk: `chunk.split('\n').filter(line => line.trim() !== '')`. -/
def linesOf (chunk : JStr) : List JStr :=
  (splitLines chunk).filter (fun line => decide (trim line ≠ []))

/-- One iteration of the `while (true)` loop after a successful read. -/
def processChunk (delta : JVal → Option JVal) (parse : JStr → Option JVal)
    (onToken : Option OnToken) (st : Progress) (chunk : JStr) : Progress :=
  (linesOf chunk).foldl (processLine delta parse onToken) st

/-- The `while (true)` loop over all chunks that are read. -/
def readAll (delta : JVal → Option JVal) (parse : JStr → Option JVal)
    (onToken : Option OnToken) (chunks : List JStr) : Progress :=
  chunks.foldl (processChunk delta parse onToken) Progress.init

/-- The result of a call: how the promise settles, and the observable effects. -/
structure Outcome where
  result : Except JsError JStr
  tokens : List JVal
  logged : Nat

/-- A call that rejects before the stream is read. -/
def Outcome.failed (e : JsError) : Outcome := ⟨.error e, [], 0⟩

/-- The outer `catch (error)` of `generate` and `chat`. -/
def rethrow (error : JsError) : JsError :=
  if error.name = js "AbortError" then .error (js "Request was cancelled") else error

/-- The controller `generate`/`chat` create:
`const controller = signal ? null : new AbortController()`. -/
def controllerFor (signal : Option Signal) : Option Signal :=
  if signal.isSome then none else some Signal.own

/-- The instance while the call is in flight: `this.abortController = controller`. -/
def inFlight (self : Instance) (signal : Option Signal) : Instance :=
  { self with abortController := controllerFor signal }

/-- The options `generate`/`chat` pass to `_fetchWithTimeout`. -/
def requestOptions (self : Instance) (payload : Payload) (signal : Option Signal) :
    RequestInit where
  method := some (js "POST")
  headers := [(js "Content-Type", js "application/json")]
  body := some
    { model := self.config.model
      payload := payload
      stream := true
      temperature := self.config.temperature
      num_predict := self.config.maxTokens }
  signal := (controllerFor signal).orElse (fun _ => signal)

/-- The `throw new Error(error.error || ...)` of a response that is not ok. -/
def httpError (response : Response) : JsError :=
  match (response.json.getD (.obj [])).getProp (js "error") with
  | none => .typeError
  | some e =>
    if e.truthy then
      match e.toStr with
      | none => .typeError
      | some message => .error message
    else .error (js "API request failed with status " ++ natText response.status)

/-- The part of `generate` and `chat` that they share word for word: everything
but the resource path, the payload and the delta read from a parsed chunk. -/
def streamCall (self : Instance) (env : Env) (parse : JStr → Option JVal)
    (path : JStr) (payload : Payload) (delta : JVal → Option JVal)
    (onToken : Option OnToken) (signal : Option Signal) : Outcome :=
  match _fetchWithTimeout self env (self.config.endpoint ++ path)
      (requestOptions self payload signal) with
  | .error e => Outcome.failed (rethrow e)
  | .ok response =>
    if !response.ok then Outcome.failed (rethrow (httpError response))
    else
      match response.body with
      | none => Outcome.failed (rethrow .typeError)
      | some body =>
        let st := readAll delta parse onToken body.chunks
        match body.ending with
        | .done => ⟨.ok st.fullResponse, st.tokens, st.logged⟩
        | .fail e => ⟨.error (rethrow e), st.tokens, st.logged⟩

/-- Method `generate(prompt, { onToken, signal })`. -/
def generate (self : Instance) (env : Env) (parse : JStr → Option JVal)
    (prompt : JStr) (onToken : Option OnToken) (signal : Option Signal) : Outcome :=
  streamCall self env parse (js "/api/generate") (.prompt prompt) responseOf onToken signal

/-- Method `chat(messages, { onToken, signal })`. -/
def chat (self : Instance) (env : Env) (parse : JStr → Option JVal)
    (messages : List Message) (onToken : Option OnToken) (signal : Option Signal) : Outcome :=
  streamCall self env parse (js "/api/chat") (.messages messages) contentOf onToken signal

/-- The argument of `updateConfig`: the members it defines. -/
structure ConfigPatch where
  endpoint : Option JStr := none
  model : Option JStr := none
  temperature : Option JVal := none
  maxTokens : Option JVal := none
  timeout : Option Nat := none

/-- Method `updateConfig(newConfig)`: `this.config = { ...this.config, ...newConfig }`. -/
def updateConfig (self : Instance) (newConfig : ConfigPatch) : Instance :=
  { self with
    config :=
      { endpoint := newConfig.endpoint.getD self.config.endpoint
        model := newConfig.model.getD self.config.model
        temperature := newConfig.temperature.getD self.config.temperature
        maxTokens := newConfig.maxTokens.getD self.config.maxTokens
        timeout := newConfig.timeout.getD self.config.timeout } }

/-- Method `cancel()`: the instance afterwards and the signals it aborted. -/
def cancel (self : Instance) : Instance × List Signal :=
  match self.abortController with
  | some controller => ({ self with abortController := none }, [controller])
  | none => (self, [])

/-- The delta a single line makes the client accumulate and report, if any. -/
def lineToken (delta : JVal → Option JVal) (parse : JStr → Option JVal)
    (line : JStr) : Option JVal :=
  if startsWith line (js "data: ") then
    if line.drop 6 = js "[DONE]" then none
    else
      match parse (line.drop 6) with
      | none => none
      | some parsed =>
        match delta parsed with
        | none => none
        | some d => if d.truthy && d.toStr.isSome then some d else none
  else none

/-- The text a delta adds to a string it is appended to. -/
def deltaText (d : JVal) : JStr := d.toStr.getD []

/-- The same reply with the chunks of the response body replaced. -/
def Reply.withChunks (chunks : List JStr) : Reply → Reply
  | .rejected e => .rejected e
  | .resolved r => .resolved { r with body := r.body.map (fun b => { b with chunks := chunks }) }

/-- The same environment, except that a response body delivers `chunks`. -/
def Env.withChunks (env : Env) (chunks : List JStr) : Env :=
  { env with reply := fun resource init => (env.reply resource init).withChunks chunks }

/-- The line `data: [DONE]`. -/
def doneLine : JStr := js "data: [DONE]"

/-- The chunk without its `data: [DONE]` lines. -/
def dropDone (chunk : JStr) : JStr :=
  joinLines ((splitLines chunk).filter (fun line => decide (line ≠ doneLine)))

/-- The chunk with `line` inserted as a line of its own before line `j`. -/
def insertLine (line : JStr) (j : Nat) (chunk : JStr) : JStr :=
  joinLines ((splitLines chunk).take j ++ line :: (splitLines chunk).drop j)

/-- The values of `JSON.parse` at the payloads used in the examples below:
`{"response":"Hi"}` and `{"message":{"content":"Hi"}}`. The other payloads the
examples use are not JSON texts. -/
def sampleParse (text : JStr) : Option JVal :=
  if text = js "\x7b\"response\":\"Hi\"\x7d" then
    some (.obj [(js "response", .str (js "Hi"))])
  else if text = js "\x7b\"message\":\x7b\"content\":\"Hi\"\x7d\x7d" then
    some (.obj [(js "message", .obj [(js "content", .str (js "Hi"))])])
  else none

/-- A server that answers every request with status 200 and the given body. -/
def sampleEnv (chunks : List JStr) (ending : ReadEnd) : Env where
  aborted := fun _ => false
  reply := fun _ _ => .resolved { status := 200, json := none, body := some ⟨chunks, ending⟩ }

/-- The server of `sampleEnv`, while `cancel()` has aborted the controller that
`generate`/`chat` created and the timer has not fired. -/
def cancelledEnv (chunks : List JStr) (ending : ReadEnd) : Env :=
  { sampleEnv chunks ending with aborted := fun s => decide (s = Signal.own) }

/-- The server of `sampleEnv`, when the timer of `_fetchWithTimeout` fires
before the server answers. -/
def timedOutEnv (chunks : List JStr) (ending : ReadEnd) : Env :=
  { sampleEnv chunks ending with aborted := fun s => decide (s = Signal.timer) }

/-- A client with the default configuration and no call in flight. -/
def sampleClient : Instance := ⟨DEFAULT_CONFIG, none⟩

/-- A chunk with one `generate` token line, one `chat` token line and the
end-of-stream sentinel. -/
def sampleChunk : JStr :=
  js "data: \x7b\"response\":\"Hi\"\x7d\ndata: \x7b\"message\":\x7b\"content\":\"Hi\"\x7d\x7d\ndata: [DONE]\n"

end OllamaAPI

/-! ## The document -/

namespace Dom

/-- The attribute list of an element: names with their values. -/
abbrev Attrs := List (JStr × JStr)

/-- A node of a DOM tree. The tag of an element is its local name. -/
inductive Node where
  | text (data : JStr)
  | comment (data : JStr)
  | element (tag : JStr) (attrs : Attrs) (children : List Node)

/-- `el.getAttribute(name)`. -/
def getAttribute (attrs : Attrs) (name : JStr) : Option JStr :=
  (attrs.find? (fun a => a.1 == name)).map (fun a => a.2)

/-- `el.className`: the value of the `class` attribute, `''` when absent. -/
def className (attrs : Attrs) : JStr := (getAttribute attrs (js "class")).getD []

/-- ASCII whitespace, which separates the tokens of a `class` attribute. -/
def isAsciiSpace (c : Nat) : Bool := c == 9 || c == 10 || c == 12 || c == 13 || c == 32

/-- `el.classList`: the tokens of the `class` attribute. -/
def classTokens (attrs : Attrs) : List JStr :=
  ((className attrs).splitOnP isAsciiSpace).filter (fun t => !t.isEmpty)

/-- The selectors this code uses. -/
inductive Selector where
  /-- type selector `name` -/
  | tag (name : JStr)
  /-- class selector `.name` -/
  | cls (name : JStr)
  /-- id selector `#name` -/
  | id (name : JStr)
  /-- `tag[attr="value"]` -/
  | tagAttr (tag attr value : JStr)

/-- Whether an element with this tag and these attributes matches the selector
(HTML document in no-quirks mode). -/
def Selector.matchesElement (sel : Selector) (tag : JStr) (attrs : Attrs) : Bool :=
  match sel with
  | .tag name => tag == name
  | .cls name => (classTokens attrs).contains name
  | .id name => getAttribute attrs (js "id") == some name
  | .tagAttr t a v => tag == t && getAttribute attrs a == some v

/-- `node.matches(sel)`; only elements match. -/
def Node.matchesSel (sel : Selector) : Node → Bool
  | .element tag attrs _ => sel.matchesElement tag attrs
  | _ => false

mutual
/-- `node.textContent` of an element (for its children: the concatenation of
their text, comments contributing nothing). -/
def Node.textContent : Node → JStr
  | .text data => data
  | .comment _ => []
  | .element _ _ children => textOfList children
termination_by structural n => n
/-- Concatenated text of a list of siblings. -/
def textOfList : List Node → JStr
  | [] => []
  | n :: ns => n.textContent ++ textOfList ns
termination_by structural ns => ns
end

mutual
/-- The element itself, if the node is one, followed by its descendant
elements, in document order. -/
def Node.elements : Node → List Node
  | .element tag attrs children => .element tag attrs children :: elementsOfList children
  | _ => []
termination_by structural n => n
/-- The elements of a list of siblings and their descendants, in document
order: `parent.getElementsByTagName('*')` for the children of `parent`. -/
def elementsOfList : List Node → List Node
  | [] => []
  | n :: ns => n.elements ++ elementsOfList ns
termination_by structural ns => ns
end

/-- `parent.querySelector(sel)`, for the children of `parent`. -/
def querySelector (nodes : List Node) (sel : Selector) : Option Node :=
  (elementsOfList nodes).find? (fun n => n.matchesSel sel)

/-- `parent.querySelectorAll(sel)`, for the children of `parent`. -/
def querySelectorAll (nodes : List Node) (sel : Selector) : List Node :=
  (elementsOfList nodes).filter (fun n => n.matchesSel sel)

mutual
/-- The node after `el.remove()` has been called on every descendant element
satisfying `p`. -/
def Node.prune (p : Node → Bool) : Node → Node
  | .element tag attrs children => .element tag attrs (pruneList p children)
  | n => n
termination_by structural n => n
/-- The siblings after `el.remove()` has been called on every element among
them and their descendants that satisfies `p`. -/
def pruneList (p : Node → Bool) : List Node → List Node
  | [] => []
  | n :: ns => if p n then pruneList p ns else n.prune p :: pruneList p ns
termination_by structural ns => ns
end

mutual
/-- The node after its descendant element number `i` (in document order, from
0) has been removed. -/
def Node.removeNth : Node → Nat → Node
  | .element tag attrs children, i => .element tag attrs (removeNthList children i)
  | n, _ => n
termination_by structural n => n
/-- The siblings after `el.remove()` for the element `el` that is number `i` of
`elementsOfList`. -/
def removeNthList : List Node → Nat → List Node
  | [], _ => []
  | n :: ns, i =>
    if n.elements.length = 0 then n :: removeNthList ns i
    else if i = 0 then ns
    else if i < n.elements.length then n.removeNth (i - 1) :: ns
    else n :: removeNthList ns (i - n.elements.length)
termination_by structural ns => ns
end

mutual
/-- The node with the attributes of every element in it filtered by `keep`. -/
def Node.filterAttrs (keep : JStr → Bool) : Node → Node
  | .element tag attrs children =>
    .element tag (attrs.filter (fun a => keep a.1)) (filterAttrsList keep children)
  | n => n
termination_by structural n => n
/-- The siblings with the attributes of every element in them filtered. -/
def filterAttrsList (keep : JStr → Bool) : List Node → List Node
  | [] => []
  | n :: ns => n.filterAttrs keep :: filterAttrsList keep ns
termination_by structural ns => ns
end

/-- The loop body `element.querySelectorAll(selector).forEach(el => el.remove())`,
on the children of `element`. -/
def removeBySelector (nodes : List Node) (selector : Selector) : List Node :=
  pruneList (fun n => n.matchesSel selector) nodes

/-- What the scripts read of the page they run in. -/
structure Page where
  /-- the child nodes of `document` -/
  nodes : List Node
  /-- `document.title` -/
  title : JStr
  /-- `window.location.href` -/
  href : JStr
  /-- `window.getSelection().toString()` -/
  selection : JStr
  /-- `new Date().toISOString()` at the time of the call -/
  now : JStr

/-- The loop `for (const selector of selectors)` with `document.querySelector`:
the first element found, trying the selectors in order. -/
def firstMatch (page : Page) : List Selector → Option Node
  | [] => none
  | selector :: rest =>
    match querySelector page.nodes selector with
    | some element => some element
    | none => firstMatch page rest

/-- `text.replace(/p+/g, r)` for a class `p` of code units: every maximal run
of code units satisfying `p` becomes the single code unit `r`. -/
def collapseRuns (p : Nat → Bool) (r : Nat) : JStr → JStr
  | [] => []
  | c :: cs =>
    if p c then
      match cs with
      | [] => [r]
      | d :: _ => if p d then collapseRuns p r cs else r :: collapseRuns p r cs
    else c :: collapseRuns p r cs

/-- `s.includes(sub)`. -/
def includes (s sub : JStr) : Bool := s.tails.any (fun t => sub.isPrefixOf t)

/-- `String.prototype.toLowerCase` on strings of ASCII code units, the
lower-casing used in the examples; the functions below take the lower-casing as
a parameter. -/
def asciiLower (s : JStr) : JStr := s.map (fun c => if 65 ≤ c ∧ c ≤ 90 then c + 32 else c)

/-- The truncation both extractors apply:
`if (text.length > limit) text = text.substring(0, limit) + '... [content truncated]'`. -/
def truncated (text : JStr) (limit : Nat) : JStr :=
  if text.length > limit then substring0 text limit ++ js "... [content truncated]" else text

mutual
/-- The text of a node that lies in no element satisfying `removed` below it. -/
def Node.keptText (removed : Node → Bool) : Node → JStr
  | .text data => data
  | .comment _ => []
  | .element _ _ children => keptTextList removed children
termination_by structural n => n
/-- The concatenation, in document order, of the text nodes among the siblings
and their descendants that have no ancestor-or-self satisfying `removed` among
the siblings and their descendants. -/
def keptTextList (removed : Node → Bool) : List Node → JStr
  | [] => []
  | n :: ns =>
    if removed n then keptTextList removed ns
    else n.keptText removed ++ keptTextList removed ns
termination_by structural ns => ns
end

/-- `Pruned R before after`: the siblings `after` are the siblings `before` from
which some elements whose tag and attributes satisfy `R` have been removed,
each with everything inside it; every other node is kept, in place. -/
inductive Pruned (R : JStr → Attrs → Prop) : List Node → List Node → Prop where
  | nil : Pruned R [] []
  | drop {tag : JStr} {attrs : Attrs} {children ns ns2 : List Node} :
      R tag attrs → Pruned R ns ns2 → Pruned R (.element tag attrs children :: ns) ns2
  | keepElement {tag : JStr} {attrs : Attrs} {children children2 ns ns2 : List Node} :
      Pruned R children children2 → Pruned R ns ns2 →
      Pruned R (.element tag attrs children :: ns) (.element tag attrs children2 :: ns2)
  | keepText {data : JStr} {ns ns2 : List Node} :
      Pruned R ns ns2 → Pruned R (.text data :: ns) (.text data :: ns2)
  | keepComment {data : JStr} {ns ns2 : List Node} :
      Pruned R ns ns2 → Pruned R (.comment data :: ns) (.comment data :: ns2)

/-- An element written with string literals. -/
def elem (tag : String) (attrs : List (String × String)) (children : List Node) : Node :=
  .element (js tag) (attrs.map (fun a => (js a.1, js a.2))) children

/-- A text node written with a string literal. -/
def txt (data : String) : Node := .text (js data)

/-- A page with the given document element and nothing else of interest. -/
def pageOf (root : Node) : Page := ⟨[root], [], [], [], []⟩

/-- The children of the `main` element of `samplePage`:
`Hello <script>track()</script><div class="ad">Buy now</div>world`. -/
def sampleMainChildren : List Node :=
  [txt "Hello ", elem "script" [] [txt "track()"],
   elem "div" [("class", "ad")] [txt "Buy now"], txt "world"]

/-- The page
`<html><body><article>Side</article><main>Hello <script>track()</script>`
`<div class="ad">Buy now</div>world</main></body></html>`. -/
def samplePage : Page :=
  pageOf (elem "html" [] [elem "body" []
    [elem "article" [] [txt "Side"], elem "main" [] sampleMainChildren]])

/-- The element
`<main><div class="ad-top">x</div><div class="ad-bottom">y</div></main>`. -/
def adjacentAdsMain : Node :=
  elem "main" []
    [elem "div" [("class", "ad-top")] [txt "x"],
     elem "div" [("class", "ad-bottom")] [txt "y"]]

/-- The page `<html><body>`*adjacentAdsMain*`</body></html>`. -/
def adjacentAdsPage : Page :=
  pageOf (elem "html" [] [elem "body" [] [adjacentAdsMain]])

/-- The page `<svg>drawing</svg>`, in which no content selector matches. -/
def svgPage : Page := pageOf (elem "svg" [] [txt "drawing"])

end Dom

/-! ## `src/lib/context.js` -/

namespace Context

open Dom

/-- The merged configuration `config` of `extractPageContext`. -/
structure Config where
  maxContextChars : Nat
  includePageTitle : Bool
  includeUrl : Bool
  includeMetaDescription : Bool
  includeMainContent : Bool
  includeSelection : Bool

/-- `DEFAULT_CONFIG` of `context.js`. -/
def DEFAULT_CONFIG : Config where
  maxContextChars := 10000
  includePageTitle := true
  includeUrl := true
  includeMetaDescription := true
  includeMainContent := true
  includeSelection := true

/-- The `options` argument: the members it defines. -/
structure Options where
  maxContextChars : Option Nat := none
  includePageTitle : Option Bool := none
  includeUrl : Option Bool := none
  includeMetaDescription : Option Bool := none
  includeMainContent : Option Bool := none
  includeSelection : Option Bool := none

/-- `{ ...DEFAULT_CONFIG, ...options }`. -/
def mergeConfig (options : Options) : Config where
  maxContextChars := options.maxContextChars.getD DEFAULT_CONFIG.maxContextChars
  includePageTitle := options.includePageTitle.getD DEFAULT_CONFIG.includePageTitle
  includeUrl := options.includeUrl.getD DEFAULT_CONFIG.includeUrl
  includeMetaDescription :=
    options.includeMetaDescription.getD DEFAULT_CONFIG.includeMetaDescription
  includeMainContent := options.includeMainContent.getD DEFAULT_CONFIG.includeMainContent
  includeSelection := options.includeSelection.getD DEFAULT_CONFIG.includeSelection

/-- The record `extractPageContext` returns. -/
structure PageContext where
  title : JStr
  url : JStr
  description : JStr
  content : JStr
  selection : JStr
  timestamp : JStr

/-- The `selectors` of `extractMainContent` and of `getMainContentElement`. -/
def selectors : List Selector :=
  [.tag (js "main"), .tag (js "article"), .cls (js "main-content"), .cls (js "article"),
   .cls (js "post"), .id (js "content"), .id (js "main"), .tag (js "body")]

/-- The `elementsToRemove` of `cleanElement`. -/
def elementsToRemove : List Selector :=
  [.tag (js "script"), .tag (js "style"), .tag (js "noscript"), .tag (js "link"),
   .tag (js "meta"), .tag (js "svg"), .tag (js "img"), .tag (js "picture"),
   .tag (js "iframe"), .tag (js "video"), .tag (js "audio"), .tag (js "canvas"),
   .tag (js "figure"), .tag (js "nav"), .tag (js "header"), .tag (js "footer"),
   .tag (js "aside"), .tag (js "form"), .tag (js "button"), .tag (js "input"),
   .tag (js "select"), .tag (js "textarea"), .tag (js "label"), .cls (js "ad"),
   .cls (js "advertisement"), .cls (js "ads"), .cls (js "ad-container"),
   .cls (js "ad-wrapper"), .cls (js "sidebar"), .cls (js "related-posts"),
   .cls (js "related-articles"), .cls (js "related-content"), .cls (js "comments"),
   .cls (js "comment-section"), .cls (js "social-share"), .cls (js "sharing"),
   .cls (js "newsletter"), .cls (js "newsletter-signup"), .cls (js "newsletter-form"),
   .cls (js "modal"), .cls (js "popup"), .cls (js "lightbox"), .cls (js "cookie-banner"),
   .cls (js "cookie-consent"), .cls (js "privacy-banner"), .cls (js "gdpr-banner"),
   .cls (js "cc_banner"), .cls (js "cc-window"), .cls (js "notification"), .cls (js "alert"),
   .cls (js "banner"), .cls (js "promo"), .cls (js "promotion"), .cls (js "recommendations"),
   .cls (js "trending"), .cls (js "popular"), .cls (js "most-read"), .cls (js "pagination"),
   .cls (js "pager"), .cls (js "page-nav"), .cls (js "pagination-container"),
   .cls (js "breadcrumbs"), .cls (js "breadcrumb"), .cls (js "navigation"),
   .cls (js "nav-links"), .cls (js "menu"), .cls (js "main-menu"), .cls (js "submenu"),
   .cls (js "footer-menu"), .cls (js "hidden"), .cls (js "sr-only"),
   .cls (js "visually-hidden"), .cls (js "d-none"), .cls (js "is-hidden")]

/-- The condition of the class loop of `cleanElement`, for
`classNames = el.className ? el.className.toLowerCase() : ''`. -/
def hasNoiseClass (lower : JStr → JStr) : Node → Bool
  | .element _ attrs _ =>
    let classNames := if (className attrs).isEmpty then [] else lower (className attrs)
    includes classNames (js "ad-") ||
    includes classNames (js "banner") ||
    includes classNames (js "popup") ||
    includes classNames (js "modal") ||
    includes classNames (js "cookie") ||
    includes classNames (js "gdpr") ||
    includes classNames (js "privacy") ||
    includes classNames (js "consent") ||
    includes classNames (js "newsletter") ||
    includes classNames (js "promo")
  | _ => false

/-- The loop `for (let el of allElements)` over the live collection
`element.getElementsByTagName('*')`: the iterator reads `allElements[i]` for
`i = 0, 1, ...` from the collection as it is at that moment, and stops at the
first index that is out of range. `fuel` bounds the number of iterations. -/
def removeByClass (lower : JStr → JStr) : Nat → Nat → List Node → List Node
  | 0, _, nodes => nodes
  | fuel + 1, i, nodes =>
    match (elementsOfList nodes)[i]? with
    | none => nodes
    | some el =>
      if hasNoiseClass lower el then removeByClass lower fuel (i + 1) (removeNthList nodes i)
      else removeByClass lower fuel (i + 1) nodes

/-- The attributes the last loop of `cleanElement` keeps: those whose name
neither starts with `on` nor is `style`. -/
def keptAttribute (name : JStr) : Bool := !(startsWith name (js "on") || name == js "style")

/-- Function `cleanElement(element)`: the element afterwards. The class loop
gets one unit of fuel per element of the collection it starts with. -/
def cleanElement (lower : JStr → JStr) : Node → Node
  | .element tag attrs children =>
    let afterSelectors := elementsToRemove.foldl removeBySelector children
    let afterClasses :=
      removeByClass lower (elementsOfList afterSelectors).length 0 afterSelectors
    .element tag (attrs.filter (fun a => !(a.1 == js "style")))
      (filterAttrsList keptAttribute afterClasses)
  | n => n

/-- The text clean-up of `extractMainContent`:
`.replace(/\s+/g, ' ').replace(/\n+/g, '\n').trim()`. -/
def normalize (text : JStr) : JStr :=
  trim (collapseRuns (fun c => c == 10) 10 (collapseRuns isSpace 32 text))

/-- Function `extractMainContent()`. -/
def extractMainContent (lower : JStr → JStr) (page : Page) : JStr :=
  match firstMatch page selectors with
  | none => []
  | some contentElement =>
    let clone := contentElement
    normalize (cleanElement lower clone).textContent

/-- The selector `meta[name="description"]`. -/
def metaDescription : Selector := .tagAttr (js "meta") (js "name") (js "description")

/-- `metaDescription.content` of a `meta` element. -/
def contentOfMeta : Node → JStr
  | .element _ attrs _ => (getAttribute attrs (js "content")).getD []
  | _ => []

/-- Function `extractPageContext(options)`. -/
def extractPageContext (lower : JStr → JStr) (page : Page) (options : Options) : PageContext :=
  let config := mergeConfig options
  { title := if config.includePageTitle then page.title else []
    url := page.href
    description :=
      if config.includeMetaDescription then
        match querySelector page.nodes metaDescription with
        | some meta => contentOfMeta meta
        | none => []
      else []
    content :=
      if config.includeMainContent then
        truncated (extractMainContent lower page) config.maxContextChars
      else []
    selection := if config.includeSelection then trim page.selection else []
    timestamp := page.now }

/-- Function `getElementText(element)`. -/
def getElementText (element : Option Node) : JStr :=
  match element with
  | none => []
  | some el => trim (collapseRuns isSpace 32 el.textContent)

/-- Function `getMainContentElement()`. -/
def getMainContentElement (page : Page) : Option Node := firstMatch page selectors

end Context

/-! ## `src/content.js` -/

namespace Content

open Dom

/-- The `selectors` of `getMainContent`. -/
def selectors : List Selector :=
  [.tag (js "main"), .tag (js "article"), .cls (js "main-content"), .cls (js "article"),
   .cls (js "post"), .id (js "content"), .id (js "main"), .tag (js "body")]

/-- The `elementsToRemove` of `getMainContent`. -/
def elementsToRemove : List Selector :=
  [.tag (js "script"), .tag (js "style"), .tag (js "nav"), .tag (js "header"),
   .tag (js "footer"), .tag (js "aside"), .tag (js "form"), .tag (js "iframe"),
   .tag (js "button"), .cls (js "ad"), .cls (js "advertisement"), .cls (js "sidebar"),
   .cls (js "comments"), .cls (js "social-share"), .cls (js "related-posts"),
   .cls (js "newsletter")]

/-- The clone after the `elementsToRemove.forEach` of `getMainContent`. -/
def cleaned : Node → Node
  | .element tag attrs children =>
    .element tag attrs (elementsToRemove.foldl removeBySelector children)
  | n => n

/-- The `text` of `getMainContent` before it is truncated:
`clone.textContent.replace(/\s+/g, ' ').trim()`. -/
def mainText (contentElement : Node) : JStr :=
  let clone := contentElement
  trim (collapseRuns isSpace 32 (cleaned clone).textContent)

/-- The constant `MAX_LENGTH`. -/
def MAX_LENGTH : Nat := 20000

/-- Function `getMainContent()`. -/
def getMainContent (page : Page) : JStr :=
  match firstMatch page selectors with
  | none => []
  | some contentElement => truncated (mainText contentElement) MAX_LENGTH

end Content

/-! ## The document as mutable state

`extractMainContent` and `getMainContent` work on objects: `el.remove()` and
`el.removeAttribute()` change the tree the element belongs to. Here the state is
explicit: the live document and the detached tree made by `cloneNode(true)`;
an element is referred to by where it is. -/

namespace Dom

mutual
/-- The node after `f` has been applied to its descendant element number `i`
(in document order, from 0). -/
def Node.modifyNth (f : Node → Node) : Node → Nat → Node
  | .element tag attrs children, i => .element tag attrs (modifyNthList f children i)
  | n, _ => n
termination_by structural n => n
/-- The siblings after `f` has been applied to the element that is number `i`
of `elementsOfList`: a mutation of that element in place. -/
def modifyNthList (f : Node → Node) : List Node → Nat → List Node
  | [], _ => []
  | n :: ns, i =>
    if n.elements.length = 0 then n :: modifyNthList f ns i
    else if i = 0 then f n :: ns
    else if i < n.elements.length then n.modifyNth f (i - 1) :: ns
    else n :: modifyNthList f ns (i - n.elements.length)
termination_by structural ns => ns
end

/-- The index of the first member satisfying `p`. -/
def indexOfFirst (p : Node → Bool) : List Node → Option Nat
  | [] => none
  | n :: ns => if p n then some 0 else (indexOfFirst p ns).map (fun i => i + 1)

/-- A reference to an element object. -/
inductive Ref where
  /-- the element of the live document that is number `index` in document order -/
  | live (index : Nat)
  /-- the root of the detached tree made by `cloneNode(true)` -/
  | clone

/-- The objects a call can reach: the page with its live document, and the
detached copy, once one has been made. -/
structure World where
  page : Page
  clone : Option Node

/-- The element a reference points to. -/
def World.deref (w : World) : Ref → Option Node
  | .live index => (elementsOfList w.page.nodes)[index]?
  | .clone => w.clone

/-- A mutation `f` of the element a reference points to, in the tree it
belongs to. -/
def World.mutate (w : World) (ref : Ref) (f : Node → Node) : World :=
  match ref with
  | .live index => { w with page := { w.page with nodes := modifyNthList f w.page.nodes index } }
  | .clone => { w with clone := w.clone.map f }

/-- `ref.cloneNode(true)`: a deep copy, detached from the document. -/
def World.cloneNode (w : World) (ref : Ref) : World × Ref :=
  ({ w with clone := w.deref ref }, Ref.clone)

/-- `document.querySelector(sel)`, as a reference. -/
def World.querySelector (w : World) (sel : Selector) : Option Ref :=
  (indexOfFirst (fun n => n.matchesSel sel) (elementsOfList w.page.nodes)).map Ref.live

/-- The loop `for (const selector of selectors)` with `document.querySelector`,
as a reference. -/
def World.firstMatch (w : World) : List Selector → Option Ref
  | [] => none
  | selector :: rest =>
    match w.querySelector selector with
    | some element => some element
    | none => w.firstMatch rest

end Dom

namespace Context.Mutable

open Dom

/-- Function `extractMainContent()`, with the state it leaves. -/
def extractMainContent (lower : JStr → JStr) (w : World) : World × JStr :=
  match w.firstMatch selectors with
  | none => (w, [])
  | some contentElement =>
    let cloned := w.cloneNode contentElement
    let cleaned := cloned.1.mutate cloned.2 (cleanElement lower)
    match cleaned.deref cloned.2 with
    | some clone => (cleaned, normalize clone.textContent)
    | none => (cleaned, [])

/-- Function `extractPageContext(options)`, with the state it leaves. -/
def extractPageContext (lower : JStr → JStr) (w : World) (options : Options) :
    World × PageContext :=
  let config := mergeConfig options
  let title := if config.includePageTitle then w.page.title else []
  let description :=
    if config.includeMetaDescription then
      match querySelector w.page.nodes metaDescription with
      | some meta => contentOfMeta meta
      | none => []
    else []
  let extracted :=
    if config.includeMainContent then
      ((extractMainContent lower w).1,
        truncated (extractMainContent lower w).2 config.maxContextChars)
    else (w, [])
  (extracted.1,
    { title := title
      url := w.page.href
      description := description
      content := extracted.2
      selection := if config.includeSelection then trim extracted.1.page.selection else []
      timestamp := w.page.now })

end Context.Mutable

namespace Content.Mutable

open Dom

/-- Function `getMainContent()`, with the state it leaves. -/
def getMainContent (w : World) : World × JStr :=
  match w.firstMatch selectors with
  | none => (w, [])
  | some contentElement =>
    let cloned := w.cloneNode contentElement
    let cleaned := cloned.1.mutate cloned.2 Content.cleaned
    match cleaned.deref cloned.2 with
    | some clone =>
      (cleaned, truncated (trim (collapseRuns isSpace 32 clone.textContent)) MAX_LENGTH)
    | none => (cleaned, [])

end Content.Mutable

/-! ## `src/background.js` -/

namespace Background

open OllamaAPI

/-- The configuration record `getConfig` returns. -/
structure Config where
  endpoint : JStr
  model : JStr
  temperature : JVal
  maxTokens : JVal
  autoOpenSidebar : Bool
  includePageContext : Bool
  maxContextChars : Nat
  /-- absent from the defaults of `background.js`; present once the options page
  has stored one -/
  timeout : Option Nat

/-- `DEFAULT_CONFIG` of `background.js`. -/
def DEFAULT_CONFIG : Config where
  endpoint := js "http://127.0.0.1:11434"
  model := js "mistral"
  temperature := .num false (js "0.7")
  maxTokens := .num false (js "1000")
  autoOpenSidebar := true
  includePageContext := true
  maxContextChars := 10000
  timeout := none

/-- The result object of an action: `{ success: true, [key]: value }` or
`{ success: false, error }`. -/
inductive Result where
  | succeeded (key value : JStr)
  | failed (error : JStr)

/-- The object passed to `ollama.updateConfig` before every request:
`{ endpoint, model, temperature, maxTokens }` of the configuration. -/
def clientConfig (config : Config) : ConfigPatch where
  endpoint := some config.endpoint
  model := some config.model
  temperature := some config.temperature
  maxTokens := some config.maxTokens

/-- The `prompt` of `summarizeText`. -/
def summarizePrompt (text : JStr) : JStr :=
  js "Summarize the following content concisely in 5-8 bullet points.\n\nCONTENT:\n" ++ text

/-- The `prompt` of `explainText`. -/
def explainPrompt (text : JStr) : JStr :=
  js "Explain the following text clearly and briefly, with key points and definitions where helpful.\n\nTEXT:\n"
    ++ text

/-- The `prompt` of `rewriteText`. -/
def rewritePrompt (text : JStr) : JStr :=
  js "Rewrite the following text to improve clarity and tone while preserving meaning. Return only the rewritten text.\n\nTEXT:\n"
    ++ text

/-- The shape `summarizeText`, `explainText` and `rewriteText` share: configure
the client, `await ollama.generate(prompt)`, and return the response under
`key`; the `catch` returns the message of whatever was thrown. -/
def generateAction (key prompt : JStr) (ollama : Instance) (engine : JsError → JStr)
    (env : Env) (parse : JStr → Option JVal) (config : Config) : Result :=
  match (generate (updateConfig ollama (clientConfig config)) env parse prompt none none).result with
  | .ok response => .succeeded key response
  | .error error => .failed (error.message engine)

/-- Function `summarizeText(text, tabId, config)`. -/
def summarizeText (ollama : Instance) (engine : JsError → JStr) (env : Env)
    (parse : JStr → Option JVal) (text : JStr) (config : Config) : Result :=
  generateAction (js "summary") (summarizePrompt text) ollama engine env parse config

/-- Function `explainText(text, tabId, config)`. -/
def explainText (ollama : Instance) (engine : JsError → JStr) (env : Env)
    (parse : JStr → Option JVal) (text : JStr) (config : Config) : Result :=
  generateAction (js "explanation") (explainPrompt text) ollama engine env parse config

/-- Function `rewriteText(text, tabId, config)`. -/
def rewriteText (ollama : Instance) (engine : JsError → JStr) (env : Env)
    (parse : JStr → Option JVal) (text : JStr) (config : Config) : Result :=
  generateAction (js "rewritten") (rewritePrompt text) ollama engine env parse config

/-- The `context` member of a chat request, as far as it is read. -/
structure ChatContext where
  title : JVal
  url : JVal

/-- The `message` argument of `handleProcessChatMessage`. -/
structure ChatRequest where
  message : JStr
  context : Option ChatContext

/-- The fixed system message of `handleProcessChatMessage`. -/
def preamble : JStr :=
  js "You are Callosum, an on-device AI assistant. Be accurate, concise, and cite in-page sections when possible. Never send data to external services."

/-- The `messages` array `handleProcessChatMessage` builds; `stringify` is
`JSON.stringify` on the object `{ title, url }`. -/
def chatMessages (stringify : ChatContext → JStr) (message : ChatRequest) : List Message :=
  [⟨js "system", preamble⟩] ++
  (match message.context with
    | some context => [⟨js "system", js "Page context: " ++ stringify context⟩]
    | none => []) ++
  [⟨js "user", message.message⟩]

/-- Function `handleProcessChatMessage(message, tabId)`; `config` is what
`await getConfig()` settles with. -/
def handleProcessChatMessage (ollama : Instance) (engine : JsError → JStr)
    (stringify : ChatContext → JStr) (env : Env) (parse : JStr → Option JVal)
    (config : Except JsError Config) (message : ChatRequest) : Result :=
  match config with
  | .error error => .failed (error.message engine)
  | .ok config =>
    let messages := chatMessages stringify message
    match (chat (updateConfig ollama (clientConfig config)) env parse messages none none).result with
    | .ok reply => .succeeded (js "reply") reply
    | .error error => .failed (error.message engine)

end Background

/-! ## `src/sidebar.js` -/

namespace Sidebar

open OllamaAPI

/-- What `sendMessage` reads of `currentTab`; `origin` is
`new URL(currentTab.url).origin`, `none` when the constructor throws. -/
structure Tab where
  title : JStr
  url : JStr
  origin : Option JStr

/-- The variable `chatHistory`, and the `chatHistory` object kept in
`browser.storage.local`: the stored history of each origin. -/
structure State where
  chatHistory : List Message
  stored : JStr → Option (List Message)

/-- The system message of `sendMessage`. -/
def systemPrompt (tab : Tab) : JStr :=
  js "You are Callosum, an on-device AI assistant. Be accurate, concise, and cite in-page sections when possible. Never send data to external services. Current page: "
    ++ tab.title ++ js " (" ++ tab.url ++ js ")"

/-- The `messages` array of `sendMessage`. -/
def requestMessages (chatHistory : List Message) (tab : Tab) (message : JStr) : List Message :=
  [⟨js "system", systemPrompt tab⟩] ++
  chatHistory.map (fun m => ⟨m.role, m.content⟩) ++
  [⟨js "user", message⟩]

/-- The init object `sendMessage` passes to `fetch`. -/
def chatRequest (config : Background.Config) (messages : List Message) : RequestInit where
  method := some (js "POST")
  signal := some Signal.sidebar
  headers := [(js "Content-Type", js "application/json")]
  body := some
    { model := config.model
      payload := .messages messages
      stream := true
      temperature := config.temperature
      num_predict := config.maxTokens }

/-- The `try` block of `sendMessage` up to the end of the read loop: the
assistant message it accumulates, or what it throws. `config` is what the
`getConfig` message settles with. The read loop is the one of
`OllamaAPI.chat`, without an `onToken` callback. -/
def exchange (chatHistory : List Message) (tab : Tab) (config : Except JsError Background.Config)
    (env : Env) (parse : JStr → Option JVal) (message : JStr) : Except JsError JStr :=
  match config with
  | .error e => .error e
  | .ok config =>
    match fetch env (config.endpoint ++ js "/api/chat")
        (chatRequest config (requestMessages chatHistory tab message)) with
    | .error e => .error e
    | .ok response =>
      if !response.ok then
        .error (.error (js "API request failed with status " ++ natText response.status))
      else
        match response.body with
        | none => .error .typeError
        | some body =>
          match body.ending with
          | .done => .ok (readAll contentOf parse none body.chunks).fullResponse
          | .fail e => .error e

/-- Function `saveChatHistory()`; nothing is stored when the origin cannot be
computed. -/
def saveChatHistory (st : State) (tab : Tab) : State :=
  match tab.origin with
  | none => st
  | some origin =>
    { st with stored := fun o => if o = origin then some st.chatHistory else st.stored o }

/-- `history.slice(-20)`. -/
def lastTwenty (history : List Message) : List Message := history.drop (history.length - 20)

/-- The history after
`chatHistory.push({ role: 'user', content: message }, { role: 'assistant', content: assistantMessage })`. -/
def pushExchange (history : List Message) (message assistantMessage : JStr) : List Message :=
  history ++ [⟨js "user", message⟩, ⟨js "assistant", assistantMessage⟩]

/-- Function `sendMessage()`: the state afterwards and the error its `catch`
received, if any; `input` is `userInput.value`. -/
def sendMessage (st : State) (tab : Tab) (config : Except JsError Background.Config)
    (env : Env) (parse : JStr → Option JVal) (input : JStr) : State × Option JsError :=
  let message := trim input
  if message.isEmpty then (st, none)
  else
    match exchange st.chatHistory tab config env parse message with
    | .error error => (st, some error)
    | .ok assistantMessage =>
      let pushed := pushExchange st.chatHistory message assistantMessage
      let chatHistory := if pushed.length > 20 then lastTwenty pushed else pushed
      (saveChatHistory { st with chatHistory := chatHistory } tab, none)

/-- The tab of the examples. -/
def sampleTab : Tab := ⟨js "Example", js "https://example.org/a", some (js "https://example.org")⟩

/-- A sidebar with no history, in memory or stored. -/
def emptyState : State := ⟨[], fun _ => none⟩

end Sidebar

namespace Sidebar

open OllamaAPI

/-- A history of 20 entries: ten exchanges `q`, `a`. -/
def fullHistory : List Message :=
  (List.replicate 10 [(⟨js "user", js "q"⟩ : Message), ⟨js "assistant", js "a"⟩]).flatten

/-- A sidebar whose history, in memory and stored, is `fullHistory`. -/
def fullState : State := ⟨fullHistory, fun _ => some fullHistory⟩

end Sidebar

namespace OllamaAPI

/-- A server that answers every request with the given status and error body, and
an empty stream. -/
def errorEnv (status : Nat) (json : Option JVal) : Env where
  aborted := fun _ => false
  reply := fun _ _ => .resolved { status := status, json := json, body := some ⟨[], .done⟩ }

/-- A network on which every request fails with `TypeError: Failed to fetch`. -/
def offlineEnv : Env where
  aborted := fun _ => false
  reply := fun _ _ => .rejected (.other (js "TypeError") (js "Failed to fetch"))

/-- A client whose endpoint and model are empty. -/
def blankClient : Instance :=
  ⟨{ DEFAULT_CONFIG with endpoint := [], model := [] }, none⟩

end OllamaAPI

namespace OllamaAPI

/-- A server that streams `sampleChunk` in answer to the requests `accepts`
describes and lets every other request fail. -/
def pickyEnv (accepts : JStr → RequestInit → Bool) : Env where
  aborted := fun _ => false
  reply := fun resource init =>
    if accepts resource init then
      .resolved { status := 200, json := none, body := some ⟨[sampleChunk], .done⟩ }
    else .rejected (.other (js "TypeError") (js "Failed to fetch"))

/-- Whether a value is the number shown as `text`. -/
def isNumber (text : JStr) : JVal → Bool
  | .num _ shown => shown == text
  | _ => false

/-- The requests that are a `POST` to `resource` with a JSON content type and a
body `{ model: 'mistral', ..., stream: true, options: { temperature: 0.7,
num_predict: 1000 } }` whose payload satisfies `payload`. -/
def expects (resource : JStr) (payload : Payload → Bool) (actual : JStr)
    (init : RequestInit) : Bool :=
  actual == resource && init.method == some (js "POST") &&
  init.headers == [(js "Content-Type", js "application/json")] &&
  match init.body with
  | some body =>
    body.model == js "mistral" && body.stream && isNumber (js "0.7") body.temperature &&
    isNumber (js "1000") body.num_predict && payload body.payload
  | none => false

/-- The payload `prompt: 'hello'`. -/
def isPromptHello : Payload → Bool
  | .prompt text => text == js "hello"
  | .messages _ => false

/-- The payload `messages: [...]` with the given roles and contents, in order. -/
def isMessages (expected : List (JStr × JStr)) : Payload → Bool
  | .messages list => list.map (fun m => (m.role, m.content)) == expected
  | .prompt _ => false

end OllamaAPI

namespace OllamaAPI

/-- The error body `{"error":"model not found"}`. -/
def modelNotFound : JVal := .obj [(js "error", .str (js "model not found"))]

/-- An engine whose own errors all have the message `internal`. -/
def sampleEngine : JsError → JStr := fun _ => js "internal"

end OllamaAPI

namespace OllamaAPI

/-- Method `checkConnection()`: `_fetchWithTimeout` is called with the resource
only, so the request carries no method, headers or body (a `GET`); the `catch`
logs the error and returns `false`. -/
def checkConnection (self : Instance) (env : Env) : Bool :=
  match _fetchWithTimeout self env (self.config.endpoint ++ js "/api/tags") {} with
  | .ok response => response.ok
  | .error _ => false

/-- The init object of the request `checkConnection` sends. -/
def probeInit : RequestInit := { signal := some Signal.timer }

/-- A chunk holding one complete token line. -/
def wholeLine : JStr := js "data: \x7b\"response\":\"Hi\"\x7d\n"

/-- The bytes of `wholeLine`, cut in the middle of the line. -/
def splitLine : List JStr := [js "data: \x7b\"resp", js "onse\":\"Hi\"\x7d\n"]

/-- A chunk of lines that do not begin with `data: `: a bare JSON line and a
`data: ` line preceded by a blank. -/
def unprefixedChunk : JStr :=
  js "\x7b\"response\":\"Hi\"\x7d\n data: \x7b\"response\":\"Hi\"\x7d\n"

end OllamaAPI

namespace Background

/-- The `config` object kept in `browser.storage.local`: the members it
defines. -/
structure StoredConfig where
  endpoint : Option JStr := none
  model : Option JStr := none
  temperature : Option JVal := none
  maxTokens : Option JVal := none
  autoOpenSidebar : Option Bool := none
  includePageContext : Option Bool := none
  maxContextChars : Option Nat := none
  timeout : Option Nat := none

/-- Function `getConfig()`: `{ ...DEFAULT_CONFIG, ...config }`, where `stored` is
the `config` member that `browser.storage.local.get('config')` settles with,
`none` when there is none. -/
def getConfig (stored : Option StoredConfig) : Config :=
  let config := stored.getD {}
  { endpoint := config.endpoint.getD DEFAULT_CONFIG.endpoint
    model := config.model.getD DEFAULT_CONFIG.model
    temperature := config.temperature.getD DEFAULT_CONFIG.temperature
    maxTokens := config.maxTokens.getD DEFAULT_CONFIG.maxTokens
    autoOpenSidebar := config.autoOpenSidebar.getD DEFAULT_CONFIG.autoOpenSidebar
    includePageContext := config.includePageContext.getD DEFAULT_CONFIG.includePageContext
    maxContextChars := config.maxContextChars.getD DEFAULT_CONFIG.maxContextChars
    timeout := config.timeout.orElse (fun _ => DEFAULT_CONFIG.timeout) }

/-- A stored configuration that only sets the timeout, to five seconds. -/
def fiveSeconds : StoredConfig := { timeout := some 5000 }

/-- The context of the examples: the page `Example` at `https://example.org/a`. -/
def sampleContext : ChatContext := ⟨.str (js "Example"), .str (js "https://example.org/a")⟩

/-- The value of `JSON.stringify` at `sampleContext`. -/
def sampleStringify : ChatContext → JStr := fun _ =>
  js "\x7b\"title\":\"Example\",\"url\":\"https://example.org/a\"\x7d"

end Background

namespace Sidebar

open OllamaAPI

/-- Whether a history consists of whole exchanges: a `user` entry followed by an
`assistant` entry, any number of times. -/
def wholeExchanges : List Message → Bool
  | [] => true
  | [_] => false
  | question :: answer :: rest =>
    question.role == js "user" && answer.role == js "assistant" && wholeExchanges rest

/-- A sidebar on `sampleTab` with one exchange in memory, while storage holds a
history for another origin. -/
def otherOriginState : State :=
  ⟨[⟨js "user", js "q"⟩, ⟨js "assistant", js "a"⟩],
    fun o => if o = js "https://other.example" then some [⟨js "user", js "x"⟩] else none⟩

end Sidebar
/-! ## `src/options.js` -/

namespace OptionsPage

/-- A JavaScript number that `options.js` only tests and copies, such as the
temperature: whether it is falsy (`0`, `-0` or `NaN`), and the text it is shown
as. -/
structure Num where
  falsy : Bool
  shown : JStr
  deriving DecidableEq

/-- The bound `2 ^ 53`: every integer up to it in magnitude is a double, so
that a product of doubles which stays within it is the product of the integers,
and such a number is written with all its digits. -/
def exactLimit : Nat := 2 ^ 53

/-- A JavaScript number that is an integer or `NaN`, as `parseInt` returns them
and as `options.js` stores them. The numbers are doubles: the model follows
their arithmetic and their text within `exactLimit`, and `untracked` stands for
a number it does not follow, one that a computation beyond this range gives. -/
inductive Whole where
  | nan
  | of (value : Int)
  | untracked
  deriving DecidableEq

/-- The integer `value` as the result of a computation: followed within
`exactLimit` only. -/
def Whole.within (value : Int) : Whole :=
  if value.natAbs ≤ exactLimit then .of value else .untracked

/-- The product `n * 1000` of doubles: the product of the integers when that is
within `exactLimit`, where the multiplication rounds nothing. -/
def Whole.times1000 : Whole → Whole
  | .nan => .nan
  | .of value => Whole.within (value * 1000)
  | .untracked => .untracked

/-- The value of `n || fallback`: the fallback replaces `NaN` and `0`. -/
def Whole.orDefault (n : Whole) (fallback : Int) : Whole :=
  match n with
  | .nan => .of fallback
  | .of value => if value = 0 then .of fallback else .of value
  | .untracked => .untracked

/-- The number `parseInt(text, 10)` reads from the text of `n`: the number
itself when it is written with all its digits. -/
def Whole.reread : Whole → Whole
  | .nan => .nan
  | .of value => Whole.within value
  | .untracked => .untracked

/-- The number `parseInt(text, 10)` reads from the text of `n / 1000`: the
integer part of the quotient. Within `exactLimit` the double nearest to the
quotient has the same integer part as the quotient. -/
def Whole.rereadThousandth : Whole → Whole
  | .nan => .nan
  | .of value => if value.natAbs ≤ exactLimit then .of (Int.tdiv value 1000) else .untracked
  | .untracked => .untracked

/-- The value of `x || fallback`. -/
def Num.orDefault (x fallback : Num) : Num := if x.falsy then fallback else x

/-- The value of `text || ''`. -/
def orEmpty (text : JStr) : JStr := if text = [] then [] else text

/-- The configuration object of `options.js`. -/
structure Config where
  endpoint : JStr
  model : JStr
  temperature : Num
  maxTokens : Whole
  maxContextChars : Whole
  timeout : Whole
  autoOpenSidebar : Bool
  includePageContext : Bool
  enableNotifications : Bool
  deriving DecidableEq

/-- `DEFAULT_CONFIG` of `options.js`. -/
def DEFAULT_CONFIG : Config where
  endpoint := js "http://127.0.0.1:11434"
  model := js "mistral"
  temperature := ⟨false, js "0.7"⟩
  maxTokens := .of 1000
  maxContextChars := .of 10000
  timeout := .of 30000
  autoOpenSidebar := true
  includePageContext := true
  enableNotifications := true

/-- The `config` object kept in `browser.storage.local`: the members it
defines. -/
structure StoredConfig where
  endpoint : Option JStr := none
  model : Option JStr := none
  temperature : Option Num := none
  maxTokens : Option Whole := none
  maxContextChars : Option Whole := none
  timeout : Option Whole := none
  autoOpenSidebar : Option Bool := none
  includePageContext : Option Bool := none
  enableNotifications : Option Bool := none
  deriving DecidableEq

/-- The object `{ config }` that `saveSettings` stores: every member is
defined. -/
def Config.stored (config : Config) : StoredConfig where
  endpoint := some config.endpoint
  model := some config.model
  temperature := some config.temperature
  maxTokens := some config.maxTokens
  maxContextChars := some config.maxContextChars
  timeout := some config.timeout
  autoOpenSidebar := some config.autoOpenSidebar
  includePageContext := some config.includePageContext
  enableNotifications := some config.enableNotifications

/-- The merge `{ ...DEFAULT_CONFIG, ...savedConfig.config }`. -/
def merged (saved : Option StoredConfig) : Config :=
  let config := saved.getD {}
  { endpoint := config.endpoint.getD DEFAULT_CONFIG.endpoint
    model := config.model.getD DEFAULT_CONFIG.model
    temperature := config.temperature.getD DEFAULT_CONFIG.temperature
    maxTokens := config.maxTokens.getD DEFAULT_CONFIG.maxTokens
    maxContextChars := config.maxContextChars.getD DEFAULT_CONFIG.maxContextChars
    timeout := config.timeout.getD DEFAULT_CONFIG.timeout
    autoOpenSidebar := config.autoOpenSidebar.getD DEFAULT_CONFIG.autoOpenSidebar
    includePageContext := config.includePageContext.getD DEFAULT_CONFIG.includePageContext
    enableNotifications := config.enableNotifications.getD DEFAULT_CONFIG.enableNotifications }

/-- The form of the options page as `saveSettings` reads it: the text of the
two text fields, the numbers `parseFloat` and `parseInt(..., 10)` read from the
numeric fields, and the state of the check boxes. -/
structure Form where
  /-- `endpointInput.value` -/
  endpoint : JStr
  /-- `modelInput.value` -/
  model : JStr
  /-- `parseFloat(temperatureInput.value)` -/
  temperature : Num
  /-- `parseInt(maxTokensInput.value, 10)` -/
  maxTokens : Whole
  /-- `parseInt(maxContextInput.value, 10)` -/
  maxContext : Whole
  /-- `parseInt(timeoutInput.value, 10)`, a number of seconds -/
  timeout : Whole
  autoOpenSidebar : Bool
  includePageContext : Bool
  enableNotifications : Bool
  deriving DecidableEq

/-- What a call of `saveSettings` leaves behind. -/
structure Saved where
  /-- the `config` member of storage afterwards -/
  storage : Option StoredConfig
  /-- the message and the type given to `showStatus` -/
  status : JStr × JStr
  /-- the value returned; `none` is `undefined` -/
  returned : Option Bool

/-- The `config` object `saveSettings` builds from the form. -/
def configOf (form : Form) : Config where
  endpoint := trim form.endpoint
  model := trim form.model
  temperature := form.temperature
  maxTokens := form.maxTokens
  maxContextChars := form.maxContext
  timeout := form.timeout.times1000
  autoOpenSidebar := form.autoOpenSidebar
  includePageContext := form.includePageContext
  enableNotifications := form.enableNotifications

/-- Function `saveSettings()`; `storage` is the `config` member of storage
before the call. The `checkConnection(config)` that follows a successful save
only updates the connection indicator of the page. -/
def saveSettings (form : Form) (storage : Option StoredConfig) : Saved :=
  let config := configOf form
  if config.endpoint = [] then
    ⟨storage, (js "Ollama server URL is required", js "error"), none⟩
  else if config.model = [] then
    ⟨storage, (js "Default model is required", js "error"), none⟩
  else
    ⟨some config.stored, (js "Settings saved successfully!", js "success"), some true⟩

/-- The values `loadSettings` assigns to the fields of the form. -/
structure Display where
  endpoint : JStr
  model : JStr
  /-- the number of seconds assigned to `timeoutInput.value`, given by its
  thousandfold: the field is assigned `timeoutMillis / 1000` -/
  timeoutMillis : Whole
  temperature : Num
  temperatureDisplay : Num
  maxTokens : Whole
  maxTokensDisplay : Whole
  maxContext : Whole
  maxContextDisplay : Whole
  autoOpenSidebar : Bool
  includePageContext : Bool
  enableNotifications : Bool
  deriving DecidableEq

/-- Function `loadSettings()`: the values it puts into the form, and the
configuration it returns. `(config.timeout / 1000) || 30` is `30` when the
stored timeout is `NaN` or `0`, and a thousandth of the timeout otherwise. The
`checkConnection(config)` before the `return` only updates the connection
indicator of the page. -/
def loadSettings (saved : Option StoredConfig) : Display × Config :=
  let config := merged saved
  ({ endpoint := orEmpty config.endpoint
     model := orEmpty config.model
     timeoutMillis := config.timeout.orDefault 30000
     temperature := config.temperature.orDefault ⟨false, js "0.7"⟩
     temperatureDisplay := config.temperature.orDefault ⟨false, js "0.7"⟩
     maxTokens := config.maxTokens.orDefault 1000
     maxTokensDisplay := config.maxTokens.orDefault 1000
     maxContext := config.maxContextChars.orDefault 10000
     maxContextDisplay := config.maxContextChars.orDefault 10000
     autoOpenSidebar := config.autoOpenSidebar != false
     includePageContext := config.includePageContext != false
     enableNotifications := config.enableNotifications != false },
   config)

/-- The form as `saveSettings` reads it once `loadSettings` has filled it in:
`parseFloat` and `parseInt` read back the number a field was assigned, and
`parseInt` drops the fraction of the seconds. -/
def Display.form (shown : Display) : Form where
  endpoint := shown.endpoint
  model := shown.model
  temperature := shown.temperature
  maxTokens := shown.maxTokens.reread
  maxContext := shown.maxContext.reread
  timeout := shown.timeoutMillis.rereadThousandth
  autoOpenSidebar := shown.autoOpenSidebar
  includePageContext := shown.includePageContext
  enableNotifications := shown.enableNotifications

/-- A form with the default server and model, 45 seconds, and the given
temperature. -/
def sampleForm (temperature : Num) : Form where
  endpoint := js "http://127.0.0.1:11434"
  model := js "mistral"
  temperature := temperature
  maxTokens := .of 1000
  maxContext := .of 10000
  timeout := .of 45
  autoOpenSidebar := true
  includePageContext := false
  enableNotifications := true

/-- The form `sampleForm` with blanks typed around the server and the model. -/
def paddedForm : Form :=
  { sampleForm ⟨false, js "0.5"⟩ with
    endpoint := js " http://127.0.0.1:11434 ", model := js "mistral " }

/-- The form `sampleForm` with a model field that holds only blanks. -/
def blankModelForm : Form := { sampleForm ⟨false, js "0.5"⟩ with model := js "  " }

end OptionsPage

/-! # Properties -/

/-! ## Strings -/

theorem splitLines_ne_nil (s : JStr) : splitLines s ≠ [] := by
  induction s with
  | nil => simp [splitLines]
  | cons c cs ih =>
    unfold splitLines
    split
    · simp
    · split <;> simp

theorem not_mem_of_mem_splitLines (s : JStr) : ∀ l ∈ splitLines s, 10 ∉ l := by
  induction s with
  | nil => simp [splitLines]
  | cons c cs ih =>
    intro l hl
    unfold splitLines at hl
    split at hl
    · rcases List.mem_cons.1 hl with h | h
      · subst h; simp
      · exact ih l h
    · rename_i hc
      split at hl
      · rename_i h0
        exact absurd h0 (splitLines_ne_nil cs)
      · rename_i l0 ls h0
        rcases List.mem_cons.1 hl with h | h
        · subst h
          have := ih l0 (by rw [h0]; simp)
          intro hm
          rcases List.mem_cons.1 hm with h1 | h1
          · exact hc h1.symm
          · exact this h1
        · exact ih l (by rw [h0]; simp [h])

theorem splitLines_of_not_mem (l : JStr) (h : 10 ∉ l) : splitLines l = [l] := by
  induction l with
  | nil => rfl
  | cons c cs ih =>
    have hc : c ≠ 10 := fun e => h (by simp [e])
    have hcs : 10 ∉ cs := fun e => h (by simp [e])
    simp [splitLines, hc, ih hcs]

theorem splitLines_append_cons (l rest : JStr) (h : 10 ∉ l) :
    splitLines (l ++ 10 :: rest) = l :: splitLines rest := by
  induction l with
  | nil => simp [splitLines]
  | cons c cs ih =>
    have hc : c ≠ 10 := fun e => h (by simp [e])
    have hcs : 10 ∉ cs := fun e => h (by simp [e])
    simp [splitLines, hc, ih hcs]

theorem splitLines_joinLines (ls : List JStr) (hne : ls ≠ []) (h : ∀ l ∈ ls, 10 ∉ l) :
    splitLines (joinLines ls) = ls := by
  induction ls with
  | nil => exact absurd rfl hne
  | cons l rest ih =>
    cases rest with
    | nil => simpa [joinLines] using splitLines_of_not_mem l (h l (by simp))
    | cons l2 rest2 =>
      have h1 : 10 ∉ l := h l (by simp)
      have h2 := ih (by simp) (fun x hx => h x (by simp [hx]))
      simp only [joinLines] at h2 ⊢
      rw [splitLines_append_cons l _ h1, h2]

/-! ## The streaming client -/

namespace OllamaAPI

theorem processLine_some (delta : JVal → Option JVal) (parse : JStr → Option JVal)
    (cb : OnToken) (st : Progress) (line : JStr) :
    (processLine delta parse (some cb) st line).tokens
        = st.tokens ++ (lineToken delta parse line).toList ∧
      (processLine delta parse (some cb) st line).fullResponse
        = st.fullResponse ++ ((lineToken delta parse line).toList.map deltaText).flatten := by
  unfold processLine lineToken
  by_cases h1 : startsWith line (js "data: ") = true
  · by_cases h2 : line.drop 6 = js "[DONE]"
    · simp [h1, h2]
    · cases hp : parse (line.drop 6) with
      | none => simp [h1, h2, hp]
      | some parsed =>
        cases hd : delta parsed with
        | none => simp [h1, h2, hp, hd]
        | some d =>
          by_cases ht : d.truthy = true
          · cases hs : d.toStr with
            | none => simp [h1, h2, hp, hd, ht, hs]
            | some text => simp [h1, h2, hp, hd, ht, hs, deltaText]
          · simp [h1, h2, hp, hd, ht]
  · simp [h1]

theorem foldl_processLine_some (delta : JVal → Option JVal) (parse : JStr → Option JVal)
    (cb : OnToken) (lines : List JStr) (st : Progress) :
    (lines.foldl (processLine delta parse (some cb)) st).tokens
        = st.tokens ++ lines.filterMap (lineToken delta parse) ∧
      (lines.foldl (processLine delta parse (some cb)) st).fullResponse
        = st.fullResponse ++
          ((lines.filterMap (lineToken delta parse)).map deltaText).flatten := by
  induction lines generalizing st with
  | nil => simp
  | cons line rest ih =>
    obtain ⟨h1, h2⟩ := processLine_some delta parse cb st line
    obtain ⟨i1, i2⟩ := ih (processLine delta parse (some cb) st line)
    simp only [List.foldl_cons]
    rw [i1, i2, h1, h2]
    cases hl : lineToken delta parse line <;> simp [List.filterMap_cons, hl]

theorem foldl_processChunk_some (delta : JVal → Option JVal) (parse : JStr → Option JVal)
    (cb : OnToken) (chunks : List JStr) (st : Progress) :
    (chunks.foldl (processChunk delta parse (some cb)) st).tokens
        = st.tokens ++ (chunks.flatMap linesOf).filterMap (lineToken delta parse) ∧
      (chunks.foldl (processChunk delta parse (some cb)) st).fullResponse
        = st.fullResponse ++
          (((chunks.flatMap linesOf).filterMap (lineToken delta parse)).map deltaText).flatten := by
  induction chunks generalizing st with
  | nil => simp
  | cons chunk rest ih =>
    obtain ⟨h1, h2⟩ := foldl_processLine_some delta parse cb (linesOf chunk) st
    obtain ⟨i1, i2⟩ := ih (processChunk delta parse (some cb) st chunk)
    simp only [List.foldl_cons]
    rw [i1, i2]
    unfold processChunk
    rw [h1, h2]
    simp [List.flatMap_cons, List.filterMap_append]

theorem readAll_some (delta : JVal → Option JVal) (parse : JStr → Option JVal)
    (cb : OnToken) (chunks : List JStr) :
    (readAll delta parse (some cb) chunks).tokens
        = (chunks.flatMap linesOf).filterMap (lineToken delta parse) ∧
      (readAll delta parse (some cb) chunks).fullResponse
        = ((readAll delta parse (some cb) chunks).tokens.map deltaText).flatten := by
  obtain ⟨h1, h2⟩ := foldl_processChunk_some delta parse cb chunks Progress.init
  unfold readAll
  rw [h2, h1]
  simp [Progress.init]

theorem streamCall_of_resolved (self : Instance) (env : Env) (parse : JStr → Option JVal)
    (path : JStr) (payload : Payload) (delta : JVal → Option JVal)
    (onToken : Option OnToken) (signal : Option Signal) (r : Response) (body : Body)
    (htimer : env.aborted Signal.timer = false)
    (hreply : ∀ resource init, env.reply resource init = .resolved r)
    (hok : r.ok = true) (hbody : r.body = some body) :
    streamCall self env parse path payload delta onToken signal =
      match body.ending with
      | .done =>
        ⟨.ok (readAll delta parse onToken body.chunks).fullResponse,
          (readAll delta parse onToken body.chunks).tokens,
          (readAll delta parse onToken body.chunks).logged⟩
      | .fail e =>
        ⟨.error (rethrow e), (readAll delta parse onToken body.chunks).tokens,
          (readAll delta parse onToken body.chunks).logged⟩ := by
  simp [streamCall, _fetchWithTimeout, fetch, fetchInit, htimer, hreply, hok, hbody]

theorem streamCall_ok_eq (self : Instance) (env : Env) (parse : JStr → Option JVal)
    (path : JStr) (payload : Payload) (delta : JVal → Option JVal)
    (cb : OnToken) (signal : Option Signal) (s : JStr)
    (h : (streamCall self env parse path payload delta (some cb) signal).result = .ok s) :
    s = ((streamCall self env parse path payload delta (some cb) signal).tokens.map
      deltaText).flatten := by
  revert h
  unfold streamCall
  split
  · simp [Outcome.failed]
  · split
    · simp [Outcome.failed]
    · split
      · simp [Outcome.failed]
      · rename_i body _
        split
        · intro h
          simp only [Except.ok.injEq] at h
          rw [← h]
          exact (readAll_some delta parse cb body.chunks).2
        · simp

theorem trim_nil : trim [] = [] := rfl

theorem linesOf_joinLines (ls : List JStr) (h : ∀ l ∈ ls, 10 ∉ l) :
    linesOf (joinLines ls) = ls.filter (fun line => decide (trim line ≠ [])) := by
  unfold linesOf
  cases ls with
  | nil => simp [joinLines, splitLines, trim_nil]
  | cons l rest => rw [splitLines_joinLines _ (by simp) h]

theorem foldl_filter_of_skip {σ α : Type} (f : σ → α → σ) (p : α → Bool)
    (hskip : ∀ st x, p x = false → f st x = st) (l : List α) (st : σ) :
    (l.filter p).foldl f st = l.foldl f st := by
  induction l generalizing st with
  | nil => rfl
  | cons x rest ih =>
    cases hx : p x with
    | true => simp [List.filter_cons, hx, ih]
    | false => simp [List.filter_cons, hx, ih, hskip st x hx]

theorem processLine_doneLine (delta : JVal → Option JVal) (parse : JStr → Option JVal)
    (onToken : Option OnToken) (st : Progress) :
    processLine delta parse onToken st doneLine = st := by
  have h1 : startsWith doneLine (js "data: ") = true := by decide
  have h2 : doneLine.drop 6 = js "[DONE]" := by decide
  simp [processLine, h1, h2]

theorem processChunk_dropDone (delta : JVal → Option JVal) (parse : JStr → Option JVal)
    (onToken : Option OnToken) (st : Progress) (chunk : JStr) :
    processChunk delta parse onToken st (dropDone chunk)
      = processChunk delta parse onToken st chunk := by
  unfold processChunk dropDone
  rw [linesOf_joinLines _ (fun l hl =>
    not_mem_of_mem_splitLines chunk l (List.mem_of_mem_filter hl))]
  unfold linesOf
  rw [List.filter_comm]
  apply foldl_filter_of_skip
  intro st x hx
  have : x = doneLine := by simpa using hx
  rw [this, processLine_doneLine]

theorem readAll_dropDone (delta : JVal → Option JVal) (parse : JStr → Option JVal)
    (onToken : Option OnToken) (chunks : List JStr) :
    readAll delta parse onToken (chunks.map dropDone) = readAll delta parse onToken chunks := by
  unfold readAll
  generalize Progress.init = st
  induction chunks generalizing st with
  | nil => rfl
  | cons c rest ih => simp [List.foldl_cons, processChunk_dropDone, ih]

theorem streamCall_withChunks (self : Instance) (env : Env) (parse : JStr → Option JVal)
    (path : JStr) (payload : Payload) (delta : JVal → Option JVal)
    (onToken : Option OnToken) (signal : Option Signal) (cs cs2 : List JStr)
    (hf : (readAll delta parse onToken cs).fullResponse
      = (readAll delta parse onToken cs2).fullResponse)
    (ht : (readAll delta parse onToken cs).tokens = (readAll delta parse onToken cs2).tokens) :
    (streamCall self (env.withChunks cs) parse path payload delta onToken signal).result
        = (streamCall self (env.withChunks cs2) parse path payload delta onToken signal).result ∧
      (streamCall self (env.withChunks cs) parse path payload delta onToken signal).tokens
        = (streamCall self (env.withChunks cs2) parse path payload delta onToken signal).tokens ∧
      ((readAll delta parse onToken cs).logged = (readAll delta parse onToken cs2).logged →
        streamCall self (env.withChunks cs) parse path payload delta onToken signal
          = streamCall self (env.withChunks cs2) parse path payload delta onToken signal) := by
  unfold streamCall _fetchWithTimeout fetch Env.withChunks
  simp only [fetchInit, Option.map_some', Option.getD_some]
  by_cases ha : env.aborted Signal.timer = true
  · simp [ha]
  · generalize env.reply _ _ = rep
    cases rep with
    | rejected e => simp [Reply.withChunks, ha]
    | resolved r =>
      cases hb : r.body with
      | none => simp [Reply.withChunks, hb, Response.ok, ha]
      | some body =>
        by_cases hok : r.ok = true
        · have hok2 : ∀ b : Option Body, Response.ok { r with body := b } = true := by
            intro b; simpa [Response.ok] using hok
          cases he : body.ending with
          | done => simp [Reply.withChunks, hb, hok2, he, hf, ht, ha]
          | fail e => simp [Reply.withChunks, hb, hok2, he, ht, ha]
        · have hok2 : ∀ b : Option Body, ¬ Response.ok { r with body := b } = true := by
            intro b; simpa [Response.ok] using hok
          simp [Reply.withChunks, hb, hok2, httpError, ha]

/-- C2: a `data: [DONE]` line adds nothing to the accumulator, triggers no
`onToken` call and does not end the stream: deleting every such line from every
chunk changes nothing in what `generate` and `chat` return or report. -/
theorem done_sentinel_contributes_nothing (self : Instance) (env : Env)
    (parse : JStr → Option JVal) (prompt : JStr) (messages : List Message)
    (onToken : Option OnToken) (signal : Option Signal) (chunks : List JStr) :
    generate self (env.withChunks (chunks.map dropDone)) parse prompt onToken signal
        = generate self (env.withChunks chunks) parse prompt onToken signal ∧
      chat self (env.withChunks (chunks.map dropDone)) parse messages onToken signal
        = chat self (env.withChunks chunks) parse messages onToken signal := by
  constructor
  · exact (streamCall_withChunks self env parse _ _ responseOf onToken signal _ _
      (by rw [readAll_dropDone]) (by rw [readAll_dropDone])).2.2 (by rw [readAll_dropDone])
  · exact (streamCall_withChunks self env parse _ _ contentOf onToken signal _ _
      (by rw [readAll_dropDone]) (by rw [readAll_dropDone])).2.2 (by rw [readAll_dropDone])

theorem processLine_congr (delta : JVal → Option JVal) (parse : JStr → Option JVal)
    (onToken : Option OnToken) (st st2 : Progress) (line : JStr)
    (hf : st.fullResponse = st2.fullResponse) (ht : st.tokens = st2.tokens) :
    (processLine delta parse onToken st line).fullResponse
        = (processLine delta parse onToken st2 line).fullResponse ∧
      (processLine delta parse onToken st line).tokens
        = (processLine delta parse onToken st2 line).tokens := by
  unfold processLine
  by_cases h1 : startsWith line (js "data: ") = true
  · by_cases h2 : line.drop 6 = js "[DONE]"
    · simp [h1, h2, hf, ht]
    · cases hp : parse (line.drop 6) with
      | none => simp [h1, h2, hp, hf, ht]
      | some parsed =>
        cases hd : delta parsed with
        | none => simp [h1, h2, hp, hd, hf, ht]
        | some d =>
          by_cases htr : d.truthy = true
          · cases hs : d.toStr with
            | none => simp [h1, h2, hp, hd, htr, hs, hf, ht]
            | some text => cases onToken <;> simp [h1, h2, hp, hd, htr, hs, hf, ht]
          · simp [h1, h2, hp, hd, htr, hf, ht]
  · simp [h1, hf, ht]

theorem foldl_processLine_congr (delta : JVal → Option JVal) (parse : JStr → Option JVal)
    (onToken : Option OnToken) (lines : List JStr) (st st2 : Progress)
    (hf : st.fullResponse = st2.fullResponse) (ht : st.tokens = st2.tokens) :
    (lines.foldl (processLine delta parse onToken) st).fullResponse
        = (lines.foldl (processLine delta parse onToken) st2).fullResponse ∧
      (lines.foldl (processLine delta parse onToken) st).tokens
        = (lines.foldl (processLine delta parse onToken) st2).tokens := by
  induction lines generalizing st st2 with
  | nil => exact ⟨hf, ht⟩
  | cons line rest ih =>
    obtain ⟨h1, h2⟩ := processLine_congr delta parse onToken st st2 line hf ht
    exact ih _ _ h1 h2

theorem foldl_processChunk_congr (delta : JVal → Option JVal) (parse : JStr → Option JVal)
    (onToken : Option OnToken) (chunks : List JStr) (st st2 : Progress)
    (hf : st.fullResponse = st2.fullResponse) (ht : st.tokens = st2.tokens) :
    (chunks.foldl (processChunk delta parse onToken) st).fullResponse
        = (chunks.foldl (processChunk delta parse onToken) st2).fullResponse ∧
      (chunks.foldl (processChunk delta parse onToken) st).tokens
        = (chunks.foldl (processChunk delta parse onToken) st2).tokens := by
  induction chunks generalizing st st2 with
  | nil => exact ⟨hf, ht⟩
  | cons chunk rest ih =>
    obtain ⟨h1, h2⟩ := foldl_processLine_congr delta parse onToken (linesOf chunk) st st2 hf ht
    exact ih _ _ h1 h2

theorem js_data : js "data: " = [100, 97, 116, 97, 58, 32] := by decide

theorem processLine_unparsable (delta : JVal → Option JVal) (parse : JStr → Option JVal)
    (onToken : Option OnToken) (st : Progress) (payload : JStr) (hp : parse payload = none) :
    (processLine delta parse onToken st (js "data: " ++ payload)).fullResponse = st.fullResponse ∧
      (processLine delta parse onToken st (js "data: " ++ payload)).tokens = st.tokens := by
  have h1 : startsWith (js "data: " ++ payload) (js "data: ") = true := by
    simp [startsWith]
  have h2 : (js "data: " ++ payload).drop 6 = payload := by
    rw [js_data]; rfl
  unfold processLine
  rw [h2]
  by_cases h3 : payload = js "[DONE]"
  · simp [h1, h3]
  · simp [h1, h3, hp]

theorem processChunk_insertLine (delta : JVal → Option JVal) (parse : JStr → Option JVal)
    (onToken : Option OnToken) (st : Progress) (payload : JStr) (j : Nat) (chunk : JStr)
    (hp : parse payload = none) (hnl : 10 ∉ payload) :
    (processChunk delta parse onToken st (insertLine (js "data: " ++ payload) j chunk)).fullResponse
        = (processChunk delta parse onToken st chunk).fullResponse ∧
      (processChunk delta parse onToken st (insertLine (js "data: " ++ payload) j chunk)).tokens
        = (processChunk delta parse onToken st chunk).tokens := by
  have hbad : 10 ∉ js "data: " ++ payload := by
    rw [js_data]; simpa using hnl
  have hall : ∀ l ∈ (splitLines chunk).take j ++ (js "data: " ++ payload) ::
      (splitLines chunk).drop j, 10 ∉ l := by
    intro l hl
    rcases List.mem_append.1 hl with h | h
    · exact not_mem_of_mem_splitLines chunk l (List.mem_of_mem_take h)
    · rcases List.mem_cons.1 h with h | h
      · rw [h]; exact hbad
      · exact not_mem_of_mem_splitLines chunk l (List.mem_of_mem_drop h)
  unfold processChunk insertLine
  rw [linesOf_joinLines _ hall]
  have horig : linesOf chunk
      = ((splitLines chunk).take j).filter (fun line => decide (trim line ≠ []))
        ++ ((splitLines chunk).drop j).filter (fun line => decide (trim line ≠ [])) := by
    rw [← List.filter_append, List.take_append_drop]; rfl
  rw [horig, List.filter_append, List.foldl_append, List.foldl_append]
  generalize List.foldl (processLine delta parse onToken) st
    (List.filter (fun line => decide (trim line ≠ [])) (List.take j (splitLines chunk))) = mid
  obtain ⟨b1, b2⟩ := processLine_unparsable delta parse onToken mid payload hp
  by_cases hk : trim (js "data: " ++ payload) ≠ []
  · rw [List.filter_cons_of_pos (by simpa using hk), List.foldl_cons]
    exact foldl_processLine_congr delta parse onToken _ _ _ b1 b2
  · rw [List.filter_cons_of_neg (by simpa using hk)]
    exact ⟨rfl, rfl⟩

theorem readAll_insert (delta : JVal → Option JVal) (parse : JStr → Option JVal)
    (onToken : Option OnToken) (pre post : List JStr) (c c2 : JStr)
    (h : ∀ st, (processChunk delta parse onToken st c2).fullResponse
          = (processChunk delta parse onToken st c).fullResponse ∧
        (processChunk delta parse onToken st c2).tokens
          = (processChunk delta parse onToken st c).tokens) :
    (readAll delta parse onToken (pre ++ c2 :: post)).fullResponse
        = (readAll delta parse onToken (pre ++ c :: post)).fullResponse ∧
      (readAll delta parse onToken (pre ++ c2 :: post)).tokens
        = (readAll delta parse onToken (pre ++ c :: post)).tokens := by
  unfold readAll
  rw [List.foldl_append, List.foldl_append, List.foldl_cons, List.foldl_cons]
  obtain ⟨h1, h2⟩ := h (List.foldl (processChunk delta parse onToken) Progress.init pre)
  exact foldl_processChunk_congr delta parse onToken post _ _ h1 h2

theorem processChunk_unparsable (delta : JVal → Option JVal) (parse : JStr → Option JVal)
    (onToken : Option OnToken) (st : Progress) (payload : JStr)
    (hp : parse payload = none) (hnl : 10 ∉ payload) :
    (processChunk delta parse onToken st (js "data: " ++ payload)).fullResponse
        = st.fullResponse ∧
      (processChunk delta parse onToken st (js "data: " ++ payload)).tokens = st.tokens := by
  have hbad : 10 ∉ js "data: " ++ payload := by
    rw [js_data]; simpa using hnl
  unfold processChunk linesOf
  rw [splitLines_of_not_mem _ hbad]
  by_cases hk : trim (js "data: " ++ payload) ≠ []
  · rw [List.filter_cons_of_pos (by simpa using hk)]
    exact processLine_unparsable delta parse onToken st payload hp
  · rw [List.filter_cons_of_neg (by simpa using hk)]
    exact ⟨rfl, rfl⟩

theorem readAll_extra_chunk (delta : JVal → Option JVal) (parse : JStr → Option JVal)
    (onToken : Option OnToken) (pre post : List JStr) (c : JStr)
    (h : ∀ st, (processChunk delta parse onToken st c).fullResponse = st.fullResponse ∧
        (processChunk delta parse onToken st c).tokens = st.tokens) :
    (readAll delta parse onToken (pre ++ c :: post)).fullResponse
        = (readAll delta parse onToken (pre ++ post)).fullResponse ∧
      (readAll delta parse onToken (pre ++ c :: post)).tokens
        = (readAll delta parse onToken (pre ++ post)).tokens := by
  unfold readAll
  rw [List.foldl_append, List.foldl_append, List.foldl_cons]
  obtain ⟨h1, h2⟩ := h (List.foldl (processChunk delta parse onToken) Progress.init pre)
  exact foldl_processChunk_congr delta parse onToken post _ _ h1 h2

/-- C3: a `data: ` line whose payload `JSON.parse` rejects is skipped. Inserting
such a line as a line of its own, either at any line position `j` of any chunk
or as a chunk of its own between any two chunks, changes neither the outcome of
`generate` and `chat` (the returned string, or the failure) nor the deltas
passed to `onToken`. -/
theorem malformed_line_is_skipped (self : Instance) (env : Env)
    (parse : JStr → Option JVal) (prompt : JStr) (messages : List Message)
    (onToken : Option OnToken) (signal : Option Signal)
    (pre post : List JStr) (chunk payload : JStr) (j : Nat)
    (hbad : parse payload = none) (hline : 10 ∉ payload) :
    ((generate self (env.withChunks (pre ++ insertLine (js "data: " ++ payload) j chunk :: post))
          parse prompt onToken signal).result
        = (generate self (env.withChunks (pre ++ chunk :: post)) parse prompt onToken signal).result ∧
      (generate self (env.withChunks (pre ++ insertLine (js "data: " ++ payload) j chunk :: post))
          parse prompt onToken signal).tokens
        = (generate self (env.withChunks (pre ++ chunk :: post)) parse prompt onToken signal).tokens ∧
      (chat self (env.withChunks (pre ++ insertLine (js "data: " ++ payload) j chunk :: post))
          parse messages onToken signal).result
        = (chat self (env.withChunks (pre ++ chunk :: post)) parse messages onToken signal).result ∧
      (chat self (env.withChunks (pre ++ insertLine (js "data: " ++ payload) j chunk :: post))
          parse messages onToken signal).tokens
        = (chat self (env.withChunks (pre ++ chunk :: post)) parse messages onToken signal).tokens) ∧
    ((generate self (env.withChunks (pre ++ (js "data: " ++ payload) :: post))
          parse prompt onToken signal).result
        = (generate self (env.withChunks (pre ++ post)) parse prompt onToken signal).result ∧
      (generate self (env.withChunks (pre ++ (js "data: " ++ payload) :: post))
          parse prompt onToken signal).tokens
        = (generate self (env.withChunks (pre ++ post)) parse prompt onToken signal).tokens ∧
      (chat self (env.withChunks (pre ++ (js "data: " ++ payload) :: post))
          parse messages onToken signal).result
        = (chat self (env.withChunks (pre ++ post)) parse messages onToken signal).result ∧
      (chat self (env.withChunks (pre ++ (js "data: " ++ payload) :: post))
          parse messages onToken signal).tokens
        = (chat self (env.withChunks (pre ++ post)) parse messages onToken signal).tokens) := by
  have key : ∀ (path : JStr) (pl : Payload) (delta : JVal → Option JVal),
      ((streamCall self (env.withChunks (pre ++ insertLine (js "data: " ++ payload) j chunk :: post))
            parse path pl delta onToken signal).result
          = (streamCall self (env.withChunks (pre ++ chunk :: post)) parse path pl delta
              onToken signal).result ∧
        (streamCall self (env.withChunks (pre ++ insertLine (js "data: " ++ payload) j chunk :: post))
            parse path pl delta onToken signal).tokens
          = (streamCall self (env.withChunks (pre ++ chunk :: post)) parse path pl delta
              onToken signal).tokens) ∧
      ((streamCall self (env.withChunks (pre ++ (js "data: " ++ payload) :: post))
            parse path pl delta onToken signal).result
          = (streamCall self (env.withChunks (pre ++ post)) parse path pl delta
              onToken signal).result ∧
        (streamCall self (env.withChunks (pre ++ (js "data: " ++ payload) :: post))
            parse path pl delta onToken signal).tokens
          = (streamCall self (env.withChunks (pre ++ post)) parse path pl delta
              onToken signal).tokens) := by
    intro path pl delta
    obtain ⟨a1, a2⟩ := readAll_insert delta parse onToken pre post chunk
      (insertLine (js "data: " ++ payload) j chunk)
      (fun st => processChunk_insertLine delta parse onToken st payload j chunk hbad hline)
    obtain ⟨b1, b2⟩ := readAll_extra_chunk delta parse onToken pre post (js "data: " ++ payload)
      (fun st => processChunk_unparsable delta parse onToken st payload hbad hline)
    have A := streamCall_withChunks self env parse path pl delta onToken signal _ _ a1 a2
    have B := streamCall_withChunks self env parse path pl delta onToken signal _ _ b1 b2
    exact ⟨⟨A.1, A.2.1⟩, ⟨B.1, B.2.1⟩⟩
  have G := key (js "/api/generate") (.prompt prompt) responseOf
  have C := key (js "/api/chat") (.messages messages) contentOf
  exact ⟨⟨G.1.1, G.1.2, C.1.1, C.1.2⟩, ⟨G.2.1, G.2.2, C.2.1, C.2.2⟩⟩

/-- Witness for C3: the line `data: {oops` put before the second line of
`sampleChunk`; `generate` still returns `Hi`. -/
theorem malformed_line_is_skipped_witness :
    (sampleParse (js "\x7boops") = none ∧ 10 ∉ js "\x7boops") ∧
    (generate sampleClient
        ((sampleEnv [] .done).withChunks ([] ++ insertLine (js "data: " ++ js "\x7boops") 1
          sampleChunk :: [])) sampleParse (js "hello") none none).result
      = (generate sampleClient ((sampleEnv [] .done).withChunks ([] ++ sampleChunk :: []))
          sampleParse (js "hello") none none).result ∧
    (generate sampleClient ((sampleEnv [] .done).withChunks ([] ++ sampleChunk :: []))
          sampleParse (js "hello") none none).result = .ok (js "Hi") :=
  ⟨⟨rfl, by decide⟩,
    (malformed_line_is_skipped sampleClient (sampleEnv [] .done) sampleParse (js "hello") []
      none none [] [] sampleChunk (js "\x7boops") 1 rfl (by decide)).1.1,
    rfl⟩

theorem streamCall_of_timer (self : Instance) (env : Env) (parse : JStr → Option JVal)
    (path : JStr) (payload : Payload) (delta : JVal → Option JVal)
    (onToken : Option OnToken) (signal : Option Signal)
    (htimer : env.aborted Signal.timer = true) :
    streamCall self env parse path payload delta onToken signal =
      Outcome.failed
        (.error (js "Request timed out after " ++ natText self.config.timeout ++ js "ms")) := by
  have h1 : JsError.abortError.name = js "AbortError" := rfl
  have h2 : ¬ (JsError.error (js "Request timed out after " ++ natText self.config.timeout
      ++ js "ms")).name = js "AbortError" := by
    simp only [JsError.name]; decide
  simp only [streamCall, _fetchWithTimeout, fetch, fetchInit, Option.map_some',
    Option.getD_some, htimer, if_true, h1, timeoutOf, requestOptions, Option.getD_none,
    rethrow, h2, if_false]

theorem js_timed_out : js "Request timed out after "
    = [82, 101, 113, 117, 101, 115, 116, 32, 116, 105, 109, 101, 100, 32, 111, 117, 116, 32,
      97, 102, 116, 101, 114, 32] := by decide

theorem js_cancelled : js "Request was cancelled"
    = [82, 101, 113, 117, 101, 115, 116, 32, 119, 97, 115, 32, 99, 97, 110, 99, 101, 108,
      108, 101, 100] := by decide

theorem js_status : js "API request failed with status "
    = [65, 80, 73, 32, 114, 101, 113, 117, 101, 115, 116, 32, 102, 97, 105, 108, 101, 100, 32,
      119, 105, 116, 104, 32, 115, 116, 97, 116, 117, 115, 32] := by decide

/-- C4, as the code behaves: `cancel()` aborts the controller that `generate`
created, yet the init object handed to `fetch` always carries the signal of the
timer controller of `_fetchWithTimeout`, whatever signal `generate`/`chat` put
into the options. A call whose own controller has been aborted by `cancel()`
therefore still completes and returns the streamed text. -/
theorem cancel_signal_is_overwritten :
    (∀ (self : Instance) (payload : Payload) (signal : Option Signal),
      (fetchInit (requestOptions self payload signal)).signal = some Signal.timer) ∧
    (requestOptions sampleClient (.prompt (js "hello")) none).signal = some Signal.own ∧
    (cancel (inFlight sampleClient none)).2 = [Signal.own] ∧
    (cancelledEnv [sampleChunk] .done).aborted Signal.own = true ∧
    (generate sampleClient (cancelledEnv [sampleChunk] .done) sampleParse (js "hello")
      none none).result = .ok (js "Hi") ∧
    (chat sampleClient (cancelledEnv [sampleChunk] .done) sampleParse [] none none).result
      = .ok (js "Hi") :=
  ⟨fun _ _ _ => rfl, rfl, rfl, rfl, rfl, rfl⟩

/-- C5: when a read of the response stream rejects with an `AbortError`, after
any chunks (and so any number of tokens) have been processed, `generate` and
`chat` reject with `Error('Request was cancelled')`; the tokens already reported
to `onToken` are those of the chunks read, and no string is returned. -/
theorem abort_mid_stream_is_cancelled (self : Instance) (env : Env)
    (parse : JStr → Option JVal) (prompt : JStr) (messages : List Message)
    (onToken : Option OnToken) (signal : Option Signal)
    (r : Response) (chunks : List JStr) (e : JsError)
    (htimer : env.aborted Signal.timer = false)
    (hreply : ∀ resource init, env.reply resource init = .resolved r)
    (hok : r.ok = true) (hbody : r.body = some ⟨chunks, .fail e⟩)
    (habort : e.name = js "AbortError") :
    (generate self env parse prompt onToken signal).result
        = .error (.error (js "Request was cancelled")) ∧
      (generate self env parse prompt onToken signal).tokens
        = (readAll responseOf parse onToken chunks).tokens ∧
      (chat self env parse messages onToken signal).result
        = .error (.error (js "Request was cancelled")) ∧
      (chat self env parse messages onToken signal).tokens
        = (readAll contentOf parse onToken chunks).tokens := by
  have hc := streamCall_of_resolved self env parse (js "/api/chat") (.messages messages)
    contentOf onToken signal r ⟨chunks, .fail e⟩ htimer hreply hok hbody
  have hg := streamCall_of_resolved self env parse (js "/api/generate") (.prompt prompt)
    responseOf onToken signal r ⟨chunks, .fail e⟩ htimer hreply hok hbody
  unfold chat generate
  rw [hc, hg]
  simp [rethrow, habort]

/-- Witness for C5: the stream is aborted after `sampleChunk`, whose token `Hi`
has already been reported. -/
theorem abort_mid_stream_is_cancelled_witness :
    (generate sampleClient (sampleEnv [sampleChunk] (.fail .abortError)) sampleParse
        (js "hello") (some fun _ => false) none).result
      = .error (.error (js "Request was cancelled")) ∧
    (generate sampleClient (sampleEnv [sampleChunk] (.fail .abortError)) sampleParse
        (js "hello") (some fun _ => false) none).tokens.length = 1 :=
  ⟨(abort_mid_stream_is_cancelled sampleClient (sampleEnv [sampleChunk] (.fail .abortError))
      sampleParse (js "hello") [] (some fun _ => false) none
      ⟨200, none, some ⟨[sampleChunk], .fail .abortError⟩⟩ [sampleChunk] .abortError rfl
      (fun _ _ => rfl) rfl rfl rfl).1, rfl⟩

/-- C6: when the timer of `_fetchWithTimeout` fires while `fetch` is pending,
`generate` and `chat` reject with `Error('Request timed out after <timeout>ms')`,
`<timeout>` being the configured timeout; this error is neither the
cancellation error nor the status error of a response that is not ok. -/
theorem timeout_is_not_cancellation (self : Instance) (env : Env)
    (parse : JStr → Option JVal) (prompt : JStr) (messages : List Message)
    (onToken : Option OnToken) (signal : Option Signal)
    (htimer : env.aborted Signal.timer = true) :
    (generate self env parse prompt onToken signal).result
        = .error (.error (js "Request timed out after " ++ natText self.config.timeout
            ++ js "ms")) ∧
      (chat self env parse messages onToken signal).result
        = .error (.error (js "Request timed out after " ++ natText self.config.timeout
            ++ js "ms")) ∧
      JsError.error (js "Request timed out after " ++ natText self.config.timeout ++ js "ms")
        ≠ .error (js "Request was cancelled") ∧
      ∀ status : Nat,
        JsError.error (js "Request timed out after " ++ natText self.config.timeout ++ js "ms")
          ≠ .error (js "API request failed with status " ++ natText status) := by
  refine ⟨?_, ?_, ?_, ?_⟩
  · unfold generate
    rw [streamCall_of_timer _ _ _ _ _ _ _ _ htimer]; rfl
  · unfold chat
    rw [streamCall_of_timer _ _ _ _ _ _ _ _ htimer]; rfl
  · rw [js_timed_out, js_cancelled]; simp
  · intro status
    rw [js_timed_out, js_status]; simp

/-- Witness for C6: the default client, whose timeout is 30000 ms. -/
theorem timeout_is_not_cancellation_witness :
    (timedOutEnv [sampleChunk] .done).aborted Signal.timer = true ∧
    (generate sampleClient (timedOutEnv [sampleChunk] .done) sampleParse (js "hello")
        none none).result
      = .error (.error (js "Request timed out after 30000ms")) :=
  ⟨rfl, (timeout_is_not_cancellation sampleClient (timedOutEnv [sampleChunk] .done)
    sampleParse (js "hello") [] none none rfl).1⟩

/-- C1: with an `onToken` callback, whenever `chat` (or `generate`) returns a
string, it is the concatenation, in call order, of the deltas passed to
`onToken`; and when the server delivers the chunks of a complete stream, the
call returns and the deltas are exactly those of the lines of the chunks, in the
order the lines appear in the chunk sequence. -/
theorem chat_returns_concatenation_of_deltas (self : Instance) (env : Env)
    (parse : JStr → Option JVal) (prompt : JStr) (messages : List Message)
    (cb : OnToken) (signal : Option Signal) :
    (∀ s, (chat self env parse messages (some cb) signal).result = .ok s →
        s = ((chat self env parse messages (some cb) signal).tokens.map deltaText).flatten) ∧
    (∀ s, (generate self env parse prompt (some cb) signal).result = .ok s →
        s = ((generate self env parse prompt (some cb) signal).tokens.map deltaText).flatten) ∧
    (∀ (r : Response) (chunks : List JStr),
        env.aborted Signal.timer = false →
        (∀ resource init, env.reply resource init = .resolved r) →
        r.ok = true → r.body = some ⟨chunks, .done⟩ →
        (chat self env parse messages (some cb) signal).tokens
            = (chunks.flatMap linesOf).filterMap (lineToken contentOf parse) ∧
          (chat self env parse messages (some cb) signal).result
            = .ok ((((chunks.flatMap linesOf).filterMap (lineToken contentOf parse)).map
                deltaText).flatten) ∧
          (generate self env parse prompt (some cb) signal).tokens
            = (chunks.flatMap linesOf).filterMap (lineToken responseOf parse) ∧
          (generate self env parse prompt (some cb) signal).result
            = .ok ((((chunks.flatMap linesOf).filterMap (lineToken responseOf parse)).map
                deltaText).flatten)) := by
  refine ⟨fun s h => streamCall_ok_eq _ _ _ _ _ _ _ _ s h,
    fun s h => streamCall_ok_eq _ _ _ _ _ _ _ _ s h, ?_⟩
  intro r chunks htimer hreply hok hbody
  have hc := streamCall_of_resolved self env parse (js "/api/chat") (.messages messages)
    contentOf (some cb) signal r ⟨chunks, .done⟩ htimer hreply hok hbody
  have hg := streamCall_of_resolved self env parse (js "/api/generate") (.prompt prompt)
    responseOf (some cb) signal r ⟨chunks, .done⟩ htimer hreply hok hbody
  obtain ⟨c1, c2⟩ := readAll_some contentOf parse cb chunks
  obtain ⟨g1, g2⟩ := readAll_some responseOf parse cb chunks
  unfold chat generate
  rw [hc, hg]
  simp only []
  rw [c2, g2, c1, g1]
  exact ⟨rfl, rfl, rfl, rfl⟩

/-- Witness for C1: a server streaming `sampleChunk`; both calls return `Hi`
and report the single delta `"Hi"`. -/
theorem chat_returns_concatenation_of_deltas_witness :
    ((chat sampleClient (sampleEnv [sampleChunk] .done) sampleParse [] (some fun _ => false)
          none).result = .ok (js "Hi") ∧
      (generate sampleClient (sampleEnv [sampleChunk] .done) sampleParse (js "hello")
          (some fun _ => false) none).result = .ok (js "Hi")) ∧
    (chat sampleClient (sampleEnv [sampleChunk] .done) sampleParse [] (some fun _ => false)
          none).tokens
        = ([sampleChunk].flatMap linesOf).filterMap (lineToken contentOf sampleParse) :=
  ⟨⟨rfl, rfl⟩,
    ((chat_returns_concatenation_of_deltas sampleClient (sampleEnv [sampleChunk] .done)
      sampleParse (js "hello") [] (fun _ => false) none).2.2
      ⟨200, none, some ⟨[sampleChunk], .done⟩⟩ [sampleChunk] rfl (fun _ _ => rfl) rfl rfl).1⟩

end OllamaAPI

/-! ## The content extractor -/

namespace Dom

theorem js_marker_length : (js "... [content truncated]").length = 23 := by decide

theorem truncated_spec (text : JStr) (limit : Nat) :
    (text.length > limit →
        truncated text limit = text.take limit ++ js "... [content truncated]" ∧
        (truncated text limit).length = limit + 23 ∧
        (truncated text limit).take limit = text.take limit ∧
        text.take limit <+: text) ∧
      (text.length ≤ limit → truncated text limit = text) := by
  constructor
  · intro h
    have hlen : (text.take limit).length = limit := by
      rw [List.length_take]; omega
    have h1 : truncated text limit = text.take limit ++ js "... [content truncated]" := by
      simp [truncated, h, substring0]
    refine ⟨h1, ?_, ?_, List.take_prefix _ _⟩
    · rw [h1, List.length_append, hlen, js_marker_length]
    · rw [h1, List.take_append_of_le_length (by omega), List.take_take]
      simp
  · intro h
    have : ¬ text.length > limit := by omega
    simp [truncated, this]

theorem querySelector_eq_some (nodes : List Node) (sel : Selector)
    (before after : List Node) (e : Node)
    (hsplit : elementsOfList nodes = before ++ e :: after)
    (he : e.matchesSel sel = true) (hbefore : ∀ x ∈ before, x.matchesSel sel = false) :
    querySelector nodes sel = some e := by
  unfold querySelector
  rw [hsplit, List.find?_append]
  have : before.find? (fun n => n.matchesSel sel) = none := by
    rw [List.find?_eq_none]
    intro x hx
    simp [hbefore x hx]
  rw [this]
  simp [List.find?_cons, he]

theorem querySelector_eq_none (nodes : List Node) (sel : Selector)
    (h : ∀ x ∈ elementsOfList nodes, x.matchesSel sel = false) :
    querySelector nodes sel = none := by
  unfold querySelector
  rw [List.find?_eq_none]
  intro x hx
  simp [h x hx]

theorem firstMatch_eq_none (page : Page) (sels : List Selector)
    (h : ∀ s ∈ sels, ∀ x ∈ elementsOfList page.nodes, x.matchesSel s = false) :
    firstMatch page sels = none := by
  induction sels with
  | nil => rfl
  | cons s rest ih =>
    unfold firstMatch
    rw [querySelector_eq_none page.nodes s (h s (by simp))]
    exact ih (fun t ht => h t (by simp [ht]))

theorem firstMatch_append (page : Page) (pre post : List Selector) (sel : Selector) (e : Node)
    (hpre : ∀ s ∈ pre, ∀ x ∈ elementsOfList page.nodes, x.matchesSel s = false)
    (he : querySelector page.nodes sel = some e) :
    firstMatch page (pre ++ sel :: post) = some e := by
  induction pre with
  | nil => simp [firstMatch, he]
  | cons s rest ih =>
    simp only [List.cons_append, firstMatch]
    rw [querySelector_eq_none page.nodes s (hpre s (by simp))]
    exact ih (fun t ht => hpre t (by simp [ht]))

end Dom


namespace Dom

theorem elementsOfList_element (tag : JStr) (attrs : Attrs) (children ns : List Node) :
    elementsOfList (.element tag attrs children :: ns)
      = .element tag attrs children :: (elementsOfList children ++ elementsOfList ns) := by
  simp [elementsOfList, Node.elements]

theorem elementsOfList_text (data : JStr) (ns : List Node) :
    elementsOfList (.text data :: ns) = elementsOfList ns := by
  simp [elementsOfList, Node.elements]

theorem elementsOfList_comment (data : JStr) (ns : List Node) :
    elementsOfList (.comment data :: ns) = elementsOfList ns := by
  simp [elementsOfList, Node.elements]

theorem textOfList_element (tag : JStr) (attrs : Attrs) (children ns : List Node) :
    textOfList (.element tag attrs children :: ns) = textOfList children ++ textOfList ns := by
  simp [textOfList, Node.textContent]

theorem Pruned.refl (R : JStr → Attrs → Prop) : ∀ ns : List Node, Pruned R ns ns
  | [] => .nil
  | .element _ _ children :: ns => .keepElement (Pruned.refl R children) (Pruned.refl R ns)
  | .text _ :: ns => .keepText (Pruned.refl R ns)
  | .comment _ :: ns => .keepComment (Pruned.refl R ns)

theorem Pruned.trans {R : JStr → Attrs → Prop} {a b : List Node} (h1 : Pruned R a b) :
    ∀ {c : List Node}, Pruned R b c → Pruned R a c := by
  induction h1 with
  | nil => intro c h2; exact h2
  | drop hr _ ih => intro c h2; exact .drop hr (ih h2)
  | keepElement _ _ ihc ihn =>
    intro c h2
    cases h2 with
    | drop hr h2n => exact .drop hr (ihn h2n)
    | keepElement h2c h2n => exact .keepElement (ihc h2c) (ihn h2n)
  | keepText _ ih =>
    intro c h2
    cases h2 with
    | keepText h2n => exact .keepText (ih h2n)
  | keepComment _ ih =>
    intro c h2
    cases h2 with
    | keepComment h2n => exact .keepComment (ih h2n)

theorem Pruned.mono {R S : JStr → Attrs → Prop} (hRS : ∀ t a, R t a → S t a)
    {a b : List Node} (h : Pruned R a b) : Pruned S a b := by
  induction h with
  | nil => exact .nil
  | drop hr _ ih => exact .drop (hRS _ _ hr) ih
  | keepElement _ _ ihc ihn => exact .keepElement ihc ihn
  | keepText _ ih => exact .keepText ih
  | keepComment _ ih => exact .keepComment ih

theorem Pruned.length_le {R : JStr → Attrs → Prop} {a b : List Node} (h : Pruned R a b) :
    (elementsOfList b).length ≤ (elementsOfList a).length := by
  induction h with
  | nil => exact Nat.le_refl _
  | drop _ _ ih => rw [elementsOfList_element]; simp only [List.length_cons, List.length_append]; omega
  | keepElement _ _ ihc ihn =>
    rw [elementsOfList_element, elementsOfList_element]
    simp only [List.length_cons, List.length_append]; omega
  | keepText _ ih => rw [elementsOfList_text, elementsOfList_text]; exact ih
  | keepComment _ ih => rw [elementsOfList_comment, elementsOfList_comment]; exact ih

theorem Pruned.forall_elements {R : JStr → Attrs → Prop} (Q : JStr → Attrs → Prop)
    {a b : List Node} (h : Pruned R a b)
    (ha : ∀ t atts c, Node.element t atts c ∈ elementsOfList a → Q t atts) :
    ∀ t atts c, Node.element t atts c ∈ elementsOfList b → Q t atts := by
  induction h with
  | nil => exact ha
  | drop _ _ ih =>
    apply ih
    intro t atts c hm
    exact ha t atts c (by rw [elementsOfList_element]; simp [hm])
  | keepElement _ _ ihc ihn =>
    rename_i tag attrs children children2 ns ns2 _ _
    intro t atts c hm
    rw [elementsOfList_element] at hm
    rcases List.mem_cons.1 hm with h0 | h0
    · injection h0 with h1 h2 h3
      subst h1; subst h2
      exact ha _ _ children (by rw [elementsOfList_element]; simp)
    · rcases List.mem_append.1 h0 with h1 | h1
      · exact ihc (fun t atts c hm => ha t atts c (by rw [elementsOfList_element]; simp [hm])) t atts c h1
      · exact ihn (fun t atts c hm => ha t atts c (by rw [elementsOfList_element]; simp [hm])) t atts c h1
  | keepText _ ih =>
    rw [elementsOfList_text] at ha ⊢
    exact ih ha
  | keepComment _ ih =>
    rw [elementsOfList_comment] at ha ⊢
    exact ih ha

theorem pruned_pruneList (R : JStr → Attrs → Prop) (p : Node → Bool)
    (hp : ∀ t a c, p (.element t a c) = true → R t a)
    (htext : ∀ d, p (.text d) = false) (hcomment : ∀ d, p (.comment d) = false) :
    ∀ ns : List Node, Pruned R ns (pruneList p ns)
  | [] => by simp only [pruneList]; exact .nil
  | .element t a c :: ns => by
    simp only [pruneList]
    split
    · rename_i h
      exact .drop (hp _ _ _ h) (pruned_pruneList R p hp htext hcomment ns)
    · simp only [Node.prune]
      exact .keepElement (pruned_pruneList R p hp htext hcomment c)
        (pruned_pruneList R p hp htext hcomment ns)
  | .text d :: ns => by
    simp only [pruneList, htext, Node.prune]
    exact .keepText (pruned_pruneList R p hp htext hcomment ns)
  | .comment d :: ns => by
    simp only [pruneList, hcomment, Node.prune]
    exact .keepComment (pruned_pruneList R p hp htext hcomment ns)

theorem pruned_removeNthList (R : JStr → Attrs → Prop) :
    ∀ (ns : List Node) (i : Nat),
      (∀ t a c, (elementsOfList ns)[i]? = some (.element t a c) → R t a) →
      Pruned R ns (removeNthList ns i)
  | [], _, _ => by simp only [removeNthList]; exact .nil
  | .text d :: ns, i, h => by
    simp only [removeNthList, Node.elements, List.length_nil, if_true]
    exact .keepText (pruned_removeNthList R ns i (by simpa [elementsOfList_text] using h))
  | .comment d :: ns, i, h => by
    simp only [removeNthList, Node.elements, List.length_nil, if_true]
    exact .keepComment (pruned_removeNthList R ns i (by simpa [elementsOfList_comment] using h))
  | .element t a c :: ns, i, h => by
    have hlen : (Node.element t a c).elements.length = (elementsOfList c).length + 1 := by
      simp [Node.elements]
    simp only [removeNthList, hlen]
    rw [if_neg (Nat.succ_ne_zero _)]
    by_cases h0 : i = 0
    · subst h0
      rw [if_pos rfl]
      exact .drop (h t a c (by simp [elementsOfList_element])) (Pruned.refl R ns)
    · rw [if_neg h0]
      obtain ⟨k, rfl⟩ : ∃ k, i = k + 1 := ⟨i - 1, by omega⟩
      by_cases h1 : k + 1 < (elementsOfList c).length + 1
      · rw [if_pos h1]
        simp only [Node.removeNth, Nat.add_sub_cancel]
        refine .keepElement (pruned_removeNthList R c k ?_) (Pruned.refl R ns)
        intro t2 a2 c2 hget
        apply h t2 a2 c2
        rw [elementsOfList_element, List.getElem?_cons_succ,
          List.getElem?_append_left (by omega)]
        exact hget
      · rw [if_neg h1]
        refine .keepElement (Pruned.refl R c)
          (pruned_removeNthList R ns (k + 1 - ((elementsOfList c).length + 1)) ?_)
        intro t2 a2 c2 hget
        apply h t2 a2 c2
        rw [elementsOfList_element, List.getElem?_cons_succ,
          List.getElem?_append_right (by omega)]
        rw [← hget]
        congr 1
        omega

theorem pruneList_no_match (sel : Selector) :
    ∀ (ns : List Node) (t : JStr) (a : Attrs) (c : List Node),
      Node.element t a c ∈ elementsOfList (pruneList (fun n => n.matchesSel sel) ns) →
      sel.matchesElement t a = false
  | [], _, _, _, h => by simp [pruneList, elementsOfList] at h
  | .text d :: ns, t, a, c, h => by
    simp only [pruneList, Node.matchesSel, Node.prune, elementsOfList_text] at h
    exact pruneList_no_match sel ns t a c (by simpa using h)
  | .comment d :: ns, t, a, c, h => by
    simp only [pruneList, Node.matchesSel, Node.prune, elementsOfList_comment] at h
    exact pruneList_no_match sel ns t a c (by simpa using h)
  | .element t0 a0 c0 :: ns, t, a, c, h => by
    simp only [pruneList, Node.matchesSel] at h
    by_cases hm : sel.matchesElement t0 a0 = true
    · rw [if_pos hm] at h
      exact pruneList_no_match sel ns t a c h
    · rw [if_neg hm] at h
      simp only [Node.prune, elementsOfList_element] at h
      rcases List.mem_cons.1 h with h1 | h1
      · injection h1 with e1 e2 e3
        subst e1; subst e2
        simpa using hm
      · rcases List.mem_append.1 h1 with h2 | h2
        · exact pruneList_no_match sel c0 t a c h2
        · exact pruneList_no_match sel ns t a c h2

theorem pruned_removeBySelector (sel : Selector) (ns : List Node) :
    Pruned (fun t a => sel.matchesElement t a = true) ns (removeBySelector ns sel) :=
  pruned_pruneList _ _ (fun _ _ _ h => h) (fun _ => rfl) (fun _ => rfl) ns

theorem foldl_removeBySelector_spec (sels : List Selector) :
    ∀ ns : List Node,
      Pruned (fun t a => ∃ sel ∈ sels, sel.matchesElement t a = true) ns
          (sels.foldl removeBySelector ns) ∧
        ∀ sel ∈ sels, ∀ t a c,
          Node.element t a c ∈ elementsOfList (sels.foldl removeBySelector ns) →
          sel.matchesElement t a = false := by
  induction sels with
  | nil =>
    intro ns
    exact ⟨Pruned.refl _ ns, fun sel hsel => by simp at hsel⟩
  | cons s rest ih =>
    intro ns
    obtain ⟨ihp, ihn⟩ := ih (removeBySelector ns s)
    simp only [List.foldl_cons]
    constructor
    · exact Pruned.trans
        (Pruned.mono (fun t a h => ⟨s, by simp, h⟩) (pruned_removeBySelector s ns))
        (Pruned.mono (fun t a ⟨x, hx, h⟩ => ⟨x, by simp [hx], h⟩) ihp)
    · intro sel hsel t a c hm
      rcases List.mem_cons.1 hsel with h | h
      · subst h
        exact Pruned.forall_elements (fun t a => sel.matchesElement t a = false) ihp
          (pruneList_no_match sel ns) t a c hm
      · exact ihn sel h t a c hm

theorem textOfList_filterAttrsList (keep : JStr → Bool) :
    ∀ ns : List Node, textOfList (filterAttrsList keep ns) = textOfList ns
  | [] => rfl
  | .text d :: ns => by
    simp only [filterAttrsList, Node.filterAttrs, textOfList, Node.textContent]
    rw [textOfList_filterAttrsList keep ns]
  | .comment d :: ns => by
    simp only [filterAttrsList, Node.filterAttrs, textOfList, Node.textContent]
    rw [textOfList_filterAttrsList keep ns]
  | .element t a c :: ns => by
    simp only [filterAttrsList, Node.filterAttrs, textOfList, Node.textContent]
    rw [textOfList_filterAttrsList keep ns, textOfList_filterAttrsList keep c]

theorem mem_elementsOfList_filterAttrsList (keep : JStr → Bool) :
    ∀ (ns : List Node) (t : JStr) (a : Attrs) (c : List Node),
      Node.element t a c ∈ elementsOfList (filterAttrsList keep ns) →
      ∃ a0 c0, Node.element t a0 c0 ∈ elementsOfList ns ∧ a = a0.filter (fun x => keep x.1)
  | [], _, _, _, h => by simp [filterAttrsList, elementsOfList] at h
  | .text d :: ns, t, a, c, h => by
    simp only [filterAttrsList, Node.filterAttrs, elementsOfList_text] at h ⊢
    exact mem_elementsOfList_filterAttrsList keep ns t a c h
  | .comment d :: ns, t, a, c, h => by
    simp only [filterAttrsList, Node.filterAttrs, elementsOfList_comment] at h ⊢
    exact mem_elementsOfList_filterAttrsList keep ns t a c h
  | .element t0 a0 c0 :: ns, t, a, c, h => by
    simp only [filterAttrsList, Node.filterAttrs, elementsOfList_element] at h ⊢
    rcases List.mem_cons.1 h with h1 | h1
    · injection h1 with e1 e2 e3
      exact ⟨a0, c0, by simp [e1], e2⟩
    · rcases List.mem_append.1 h1 with h2 | h2
      · obtain ⟨a1, c1, hm, ha⟩ := mem_elementsOfList_filterAttrsList keep c0 t a c h2
        exact ⟨a1, c1, by simp [hm], ha⟩
      · obtain ⟨a1, c1, hm, ha⟩ := mem_elementsOfList_filterAttrsList keep ns t a c h2
        exact ⟨a1, c1, by simp [hm], ha⟩

theorem getAttribute_filter (keep : JStr → Bool) (name : JStr) (hkeep : keep name = true)
    (attrs : Attrs) :
    getAttribute (attrs.filter (fun x => keep x.1)) name = getAttribute attrs name := by
  unfold getAttribute
  induction attrs with
  | nil => rfl
  | cons x rest ih =>
    by_cases hx : x.1 = name
    · have hk : keep x.1 = true := by rw [hx]; exact hkeep
      have hb : (x.1 == name) = true := by simp [hx]
      rw [List.filter_cons, if_pos hk, List.find?_cons, List.find?_cons, hb]
    · by_cases hk : keep x.1 = true
      · simpa [List.filter_cons, hk, List.find?_cons, hx] using ih
      · simpa [List.filter_cons, hk, List.find?_cons, hx] using ih

theorem textOfList_pruneList (p : Node → Bool) :
    ∀ ns : List Node, textOfList (pruneList p ns) = keptTextList p ns
  | [] => rfl
  | .text d :: ns => by
    simp only [pruneList, keptTextList]
    split
    · exact textOfList_pruneList p ns
    · simp only [Node.prune, textOfList, Node.textContent, Node.keptText]
      rw [textOfList_pruneList p ns]
  | .comment d :: ns => by
    simp only [pruneList, keptTextList]
    split
    · exact textOfList_pruneList p ns
    · simp only [Node.prune, textOfList, Node.textContent, Node.keptText]
      rw [textOfList_pruneList p ns]
  | .element t a c :: ns => by
    simp only [pruneList, keptTextList]
    split
    · exact textOfList_pruneList p ns
    · simp only [Node.prune, textOfList, Node.textContent, Node.keptText]
      rw [textOfList_pruneList p ns, textOfList_pruneList p c]

theorem pruneList_false : ∀ ns : List Node, pruneList (fun _ => false) ns = ns
  | [] => rfl
  | .text d :: ns => by
    simp only [pruneList, Bool.false_eq_true, if_false, Node.prune]
    rw [pruneList_false ns]
  | .comment d :: ns => by
    simp only [pruneList, Bool.false_eq_true, if_false, Node.prune]
    rw [pruneList_false ns]
  | .element t a c :: ns => by
    simp only [pruneList, Bool.false_eq_true, if_false, Node.prune]
    rw [pruneList_false ns, pruneList_false c]

theorem pruneList_pruneList (p q : Node → Bool)
    (hq : ∀ t a c c2, q (.element t a c) = q (.element t a c2)) :
    ∀ ns : List Node, pruneList q (pruneList p ns) = pruneList (fun n => p n || q n) ns
  | [] => rfl
  | .text d :: ns => by
    by_cases hp : p (.text d) = true
    · simp only [pruneList, hp, if_true, Bool.true_or]
      exact pruneList_pruneList p q hq ns
    · have hp2 : p (.text d) = false := by simpa using hp
      simp only [pruneList, hp2, Bool.false_eq_true, if_false, Node.prune, Bool.false_or]
      rw [pruneList_pruneList p q hq ns]
  | .comment d :: ns => by
    by_cases hp : p (.comment d) = true
    · simp only [pruneList, hp, if_true, Bool.true_or]
      exact pruneList_pruneList p q hq ns
    · have hp2 : p (.comment d) = false := by simpa using hp
      simp only [pruneList, hp2, Bool.false_eq_true, if_false, Node.prune, Bool.false_or]
      rw [pruneList_pruneList p q hq ns]
  | .element t a c :: ns => by
    by_cases hp : p (.element t a c) = true
    · simp only [pruneList, hp, if_true, Bool.true_or]
      exact pruneList_pruneList p q hq ns
    · have hp2 : p (.element t a c) = false := by simpa using hp
      simp only [pruneList, hp2, Bool.false_eq_true, if_false, Node.prune, Bool.false_or]
      rw [hq t a (pruneList p c) c, pruneList_pruneList p q hq ns,
        pruneList_pruneList p q hq c]

theorem foldl_removeBySelector_pruneList (sels : List Selector) :
    ∀ (p : Node → Bool) (ns : List Node),
      sels.foldl removeBySelector (pruneList p ns)
        = pruneList (fun n => p n || sels.any (fun s => n.matchesSel s)) ns := by
  induction sels with
  | nil =>
    intro p ns
    simp
  | cons s rest ih =>
    intro p ns
    simp only [List.foldl_cons, removeBySelector]
    rw [pruneList_pruneList p (fun n => n.matchesSel s) (fun _ _ _ _ => rfl) ns, ih]
    congr 1
    funext n
    simp [Bool.or_assoc]

theorem foldl_removeBySelector_eq (sels : List Selector) (ns : List Node) :
    sels.foldl removeBySelector ns = pruneList (fun n => sels.any (fun s => n.matchesSel s)) ns := by
  have h := foldl_removeBySelector_pruneList sels (fun _ => false) ns
  rw [pruneList_false] at h
  rw [h]
  congr 1

end Dom

namespace Context

open Dom

theorem pruned_removeByClass (lower : JStr → JStr) :
    ∀ (fuel i : Nat) (nodes : List Node),
      Pruned (fun t a => hasNoiseClass lower (.element t a []) = true) nodes
        (removeByClass lower fuel i nodes)
  | 0, _, nodes => Pruned.refl _ nodes
  | fuel + 1, i, nodes => by
    simp only [removeByClass]
    split
    · exact Pruned.refl _ nodes
    · rename_i el hget
      split
      · rename_i hnoise
        refine Pruned.trans (pruned_removeNthList _ nodes i ?_)
          (pruned_removeByClass lower fuel (i + 1) _)
        intro t a c h
        rw [hget] at h
        injection h with h
        subst h
        exact hnoise
      · exact pruned_removeByClass lower fuel (i + 1) nodes

theorem removeByClass_fuel (lower : JStr → JStr) :
    ∀ (fuel extra i : Nat) (nodes : List Node),
      (elementsOfList nodes).length ≤ i + fuel →
      removeByClass lower (fuel + extra) i nodes = removeByClass lower fuel i nodes
  | 0, extra, i, nodes, h => by
    have hnone : (elementsOfList nodes)[i]? = none := by
      rw [List.getElem?_eq_none_iff]; omega
    cases extra with
    | zero => rfl
    | succ e => simp [removeByClass, hnone]
  | fuel + 1, extra, i, nodes, h => by
    have hrw : fuel + 1 + extra = (fuel + extra) + 1 := by omega
    rw [hrw]
    simp only [removeByClass]
    split
    · rfl
    · split
      · refine removeByClass_fuel lower fuel extra (i + 1) _ ?_
        have := Pruned.length_le
          (pruned_removeNthList (fun _ _ => True) nodes i (fun _ _ _ _ => trivial))
        omega
      · exact removeByClass_fuel lower fuel extra (i + 1) nodes (by omega)

theorem removeByClass_of_no_noise (lower : JStr → JStr) :
    ∀ (fuel i : Nat) (nodes : List Node),
      (∀ x ∈ elementsOfList nodes, hasNoiseClass lower x = false) →
      removeByClass lower fuel i nodes = nodes
  | 0, _, _, _ => rfl
  | fuel + 1, i, nodes, h => by
    simp only [removeByClass]
    split
    · rfl
    · rename_i el hget
      have hmem : el ∈ elementsOfList nodes := List.getElem?_mem hget
      simp only [h el hmem, Bool.false_eq_true, if_false]
      exact removeByClass_of_no_noise lower fuel (i + 1) nodes h

end Context

open Dom in
/-- C7: with main content included, the `content` of `extractPageContext` is the
extracted text `t` unchanged when `t.length <= C`, and otherwise the first `C`
code units of `t` followed by `... [content truncated]` (length `C + 23`, its
first `C` code units being a prefix of `t`), where `C` is `maxContextChars`;
`getMainContent` does the same to its text with `C = 20000`. -/
theorem truncation_cuts_at_limit (lower : JStr → JStr) (page : Page)
    (options : Context.Options) :
    ((Context.mergeConfig options).includeMainContent = true →
      ((Context.extractMainContent lower page).length
            > (Context.mergeConfig options).maxContextChars →
          (Context.extractPageContext lower page options).content
              = (Context.extractMainContent lower page).take
                  (Context.mergeConfig options).maxContextChars
                ++ js "... [content truncated]" ∧
            (Context.extractPageContext lower page options).content.length
              = (Context.mergeConfig options).maxContextChars + 23 ∧
            (Context.extractPageContext lower page options).content.take
                (Context.mergeConfig options).maxContextChars
              = (Context.extractMainContent lower page).take
                  (Context.mergeConfig options).maxContextChars ∧
            (Context.extractMainContent lower page).take
                (Context.mergeConfig options).maxContextChars
              <+: Context.extractMainContent lower page) ∧
        ((Context.extractMainContent lower page).length
            ≤ (Context.mergeConfig options).maxContextChars →
          (Context.extractPageContext lower page options).content
            = Context.extractMainContent lower page)) ∧
    (∀ contentElement : Node, firstMatch page Content.selectors = some contentElement →
      ((Content.mainText contentElement).length > 20000 →
          Content.getMainContent page
              = (Content.mainText contentElement).take 20000 ++ js "... [content truncated]" ∧
            (Content.getMainContent page).length = 20000 + 23 ∧
            (Content.getMainContent page).take 20000
              = (Content.mainText contentElement).take 20000 ∧
            (Content.mainText contentElement).take 20000 <+: Content.mainText contentElement) ∧
        ((Content.mainText contentElement).length ≤ 20000 →
          Content.getMainContent page = Content.mainText contentElement)) := by
  constructor
  · intro hinclude
    have hc : (Context.extractPageContext lower page options).content
        = truncated (Context.extractMainContent lower page)
            (Context.mergeConfig options).maxContextChars := by
      simp [Context.extractPageContext, hinclude]
    rw [hc]
    exact truncated_spec _ _
  · intro contentElement hchosen
    have hg : Content.getMainContent page
        = truncated (Content.mainText contentElement) 20000 := by
      simp [Content.getMainContent, hchosen, Content.MAX_LENGTH]
    rw [hg]
    exact truncated_spec _ _

open Dom in
/-- Witness for C7: `samplePage` with `maxContextChars = 5`; the content is
`Hello... [content truncated]`. -/
theorem truncation_cuts_at_limit_witness :
    ((Context.mergeConfig { maxContextChars := some 5 }).includeMainContent = true ∧
      (Context.extractMainContent asciiLower samplePage).length
        > (Context.mergeConfig { maxContextChars := some 5 }).maxContextChars) ∧
    (Context.extractPageContext asciiLower samplePage { maxContextChars := some 5 }).content
      = js "Hello... [content truncated]" ∧
    (Context.extractPageContext asciiLower samplePage { maxContextChars := some 5 }).content.length
      = (Context.mergeConfig { maxContextChars := some 5 }).maxContextChars + 23 ∧
    (firstMatch samplePage Content.selectors = some (elem "main" [] sampleMainChildren) ∧
      (Content.mainText (elem "main" [] sampleMainChildren)).length ≤ 20000) ∧
    Content.getMainContent samplePage = Content.mainText (elem "main" [] sampleMainChildren) :=
  ⟨⟨rfl, by decide⟩, rfl,
    (((truncation_cuts_at_limit asciiLower samplePage { maxContextChars := some 5 }).1 rfl).1
      (by decide)).2.1,
    ⟨rfl, by decide⟩,
    ((truncation_cuts_at_limit asciiLower samplePage { maxContextChars := some 5 }).2
      (elem "main" [] sampleMainChildren) rfl).2 (by decide)⟩

open Dom in
/-- C10: the content element is the first element, in document order, that
matches the earliest selector of `[main, article, .main-content, .article,
.post, #content, #main, body]` matching anything; `extractMainContent`,
`getMainContentElement` and `getMainContent` all use it. When no selector
matches any element, `getMainContentElement` returns `null` and the two
extractors return the empty string. -/
theorem first_selector_match_wins (lower : JStr → JStr) (page : Page) :
    (∀ (pre post : List Selector) (sel : Selector) (before after : List Node) (e : Node),
        Context.selectors = pre ++ sel :: post →
        (∀ s ∈ pre, ∀ x ∈ elementsOfList page.nodes, x.matchesSel s = false) →
        elementsOfList page.nodes = before ++ e :: after →
        e.matchesSel sel = true →
        (∀ x ∈ before, x.matchesSel sel = false) →
        Context.getMainContentElement page = some e ∧
          Context.extractMainContent lower page
            = Context.normalize (Context.cleanElement lower e).textContent ∧
          Content.getMainContent page = truncated (Content.mainText e) Content.MAX_LENGTH) ∧
      ((∀ s ∈ Context.selectors, ∀ x ∈ elementsOfList page.nodes, x.matchesSel s = false) →
        Context.getMainContentElement page = none ∧
          Context.extractMainContent lower page = [] ∧
          Content.getMainContent page = []) := by
  have hsel : Content.selectors = Context.selectors := rfl
  constructor
  · intro pre post sel before after e hlist hpre hsplit he hbefore
    have hq := querySelector_eq_some page.nodes sel before after e hsplit he hbefore
    have hf : firstMatch page Context.selectors = some e := by
      rw [hlist]; exact firstMatch_append page pre post sel e hpre hq
    refine ⟨hf, ?_, ?_⟩
    · simp [Context.extractMainContent, hf]
    · simp [Content.getMainContent, hsel, hf]
  · intro hnone
    have hf : firstMatch page Context.selectors = none := firstMatch_eq_none page _ hnone
    refine ⟨hf, ?_, ?_⟩
    · simp [Context.extractMainContent, hf]
    · simp [Content.getMainContent, hsel, hf]


open Dom in
/-- Witness for C10: in `samplePage` an `article` precedes the `main` element,
and the `main` element is chosen; in `svgPage` no selector matches. -/
theorem first_selector_match_wins_witness :
    (Context.getMainContentElement samplePage = some (elem "main" [] sampleMainChildren) ∧
      Context.extractMainContent asciiLower samplePage = js "Hello world") ∧
    (Context.getMainContentElement svgPage = none ∧
      Context.extractMainContent asciiLower svgPage = [] ∧
      Content.getMainContent svgPage = []) :=
  ⟨⟨((first_selector_match_wins asciiLower samplePage).1 []
        [.tag (js "article"), .cls (js "main-content"), .cls (js "article"),
         .cls (js "post"), .id (js "content"), .id (js "main"), .tag (js "body")]
        (.tag (js "main"))
        [elem "html" [] [elem "body" []
            [elem "article" [] [txt "Side"], elem "main" [] sampleMainChildren]],
         elem "body" [] [elem "article" [] [txt "Side"], elem "main" [] sampleMainChildren],
         elem "article" [] [txt "Side"]]
        [elem "script" [] [txt "track()"], elem "div" [("class", "ad")] [txt "Buy now"]]
        (elem "main" [] sampleMainChildren)
        rfl (by simp) rfl rfl (by decide)).1, rfl⟩,
    (first_selector_match_wins asciiLower svgPage).2 (by decide)⟩

namespace Context

open Dom

theorem mem_elementsOfList_element :
    ∀ (ns : List Node) (x : Node), x ∈ elementsOfList ns → ∃ t a c, x = Node.element t a c
  | [], _, h => by simp [elementsOfList] at h
  | .text d :: ns, x, h => by
    rw [elementsOfList_text] at h
    exact mem_elementsOfList_element ns x h
  | .comment d :: ns, x, h => by
    rw [elementsOfList_comment] at h
    exact mem_elementsOfList_element ns x h
  | .element t a c :: ns, x, h => by
    rw [elementsOfList_element] at h
    rcases List.mem_cons.1 h with h1 | h1
    · exact ⟨t, a, c, h1⟩
    · rcases List.mem_append.1 h1 with h2 | h2
      · exact mem_elementsOfList_element c x h2
      · exact mem_elementsOfList_element ns x h2

theorem matchesElement_filter_kept (sel : Selector) (hsel : sel ∈ elementsToRemove)
    (t : JStr) (a : Attrs) :
    sel.matchesElement t (a.filter (fun x => keptAttribute x.1)) = sel.matchesElement t a := by
  cases sel with
  | tag name => rfl
  | cls name =>
    have hk : keptAttribute (js "class") = true := by decide
    simp only [Selector.matchesElement, classTokens, className,
      getAttribute_filter keptAttribute (js "class") hk a]
  | id name =>
    have hk : keptAttribute (js "id") = true := by decide
    simp only [Selector.matchesElement, getAttribute_filter keptAttribute (js "id") hk a]
  | tagAttr t2 a2 v2 => simp [elementsToRemove] at hsel

end Context

open Dom in
/-- C8: the children `kept` that `cleanElement` leaves in the clone of the
chosen element are its children minus removed elements, each removed with
everything inside it and each either matched by a removal selector or hit by
the class-pattern loop; no element left matches a removal selector; and
`extractMainContent` returns the normalised concatenation of the text nodes of
`kept`, that is, of exactly the text nodes with no removed ancestor. After the
selector pass alone (all there is in `getMainContent`) these are exactly the
text nodes with no ancestor matched by a removal selector. -/
theorem removed_content_is_excluded (lower : JStr → JStr) (page : Page)
    (tag : JStr) (attrs : Attrs) (children : List Node)
    (hchosen : firstMatch page Context.selectors = some (.element tag attrs children)) :
    ∃ kept : List Node,
      Context.cleanElement lower (.element tag attrs children)
          = .element tag (attrs.filter (fun a => !(a.1 == js "style")))
              (filterAttrsList Context.keptAttribute kept) ∧
      Pruned (fun t a => (∃ sel ∈ Context.elementsToRemove, sel.matchesElement t a = true) ∨
          Context.hasNoiseClass lower (.element t a []) = true) children kept ∧
      Pruned (fun t a => Context.hasNoiseClass lower (.element t a []) = true)
          (pruneList (fun n => Context.elementsToRemove.any (fun s => n.matchesSel s)) children)
          kept ∧
      (∀ sel ∈ Context.elementsToRemove,
        ∀ x ∈ elementsOfList (filterAttrsList Context.keptAttribute kept),
          x.matchesSel sel = false) ∧
      Context.extractMainContent lower page = Context.normalize (textOfList kept) ∧
      ((∀ x ∈ elementsOfList children, Context.hasNoiseClass lower x = false) →
        Context.extractMainContent lower page
          = Context.normalize (keptTextList
              (fun n => Context.elementsToRemove.any (fun s => n.matchesSel s)) children)) ∧
      Content.mainText (.element tag attrs children)
        = trim (collapseRuns isSpace 32 (keptTextList
            (fun n => Content.elementsToRemove.any (fun s => n.matchesSel s)) children)) := by
  obtain ⟨hsp, hsn⟩ := foldl_removeBySelector_spec Context.elementsToRemove children
  have hcl := Context.pruned_removeByClass lower
    (elementsOfList (Context.elementsToRemove.foldl removeBySelector children)).length 0
    (Context.elementsToRemove.foldl removeBySelector children)
  have hclean : Context.cleanElement lower (.element tag attrs children)
      = .element tag (attrs.filter (fun a => !(a.1 == js "style")))
          (filterAttrsList Context.keptAttribute
            (Context.removeByClass lower
              (elementsOfList (Context.elementsToRemove.foldl removeBySelector children)).length 0
              (Context.elementsToRemove.foldl removeBySelector children))) := rfl
  have htext : Context.extractMainContent lower page
      = Context.normalize (textOfList (Context.removeByClass lower
          (elementsOfList (Context.elementsToRemove.foldl removeBySelector children)).length 0
          (Context.elementsToRemove.foldl removeBySelector children))) := by
    simp only [Context.extractMainContent, hchosen, hclean, Node.textContent,
      textOfList_filterAttrsList]
  refine ⟨_, hclean, ?_, ?_, ?_, htext, ?_, ?_⟩
  · exact Pruned.trans (Pruned.mono (fun t a h => Or.inl h) hsp)
      (Pruned.mono (fun t a h => Or.inr h) hcl)
  · rw [← foldl_removeBySelector_eq]
    exact hcl
  · intro sel hsel x hx
    obtain ⟨t, a, c, rfl⟩ := Context.mem_elementsOfList_element _ x hx
    obtain ⟨a0, c0, hm, ha⟩ := mem_elementsOfList_filterAttrsList _ _ t a c hx
    have h0 := Pruned.forall_elements (fun t a => sel.matchesElement t a = false) hcl
      (hsn sel hsel) t a0 c0 hm
    simp only [Node.matchesSel]
    rw [ha, Context.matchesElement_filter_kept sel hsel, h0]
  · intro hquiet
    have hquiet2 : ∀ x ∈ elementsOfList (Context.elementsToRemove.foldl removeBySelector children),
        Context.hasNoiseClass lower x = false := by
      intro x hx
      obtain ⟨t, a, c, rfl⟩ := Context.mem_elementsOfList_element _ x hx
      exact Pruned.forall_elements
        (fun t a => Context.hasNoiseClass lower (.element t a []) = false) hsp
        (fun t a c hm => hquiet (.element t a c) hm) t a c hx
    rw [htext, Context.removeByClass_of_no_noise lower _ 0 _ hquiet2,
      foldl_removeBySelector_eq, textOfList_pruneList]
  · simp only [Content.mainText, Content.cleaned, Node.textContent,
      foldl_removeBySelector_eq, textOfList_pruneList]

open Dom in
/-- Witness for C8: the `main` element of `samplePage`, with a nested `script`
and a `div` of class `ad`; the extracted text is `Hello world`. -/
theorem removed_content_is_excluded_witness :
    firstMatch samplePage Context.selectors = some (.element (js "main") [] sampleMainChildren) ∧
    Context.extractMainContent asciiLower samplePage = js "Hello world" ∧
    ∃ kept : List Node,
      Pruned (fun t a => Context.hasNoiseClass asciiLower (.element t a []) = true)
          (pruneList (fun n => Context.elementsToRemove.any (fun s => n.matchesSel s))
            sampleMainChildren) kept ∧
      Context.extractMainContent asciiLower samplePage = Context.normalize (textOfList kept) :=
  ⟨rfl, rfl,
    (removed_content_is_excluded asciiLower samplePage (js "main") [] sampleMainChildren rfl).imp
      (fun _ h => ⟨h.2.2.1, h.2.2.2.2.1⟩)⟩

open Dom in
/-- C9, as the code behaves: in
`<main><div class="ad-top">x</div><div class="ad-bottom">y</div></main>` the
class loop removes the first `div`; the second one moves to index 0 of the live
collection while the iterator goes on to index 1, so it is never examined. It
stays in the cleaned element although its class contains `ad-`, and its text
is extracted. Giving the loop more iterations changes nothing. -/
theorem adjacent_noise_elements_survive :
    Context.cleanElement asciiLower adjacentAdsMain
      = elem "main" [] [elem "div" [("class", "ad-bottom")] [txt "y"]] ∧
    Context.hasNoiseClass asciiLower (elem "div" [("class", "ad-bottom")] [txt "y"]) = true ∧
    Context.extractMainContent asciiLower adjacentAdsPage = js "y" ∧
    ∀ extra : Nat,
      Context.removeByClass asciiLower (2 + extra) 0
          [elem "div" [("class", "ad-top")] [txt "x"],
           elem "div" [("class", "ad-bottom")] [txt "y"]]
        = [elem "div" [("class", "ad-bottom")] [txt "y"]] :=
  ⟨rfl, rfl, rfl, fun extra =>
    (Context.removeByClass_fuel asciiLower 2 extra 0 _ (by decide)).trans rfl⟩

/-! ## Text normalisation -/

namespace Dom

theorem collapseRuns_of_forall_not (p : Nat → Bool) (r : Nat) :
    ∀ s : JStr, (∀ c ∈ s, p c = false) → collapseRuns p r s = s
  | [], _ => rfl
  | c :: cs, h => by
    have hc : p c = false := h c (by simp)
    have ih := collapseRuns_of_forall_not p r cs (fun x hx => h x (by simp [hx]))
    simp [collapseRuns, hc, ih]

theorem eq_of_mem_collapseRuns_isSpace :
    ∀ (t : JStr) (c : Nat), c ∈ collapseRuns isSpace 32 t → isSpace c = true → c = 32
  | [], c, h, _ => by simp [collapseRuns] at h
  | [a], c, h, hc => by
    by_cases ha : isSpace a = true
    · simp [collapseRuns, ha] at h
      exact h
    · simp [collapseRuns, ha] at h
      rw [h] at hc
      exact absurd hc ha
  | a :: d :: rest, c, h, hc => by
    have ih := eq_of_mem_collapseRuns_isSpace (d :: rest) c
    by_cases ha : isSpace a = true
    · by_cases hd : isSpace d = true
      · simp only [collapseRuns, ha, hd, if_true] at h ih
        exact ih h hc
      · simp only [collapseRuns, ha, hd, if_true, Bool.false_eq_true, if_false] at h ih
        rcases List.mem_cons.1 h with h1 | h1
        · exact h1
        · exact ih h1 hc
    · rw [collapseRuns, if_neg ha] at h
      rcases List.mem_cons.1 h with h1 | h1
      · rw [h1] at hc
        exact absurd hc ha
      · exact ih h1 hc

theorem mem_of_mem_trim (s : JStr) (c : Nat) (h : c ∈ trim s) : c ∈ s := by
  unfold trim at h
  rw [List.mem_reverse] at h
  have h1 := (List.dropWhile_sublist isSpace).subset h
  rw [List.mem_reverse] at h1
  exact (List.dropWhile_sublist isSpace).subset h1

end Dom

open Dom in
/-- C13, as the code behaves: the first replacement of `extractMainContent`
turns every run of whitespace, newlines included, into one space, so the second
replacement (`/\n+/g` to `\n`) never finds a newline. `a\n\nb` becomes `a b`, no
result contains a newline, and the result is always that of the normalisation
of `getElementText` and of `getMainContent`, which have no newline step. -/
theorem newline_runs_become_spaces :
    Context.normalize (js "a\n\nb") = js "a b" ∧
    (∀ t : JStr, 10 ∉ Context.normalize t) ∧
    (∀ t : JStr, Context.normalize t = trim (collapseRuns isSpace 32 t)) ∧
    (∀ el : Node, Context.getElementText (some el) = Context.normalize el.textContent) ∧
    (∀ el : Node, Content.mainText el = Context.normalize (Content.cleaned el).textContent) := by
  have hno : ∀ t : JStr, ∀ c ∈ collapseRuns isSpace 32 t, (c == 10) = false := by
    intro t c hc
    by_cases h : c = 10
    · subst h
      have := eq_of_mem_collapseRuns_isSpace t 10 hc (by decide)
      omega
    · simpa using h
  have heq : ∀ t : JStr, Context.normalize t = trim (collapseRuns isSpace 32 t) := by
    intro t
    unfold Context.normalize
    rw [collapseRuns_of_forall_not _ _ _ (hno t)]
  refine ⟨by decide, ?_, heq, ?_, ?_⟩
  · intro t hm
    rw [heq] at hm
    have := hno t 10 (mem_of_mem_trim _ _ hm)
    simp at this
  · intro el
    rw [heq]; rfl
  · intro el
    rw [heq]; rfl

/-! ## The live document -/

namespace Dom

theorem indexOfFirst_some (p : Node → Bool) :
    ∀ (l : List Node) (i : Nat), indexOfFirst p l = some i →
      ∃ n, l[i]? = some n ∧ l.find? p = some n
  | [], i, h => by simp [indexOfFirst] at h
  | n :: ns, i, h => by
    by_cases hp : p n = true
    · simp only [indexOfFirst, hp, if_true, Option.some.injEq] at h
      subst h
      exact ⟨n, by simp, by simp [List.find?_cons, hp]⟩
    · simp only [indexOfFirst, hp, Bool.false_eq_true, if_false] at h
      cases hi : indexOfFirst p ns with
      | none => rw [hi] at h; simp at h
      | some j =>
        rw [hi] at h
        simp only [Option.map_some', Option.some.injEq] at h
        subst h
        obtain ⟨m, h1, h2⟩ := indexOfFirst_some p ns j hi
        exact ⟨m, by simpa using h1, by simp [List.find?_cons, hp, h2]⟩

theorem indexOfFirst_none (p : Node → Bool) :
    ∀ l : List Node, indexOfFirst p l = none → l.find? p = none
  | [], _ => rfl
  | n :: ns, h => by
    by_cases hp : p n = true
    · simp [indexOfFirst, hp] at h
    · simp only [indexOfFirst, hp, Bool.false_eq_true, if_false, Option.map_eq_none'] at h
      simp [List.find?_cons, hp, indexOfFirst_none p ns h]

theorem World.querySelector_some (w : World) (sel : Selector) (r : Ref)
    (h : w.querySelector sel = some r) :
    ∃ n, w.deref r = some n ∧ Dom.querySelector w.page.nodes sel = some n := by
  unfold World.querySelector at h
  cases hi : indexOfFirst (fun n => n.matchesSel sel) (elementsOfList w.page.nodes) with
  | none => rw [hi] at h; simp at h
  | some i =>
    rw [hi] at h
    simp only [Option.map_some', Option.some.injEq] at h
    subst h
    exact indexOfFirst_some _ _ i hi

theorem World.querySelector_none (w : World) (sel : Selector)
    (h : w.querySelector sel = none) : Dom.querySelector w.page.nodes sel = none := by
  unfold World.querySelector at h
  simp only [Option.map_eq_none'] at h
  exact indexOfFirst_none _ _ h

theorem World.firstMatch_some (w : World) :
    ∀ (sels : List Selector) (r : Ref), w.firstMatch sels = some r →
      ∃ n, w.deref r = some n ∧ Dom.firstMatch w.page sels = some n
  | [], r, h => by simp [World.firstMatch] at h
  | sel :: rest, r, h => by
    unfold World.firstMatch at h
    cases hq : w.querySelector sel with
    | some r0 =>
      rw [hq] at h
      simp only [Option.some.injEq] at h
      subst h
      obtain ⟨n, h1, h2⟩ := World.querySelector_some w sel r0 hq
      exact ⟨n, h1, by simp [Dom.firstMatch, h2]⟩
    | none =>
      rw [hq] at h
      obtain ⟨n, h1, h2⟩ := World.firstMatch_some w rest r h
      exact ⟨n, h1, by simp [Dom.firstMatch, World.querySelector_none w sel hq, h2]⟩

theorem World.firstMatch_none (w : World) :
    ∀ sels : List Selector, w.firstMatch sels = none → Dom.firstMatch w.page sels = none
  | [], _ => rfl
  | sel :: rest, h => by
    unfold World.firstMatch at h
    cases hq : w.querySelector sel with
    | some r0 => rw [hq] at h; simp at h
    | none =>
      rw [hq] at h
      simp [Dom.firstMatch, World.querySelector_none w sel hq, World.firstMatch_none w rest h]

end Dom

namespace Context.Mutable

open Dom

theorem extractMainContent_page (lower : JStr → JStr) (w : World) :
    (extractMainContent lower w).1.page = w.page := by
  unfold extractMainContent
  cases w.firstMatch selectors with
  | none => rfl
  | some r =>
    simp only [World.cloneNode, World.mutate]
    split <;> rfl

theorem extractMainContent_text (lower : JStr → JStr) (w : World) :
    (extractMainContent lower w).2 = Context.extractMainContent lower w.page := by
  unfold extractMainContent Context.extractMainContent
  cases h : w.firstMatch selectors with
  | none => simp [World.firstMatch_none w _ h]
  | some r =>
    obtain ⟨n, h1, h2⟩ := World.firstMatch_some w _ r h
    simp only [World.cloneNode, World.mutate, h1, h2, Option.map_some']
    simp [World.deref]

end Context.Mutable

namespace Content.Mutable

open Dom

theorem getMainContent_page (w : World) : (getMainContent w).1.page = w.page := by
  unfold getMainContent
  cases w.firstMatch selectors with
  | none => rfl
  | some r =>
    simp only [World.cloneNode, World.mutate]
    split <;> rfl

theorem getMainContent_text (w : World) :
    (getMainContent w).2 = Content.getMainContent w.page := by
  unfold getMainContent Content.getMainContent
  cases h : w.firstMatch selectors with
  | none => simp [World.firstMatch_none w _ h]
  | some r =>
    obtain ⟨n, h1, h2⟩ := World.firstMatch_some w _ r h
    simp only [World.cloneNode, World.mutate, h1, h2, Option.map_some']
    simp [World.deref, Content.mainText]

end Content.Mutable

namespace Context.Mutable

open Dom

theorem extractPageContext_page (lower : JStr → JStr) (w : World) (options : Options) :
    (extractPageContext lower w options).1.page = w.page := by
  unfold extractPageContext
  by_cases hc : (mergeConfig options).includeMainContent = true
  · simp [hc, extractMainContent_page]
  · simp [hc]

theorem extractPageContext_result (lower : JStr → JStr) (w : World) (options : Options) :
    (extractPageContext lower w options).2 = Context.extractPageContext lower w.page options := by
  unfold extractPageContext Context.extractPageContext
  by_cases hc : (mergeConfig options).includeMainContent = true
  · simp [hc, extractMainContent_page, extractMainContent_text]
  · simp [hc]

end Context.Mutable

namespace Dom

theorem firstMatch_congr (page page2 : Page) (h : page.nodes = page2.nodes) :
    ∀ sels : List Selector, firstMatch page sels = firstMatch page2 sels
  | [] => rfl
  | sel :: rest => by
    simp only [firstMatch, h, firstMatch_congr page page2 h rest]

end Dom

open Dom in
/-- C11: `extractMainContent`, `extractPageContext` and `getMainContent` leave
the live document as it was: the clean-up mutates the detached copy made by
`cloneNode(true)`, and what they return is what the extraction computes from
the document. Mutating the chosen element itself would have changed the
document: in `samplePage` it would have removed the script and the ad from it. -/
theorem live_document_is_never_mutated (lower : JStr → JStr) (w : World)
    (options : Context.Options) :
    ((Context.Mutable.extractMainContent lower w).1.page = w.page ∧
      (Context.Mutable.extractPageContext lower w options).1.page = w.page ∧
      (Content.Mutable.getMainContent w).1.page = w.page) ∧
    ((Context.Mutable.extractMainContent lower w).2 = Context.extractMainContent lower w.page ∧
      (Context.Mutable.extractPageContext lower w options).2
        = Context.extractPageContext lower w.page options ∧
      (Content.Mutable.getMainContent w).2 = Content.getMainContent w.page) ∧
    (World.firstMatch ⟨samplePage, none⟩ Context.selectors = some (Ref.live 3) ∧
      textOfList samplePage.nodes = js "SideHello track()Buy nowworld" ∧
      textOfList ((World.mutate ⟨samplePage, none⟩ (Ref.live 3)
          (Context.cleanElement asciiLower)).page.nodes) = js "SideHello world" ∧
      textOfList ((Context.Mutable.extractMainContent asciiLower ⟨samplePage, none⟩).1.page.nodes)
        = js "SideHello track()Buy nowworld") := by
  exact ⟨⟨Context.Mutable.extractMainContent_page lower w,
      Context.Mutable.extractPageContext_page lower w options,
      Content.Mutable.getMainContent_page w⟩,
    ⟨Context.Mutable.extractMainContent_text lower w,
      Context.Mutable.extractPageContext_result lower w options,
      Content.Mutable.getMainContent_text w⟩, ⟨rfl, rfl, rfl, rfl⟩⟩

open Dom in
/-- C12: a second `extractPageContext` call, made at any later time on the
document as the first call left it, returns the same title, url, description,
content and selection; only the timestamp is that of the second call. -/
theorem extraction_is_idempotent (lower : JStr → JStr) (w : World)
    (options : Context.Options) (later : JStr) :
    (Context.Mutable.extractPageContext lower
        ⟨{ (Context.Mutable.extractPageContext lower w options).1.page with now := later },
          (Context.Mutable.extractPageContext lower w options).1.clone⟩ options).2
      = { (Context.Mutable.extractPageContext lower w options).2 with timestamp := later } := by
  rw [Context.Mutable.extractPageContext_result, Context.Mutable.extractPageContext_result,
    Context.Mutable.extractPageContext_page]
  have hf := firstMatch_congr { w.page with now := later } w.page rfl Context.selectors
  simp only [Context.extractPageContext, Context.extractMainContent, hf]

/-! ## The sidebar chat -/

namespace Sidebar

open OllamaAPI

theorem exchange_of_success (chatHistory : List Message) (tab : Tab)
    (config : Except JsError Background.Config) (env : Env) (parse : JStr → Option JVal)
    (message : JStr) (cfg : Background.Config) (r : Response) (chunks : List JStr)
    (hconfig : config = .ok cfg) (habort : env.aborted Signal.sidebar = false)
    (hreply : ∀ resource init, env.reply resource init = .resolved r)
    (hok : r.ok = true) (hbody : r.body = some ⟨chunks, .done⟩) :
    exchange chatHistory tab config env parse message
      = .ok (readAll contentOf parse none chunks).fullResponse := by
  subst hconfig
  simp [exchange, fetch, chatRequest, habort, hreply, hok, hbody]

theorem sendMessage_of_ok (st : State) (tab : Tab) (config : Except JsError Background.Config)
    (env : Env) (parse : JStr → Option JVal) (input assistantMessage : JStr)
    (hinput : (trim input).isEmpty = false)
    (hex : exchange st.chatHistory tab config env parse (trim input) = .ok assistantMessage) :
    sendMessage st tab config env parse input
      = (saveChatHistory
          { st with
            chatHistory :=
              lastTwenty (pushExchange st.chatHistory (trim input) assistantMessage) } tab,
        none) := by
  have hlast : ∀ l : List Message, (if l.length > 20 then lastTwenty l else l) = lastTwenty l := by
    intro l
    by_cases h : l.length > 20
    · simp [h]
    · have h0 : l.length - 20 = 0 := by omega
      simp [h, lastTwenty, h0]
  simp only [sendMessage, hinput, hex, hlast]
  simp

theorem sendMessage_of_error (st : State) (tab : Tab) (config : Except JsError Background.Config)
    (env : Env) (parse : JStr → Option JVal) (input : JStr) (e : JsError)
    (hex : exchange st.chatHistory tab config env parse (trim input) = .error e) :
    (sendMessage st tab config env parse input).1 = st := by
  unfold sendMessage
  by_cases hinput : (trim input).isEmpty = true
  · simp [hinput]
  · simp [hinput, hex]

theorem length_lastTwenty (l : List Message) : (lastTwenty l).length = min l.length 20 := by
  unfold lastTwenty
  rw [List.length_drop]
  omega

end Sidebar

open OllamaAPI in
/-- C14: after a successful exchange the history, in memory and stored under the
origin of the tab, is the prior history followed by the user message and the
assistant message, cut to its last 20 entries: a suffix of that list, of length
`min (length h + 2) 20`, hence exactly 20 once more than 20 have accumulated. -/
theorem history_is_bounded_to_twenty (st : Sidebar.State) (tab : Sidebar.Tab)
    (config : Except JsError Background.Config) (env : Env) (parse : JStr → Option JVal)
    (input origin : JStr) (cfg : Background.Config) (r : Response) (chunks : List JStr)
    (hinput : (trim input).isEmpty = false) (horigin : tab.origin = some origin)
    (hconfig : config = .ok cfg) (habort : env.aborted Signal.sidebar = false)
    (hreply : ∀ resource init, env.reply resource init = .resolved r)
    (hok : r.ok = true) (hbody : r.body = some ⟨chunks, .done⟩) :
    (Sidebar.sendMessage st tab config env parse input).1.chatHistory
        = (Sidebar.pushExchange st.chatHistory (trim input)
            (readAll contentOf parse none chunks).fullResponse).drop
          ((Sidebar.pushExchange st.chatHistory (trim input)
            (readAll contentOf parse none chunks).fullResponse).length - 20) ∧
      (Sidebar.sendMessage st tab config env parse input).1.stored origin
        = some (Sidebar.sendMessage st tab config env parse input).1.chatHistory ∧
      (Sidebar.sendMessage st tab config env parse input).1.chatHistory.length
        = min (st.chatHistory.length + 2) 20 ∧
      (st.chatHistory.length + 2 > 20 →
        (Sidebar.sendMessage st tab config env parse input).1.chatHistory.length = 20) ∧
      (Sidebar.sendMessage st tab config env parse input).1.chatHistory
        <:+ st.chatHistory ++ [⟨js "user", trim input⟩,
          ⟨js "assistant", (readAll contentOf parse none chunks).fullResponse⟩] := by
  have hex := Sidebar.exchange_of_success st.chatHistory tab config env parse (trim input) cfg r
    chunks hconfig habort hreply hok hbody
  rw [Sidebar.sendMessage_of_ok st tab config env parse input _ hinput hex]
  have hlen : (Sidebar.lastTwenty (Sidebar.pushExchange st.chatHistory (trim input)
      (readAll contentOf parse none chunks).fullResponse)).length
      = min (st.chatHistory.length + 2) 20 := by
    rw [Sidebar.length_lastTwenty]
    simp [Sidebar.pushExchange]
  refine ⟨?_, ?_, ?_, ?_, ?_⟩
  · simp [Sidebar.saveChatHistory, horigin, Sidebar.lastTwenty]
  · simp [Sidebar.saveChatHistory, horigin]
  · simpa [Sidebar.saveChatHistory, horigin] using hlen
  · intro hbig
    have : (Sidebar.saveChatHistory
        { st with chatHistory := Sidebar.lastTwenty (Sidebar.pushExchange st.chatHistory
          (trim input) (readAll contentOf parse none chunks).fullResponse) } tab).chatHistory.length
        = min (st.chatHistory.length + 2) 20 := by
      simpa [Sidebar.saveChatHistory, horigin] using hlen
    simp only [] at this ⊢
    omega
  · simp only [Sidebar.saveChatHistory, horigin, Sidebar.lastTwenty, Sidebar.pushExchange]
    exact List.drop_suffix _ _

open OllamaAPI in
/-- Witness for C14: a first exchange in an empty sidebar stores the user
message followed by the assistant message `Hi`; an exchange on top of a history
of 20 entries leaves exactly 20. -/
theorem history_is_bounded_to_twenty_witness :
    (Sidebar.sendMessage Sidebar.emptyState Sidebar.sampleTab (.ok Background.DEFAULT_CONFIG)
        (sampleEnv [sampleChunk] .done) sampleParse (js " hello ")).1.stored
        (js "https://example.org")
      = some [⟨js "user", js "hello"⟩, ⟨js "assistant", js "Hi"⟩] ∧
    (Sidebar.sendMessage Sidebar.emptyState Sidebar.sampleTab (.ok Background.DEFAULT_CONFIG)
        (sampleEnv [sampleChunk] .done) sampleParse (js " hello ")).1.chatHistory.length
      = min (Sidebar.emptyState.chatHistory.length + 2) 20 ∧
    Sidebar.fullState.chatHistory.length + 2 > 20 ∧
    (Sidebar.sendMessage Sidebar.fullState Sidebar.sampleTab (.ok Background.DEFAULT_CONFIG)
        (sampleEnv [sampleChunk] .done) sampleParse (js " hello ")).1.chatHistory.length = 20 ∧
    (Sidebar.sendMessage Sidebar.fullState Sidebar.sampleTab (.ok Background.DEFAULT_CONFIG)
        (sampleEnv [sampleChunk] .done) sampleParse (js " hello ")).1.chatHistory.drop 18
      = [⟨js "user", js "hello"⟩, ⟨js "assistant", js "Hi"⟩] :=
  ⟨rfl,
    (history_is_bounded_to_twenty Sidebar.emptyState Sidebar.sampleTab
      (.ok Background.DEFAULT_CONFIG) (sampleEnv [sampleChunk] .done) sampleParse (js " hello ")
      (js "https://example.org") Background.DEFAULT_CONFIG
      ⟨200, none, some ⟨[sampleChunk], .done⟩⟩ [sampleChunk] rfl rfl rfl rfl (fun _ _ => rfl)
      rfl rfl).2.2.1,
    by decide,
    (history_is_bounded_to_twenty Sidebar.fullState Sidebar.sampleTab
      (.ok Background.DEFAULT_CONFIG) (sampleEnv [sampleChunk] .done) sampleParse (js " hello ")
      (js "https://example.org") Background.DEFAULT_CONFIG
      ⟨200, none, some ⟨[sampleChunk], .done⟩⟩ [sampleChunk] rfl rfl rfl rfl (fun _ _ => rfl)
      rfl rfl).2.2.2.1 (by decide),
    rfl⟩

open OllamaAPI in
/-- C15: `sendMessage` changes the history only when the exchange has succeeded,
and then by both messages at once. If the exchange throws (the configuration
cannot be read, the request fails, the status is not 2xx, there is no body, or
a read rejects, as when aborted), the history in memory and the stored
histories are what they were. In every case the state is either unchanged or
has the user message and the assistant message appended together. -/
theorem history_is_never_partially_written (st : Sidebar.State) (tab : Sidebar.Tab)
    (config : Except JsError Background.Config) (env : Env) (parse : JStr → Option JVal)
    (input : JStr) :
    (∀ e, Sidebar.exchange st.chatHistory tab config env parse (trim input) = .error e →
      (Sidebar.sendMessage st tab config env parse input).1 = st) ∧
    (∀ (cfg : Background.Config) (r : Response), config = .ok cfg →
      env.aborted Signal.sidebar = false →
      (∀ resource init, env.reply resource init = .resolved r) →
      r.ok = false → (Sidebar.sendMessage st tab config env parse input).1 = st) ∧
    (∀ (cfg : Background.Config) (e : JsError), config = .ok cfg →
      env.aborted Signal.sidebar = false →
      (∀ resource init, env.reply resource init = .rejected e) →
      (Sidebar.sendMessage st tab config env parse input).1 = st) ∧
    (∀ (cfg : Background.Config) (r : Response) (chunks : List JStr) (e : JsError),
      config = .ok cfg →
      (∀ resource init, env.reply resource init = .resolved r) →
      r.body = some ⟨chunks, .fail e⟩ →
      (Sidebar.sendMessage st tab config env parse input).1 = st) ∧
    ((Sidebar.sendMessage st tab config env parse input).1 = st ∨
      ∃ assistantMessage,
        (Sidebar.sendMessage st tab config env parse input).1.chatHistory
          = Sidebar.lastTwenty
              (st.chatHistory ++ [⟨js "user", trim input⟩,
                ⟨js "assistant", assistantMessage⟩])) := by
  have herr := Sidebar.sendMessage_of_error st tab config env parse input
  refine ⟨herr, ?_, ?_, ?_, ?_⟩
  · intro cfg r hconfig habort hreply hok
    subst hconfig
    exact herr (.error (js "API request failed with status " ++ natText r.status))
      (by simp [Sidebar.exchange, fetch, Sidebar.chatRequest, habort, hreply, hok])
  · intro cfg e hconfig habort hreply
    subst hconfig
    exact herr e (by simp [Sidebar.exchange, fetch, Sidebar.chatRequest, habort, hreply])
  · intro cfg r chunks e hconfig hreply hbody
    subst hconfig
    by_cases habort : env.aborted Signal.sidebar = true
    · exact herr .abortError (by simp [Sidebar.exchange, fetch, Sidebar.chatRequest, habort])
    · by_cases hok : r.ok = true
      · exact herr e (by
          simp [Sidebar.exchange, fetch, Sidebar.chatRequest, habort, hreply, hok, hbody])
      · exact herr (.error (js "API request failed with status " ++ natText r.status)) (by
          simp [Sidebar.exchange, fetch, Sidebar.chatRequest, habort, hreply, hok])
  · by_cases hinput : (trim input).isEmpty = true
    · left
      simp [Sidebar.sendMessage, hinput]
    · cases hex : Sidebar.exchange st.chatHistory tab config env parse (trim input) with
      | error e => exact Or.inl (herr e hex)
      | ok assistantMessage =>
        right
        refine ⟨assistantMessage, ?_⟩
        rw [Sidebar.sendMessage_of_ok st tab config env parse input assistantMessage
          (by simpa using hinput) hex]
        cases horigin : tab.origin <;> simp [Sidebar.saveChatHistory, horigin, Sidebar.pushExchange]

open OllamaAPI in
/-- Witness for C15: a server answering 500, a network that is down and a stream
aborted after `sampleChunk` each leave a full history untouched. -/
theorem history_is_never_partially_written_witness :
    (Sidebar.sendMessage Sidebar.fullState Sidebar.sampleTab (.ok Background.DEFAULT_CONFIG)
        (errorEnv 500 none) sampleParse (js "hello")).1 = Sidebar.fullState ∧
    (Sidebar.sendMessage Sidebar.fullState Sidebar.sampleTab (.ok Background.DEFAULT_CONFIG)
        offlineEnv sampleParse (js "hello")).1 = Sidebar.fullState ∧
    (Sidebar.sendMessage Sidebar.fullState Sidebar.sampleTab (.ok Background.DEFAULT_CONFIG)
        (sampleEnv [sampleChunk] (.fail .abortError)) sampleParse (js "hello")).1
      = Sidebar.fullState :=
  ⟨(history_is_never_partially_written Sidebar.fullState Sidebar.sampleTab
      (.ok Background.DEFAULT_CONFIG) (errorEnv 500 none) sampleParse (js "hello")).2.1
      Background.DEFAULT_CONFIG ⟨500, none, some ⟨[], .done⟩⟩ rfl rfl (fun _ _ => rfl) rfl,
    (history_is_never_partially_written Sidebar.fullState Sidebar.sampleTab
      (.ok Background.DEFAULT_CONFIG) offlineEnv sampleParse (js "hello")).2.2.1
      Background.DEFAULT_CONFIG (.other (js "TypeError") (js "Failed to fetch")) rfl rfl
      (fun _ _ => rfl),
    (history_is_never_partially_written Sidebar.fullState Sidebar.sampleTab
      (.ok Background.DEFAULT_CONFIG) (sampleEnv [sampleChunk] (.fail .abortError)) sampleParse
      (js "hello")).2.2.2.1
      Background.DEFAULT_CONFIG ⟨200, none, some ⟨[sampleChunk], .fail .abortError⟩⟩
      [sampleChunk] .abortError rfl (fun _ _ => rfl) rfl⟩

namespace OllamaAPI

theorem streamCall_env_congr (self : Instance) (env env2 : Env) (parse : JStr → Option JVal)
    (path : JStr) (payload : Payload) (delta : JVal → Option JVal)
    (onToken : Option OnToken) (signal : Option Signal)
    (htimer : env.aborted Signal.timer = env2.aborted Signal.timer)
    (hreply : env.reply (self.config.endpoint ++ path)
        (fetchInit (requestOptions self payload signal))
      = env2.reply (self.config.endpoint ++ path)
        (fetchInit (requestOptions self payload signal))) :
    streamCall self env parse path payload delta onToken signal
      = streamCall self env2 parse path payload delta onToken signal := by
  unfold streamCall _fetchWithTimeout fetch
  simp only [fetchInit, Option.map_some', Option.getD_some] at hreply ⊢
  rw [htimer, hreply]

theorem fetchInit_requestOptions (self : Instance) (payload : Payload) (signal : Option Signal) :
    fetchInit (requestOptions self payload signal)
      = { method := some (js "POST")
          headers := [(js "Content-Type", js "application/json")]
          body := some
            { model := self.config.model
              payload := payload
              stream := true
              temperature := self.config.temperature
              num_predict := self.config.maxTokens }
          signal := some Signal.timer
          timeout := none } := rfl

end OllamaAPI

namespace Sidebar

open OllamaAPI

theorem exchange_env_congr (chatHistory : List Message) (tab : Tab) (cfg : Background.Config)
    (env env2 : Env) (parse : JStr → Option JVal) (message : JStr)
    (habort : env.aborted Signal.sidebar = env2.aborted Signal.sidebar)
    (hreply : env.reply (cfg.endpoint ++ js "/api/chat")
        (chatRequest cfg (requestMessages chatHistory tab message))
      = env2.reply (cfg.endpoint ++ js "/api/chat")
        (chatRequest cfg (requestMessages chatHistory tab message))) :
    exchange chatHistory tab (.ok cfg) env parse message
      = exchange chatHistory tab (.ok cfg) env2 parse message := by
  unfold exchange fetch
  have hs : (chatRequest cfg (requestMessages chatHistory tab message)).signal
      = some Signal.sidebar := rfl
  simp only [hs, Option.map_some', Option.getD_some]
  rw [habort, hreply]

end Sidebar

open OllamaAPI in
/-- C16: the messages `sendMessage` sends are one system message, then the
entries of the history in their stored order and with their role and content
unchanged, then the user message; they are the `messages` member of the body
of the one request the exchange makes. `OllamaAPI.chat` puts the list it is
given, as it is, into the body of the one request it makes. -/
theorem conversation_is_sent_in_order (chatHistory messages : List Message)
    (tab : Sidebar.Tab) (cfg : Background.Config) (message : JStr)
    (self : Instance) (signal : Option Signal) (onToken : Option OnToken)
    (parse : JStr → Option JVal) :
    Sidebar.requestMessages chatHistory tab message
        = ⟨js "system", Sidebar.systemPrompt tab⟩ :: (chatHistory ++ [⟨js "user", message⟩]) ∧
    (Sidebar.chatRequest cfg (Sidebar.requestMessages chatHistory tab message)).body
        = some
          { model := cfg.model
            payload := .messages
              (⟨js "system", Sidebar.systemPrompt tab⟩ :: (chatHistory ++ [⟨js "user", message⟩]))
            stream := true
            temperature := cfg.temperature
            num_predict := cfg.maxTokens } ∧
    (∀ env env2 : Env, env.aborted Signal.sidebar = env2.aborted Signal.sidebar →
      env.reply (cfg.endpoint ++ js "/api/chat")
          (Sidebar.chatRequest cfg (Sidebar.requestMessages chatHistory tab message))
        = env2.reply (cfg.endpoint ++ js "/api/chat")
          (Sidebar.chatRequest cfg (Sidebar.requestMessages chatHistory tab message)) →
      Sidebar.exchange chatHistory tab (.ok cfg) env parse message
        = Sidebar.exchange chatHistory tab (.ok cfg) env2 parse message) ∧
    (fetchInit (requestOptions self (.messages messages) signal)).body
        = some
          { model := self.config.model
            payload := .messages messages
            stream := true
            temperature := self.config.temperature
            num_predict := self.config.maxTokens } ∧
    (∀ env env2 : Env, env.aborted Signal.timer = env2.aborted Signal.timer →
      env.reply (self.config.endpoint ++ js "/api/chat")
          (fetchInit (requestOptions self (.messages messages) signal))
        = env2.reply (self.config.endpoint ++ js "/api/chat")
          (fetchInit (requestOptions self (.messages messages) signal)) →
      chat self env parse messages onToken signal
        = chat self env2 parse messages onToken signal) := by
  have hmsgs : Sidebar.requestMessages chatHistory tab message
      = ⟨js "system", Sidebar.systemPrompt tab⟩ :: (chatHistory ++ [⟨js "user", message⟩]) := by
    simp [Sidebar.requestMessages]
  refine ⟨hmsgs, ?_, ?_, rfl, ?_⟩
  · rw [hmsgs]; rfl
  · intro env env2 habort hreply
    exact Sidebar.exchange_env_congr chatHistory tab cfg env env2 parse message habort hreply
  · intro env env2 htimer hreply
    exact streamCall_env_congr self env env2 parse _ _ contentOf onToken signal htimer hreply

open OllamaAPI in
/-- Witness for C16: a history `q`, `a` and the input `hello`, against a server
that only answers a `POST` to `http://127.0.0.1:11434/api/chat` whose messages
are the system message, `q`, `a` and `hello` in this order; the exchange
succeeds there. -/
theorem conversation_is_sent_in_order_witness :
    Sidebar.exchange [⟨js "user", js "q"⟩, ⟨js "assistant", js "a"⟩] Sidebar.sampleTab
        (.ok Background.DEFAULT_CONFIG)
        (pickyEnv (expects (js "http://127.0.0.1:11434/api/chat")
          (isMessages [(js "system", Sidebar.systemPrompt Sidebar.sampleTab),
            (js "user", js "q"), (js "assistant", js "a"), (js "user", js "hello")])))
        sampleParse (js "hello")
      = Sidebar.exchange [⟨js "user", js "q"⟩, ⟨js "assistant", js "a"⟩] Sidebar.sampleTab
        (.ok Background.DEFAULT_CONFIG) (sampleEnv [sampleChunk] .done) sampleParse (js "hello") ∧
    Sidebar.exchange [⟨js "user", js "q"⟩, ⟨js "assistant", js "a"⟩] Sidebar.sampleTab
        (.ok Background.DEFAULT_CONFIG)
        (pickyEnv (expects (js "http://127.0.0.1:11434/api/chat")
          (isMessages [(js "system", Sidebar.systemPrompt Sidebar.sampleTab),
            (js "user", js "q"), (js "assistant", js "a"), (js "user", js "hello")])))
        sampleParse (js "hello")
      = .ok (js "Hi") :=
  ⟨(conversation_is_sent_in_order [⟨js "user", js "q"⟩, ⟨js "assistant", js "a"⟩] []
      Sidebar.sampleTab Background.DEFAULT_CONFIG (js "hello") sampleClient none none
      sampleParse).2.2.1 _ _ rfl rfl,
    rfl⟩

open OllamaAPI in
/-- C17: `generate` makes one request, a `POST` to `<endpoint>/api/generate`
whose body is `{ model, prompt, stream: true, options: { temperature,
num_predict: maxTokens } }` with the values of the instance's configuration;
`chat` makes the same request to `<endpoint>/api/chat` with `messages` in place
of `prompt`. What the call returns depends on the network only through the
answer to that request. -/
theorem request_carries_model_payload_and_stream_flag (self : Instance)
    (parse : JStr → Option JVal) (prompt : JStr) (messages : List Message)
    (onToken : Option OnToken) (signal : Option Signal) :
    (∀ env env2 : Env, env.aborted Signal.timer = env2.aborted Signal.timer →
      env.reply (self.config.endpoint ++ js "/api/generate")
          { method := some (js "POST")
            headers := [(js "Content-Type", js "application/json")]
            body := some
              { model := self.config.model
                payload := .prompt prompt
                stream := true
                temperature := self.config.temperature
                num_predict := self.config.maxTokens }
            signal := some Signal.timer
            timeout := none }
        = env2.reply (self.config.endpoint ++ js "/api/generate")
          { method := some (js "POST")
            headers := [(js "Content-Type", js "application/json")]
            body := some
              { model := self.config.model
                payload := .prompt prompt
                stream := true
                temperature := self.config.temperature
                num_predict := self.config.maxTokens }
            signal := some Signal.timer
            timeout := none } →
      generate self env parse prompt onToken signal
        = generate self env2 parse prompt onToken signal) ∧
    (∀ env env2 : Env, env.aborted Signal.timer = env2.aborted Signal.timer →
      env.reply (self.config.endpoint ++ js "/api/chat")
          { method := some (js "POST")
            headers := [(js "Content-Type", js "application/json")]
            body := some
              { model := self.config.model
                payload := .messages messages
                stream := true
                temperature := self.config.temperature
                num_predict := self.config.maxTokens }
            signal := some Signal.timer
            timeout := none }
        = env2.reply (self.config.endpoint ++ js "/api/chat")
          { method := some (js "POST")
            headers := [(js "Content-Type", js "application/json")]
            body := some
              { model := self.config.model
                payload := .messages messages
                stream := true
                temperature := self.config.temperature
                num_predict := self.config.maxTokens }
            signal := some Signal.timer
            timeout := none } →
      chat self env parse messages onToken signal
        = chat self env2 parse messages onToken signal) := by
  constructor
  · intro env env2 htimer hreply
    exact streamCall_env_congr self env env2 parse _ _ responseOf onToken signal htimer
      (by rw [fetchInit_requestOptions]; exact hreply)
  · intro env env2 htimer hreply
    exact streamCall_env_congr self env env2 parse _ _ contentOf onToken signal htimer
      (by rw [fetchInit_requestOptions]; exact hreply)

open OllamaAPI in
/-- Witness for C17: the default client against servers that only answer the
request described: model `mistral`, temperature 0.7, `num_predict` 1000,
`stream: true`, and the prompt `hello` at `/api/generate`, resp. the one message
`hello` at `/api/chat`. Both calls succeed. -/
theorem request_carries_model_payload_and_stream_flag_witness :
    (generate sampleClient
        (pickyEnv (expects (js "http://127.0.0.1:11434/api/generate") isPromptHello))
        sampleParse (js "hello") none none
      = generate sampleClient (sampleEnv [sampleChunk] .done) sampleParse (js "hello") none none ∧
    (generate sampleClient
        (pickyEnv (expects (js "http://127.0.0.1:11434/api/generate") isPromptHello))
        sampleParse (js "hello") none none).result = .ok (js "Hi")) ∧
    (chat sampleClient
        (pickyEnv (expects (js "http://127.0.0.1:11434/api/chat")
          (isMessages [(js "user", js "hello")])))
        sampleParse [⟨js "user", js "hello"⟩] none none
      = chat sampleClient (sampleEnv [sampleChunk] .done) sampleParse [⟨js "user", js "hello"⟩]
        none none ∧
    (chat sampleClient
        (pickyEnv (expects (js "http://127.0.0.1:11434/api/chat")
          (isMessages [(js "user", js "hello")])))
        sampleParse [⟨js "user", js "hello"⟩] none none).result = .ok (js "Hi")) :=
  ⟨⟨(request_carries_model_payload_and_stream_flag sampleClient sampleParse (js "hello")
        [⟨js "user", js "hello"⟩] none none).1 _ _ rfl rfl, rfl⟩,
    ⟨(request_carries_model_payload_and_stream_flag sampleClient sampleParse (js "hello")
        [⟨js "user", js "hello"⟩] none none).2 _ _ rfl rfl, rfl⟩⟩

/-! ## The background actions -/

namespace Background

open OllamaAPI

theorem generateAction_cases (key prompt : JStr) (ollama : Instance) (engine : JsError → JStr)
    (env : Env) (parse : JStr → Option JVal) (config : Config) :
    (∀ s, (generate (updateConfig ollama (clientConfig config)) env parse prompt none none).result
        = .ok s →
      generateAction key prompt ollama engine env parse config = .succeeded key s) ∧
    (∀ e, (generate (updateConfig ollama (clientConfig config)) env parse prompt none none).result
        = .error e →
      generateAction key prompt ollama engine env parse config = .failed (e.message engine)) := by
  constructor
  · intro s h; simp [generateAction, h]
  · intro e h; simp [generateAction, h]

end Background

open OllamaAPI in
/-- C18: the four actions never throw. `summarizeText`, `explainText` and
`rewriteText` return `{ success: true, summary | explanation | rewritten: s }`
when `generate` returns `s` and `{ success: false, error: e.message }` when it
fails with `e`; `handleProcessChatMessage` does the same with `chat` and the
key `reply`, and also returns a failure when the configuration cannot be read. -/
theorem failures_are_structured_results (ollama : Instance) (engine : JsError → JStr)
    (stringify : Background.ChatContext → JStr) (env : Env) (parse : JStr → Option JVal)
    (text : JStr) (config : Background.Config) (message : Background.ChatRequest) :
    ((∀ s, (generate (updateConfig ollama (Background.clientConfig config)) env parse
          (Background.summarizePrompt text) none none).result = .ok s →
        Background.summarizeText ollama engine env parse text config = .succeeded (js "summary") s) ∧
      (∀ e, (generate (updateConfig ollama (Background.clientConfig config)) env parse
          (Background.summarizePrompt text) none none).result = .error e →
        Background.summarizeText ollama engine env parse text config = .failed (e.message engine))) ∧
    ((∀ s, (generate (updateConfig ollama (Background.clientConfig config)) env parse
          (Background.explainPrompt text) none none).result = .ok s →
        Background.explainText ollama engine env parse text config = .succeeded (js "explanation") s) ∧
      (∀ e, (generate (updateConfig ollama (Background.clientConfig config)) env parse
          (Background.explainPrompt text) none none).result = .error e →
        Background.explainText ollama engine env parse text config = .failed (e.message engine))) ∧
    ((∀ s, (generate (updateConfig ollama (Background.clientConfig config)) env parse
          (Background.rewritePrompt text) none none).result = .ok s →
        Background.rewriteText ollama engine env parse text config = .succeeded (js "rewritten") s) ∧
      (∀ e, (generate (updateConfig ollama (Background.clientConfig config)) env parse
          (Background.rewritePrompt text) none none).result = .error e →
        Background.rewriteText ollama engine env parse text config = .failed (e.message engine))) ∧
    ((∀ s, (chat (updateConfig ollama (Background.clientConfig config)) env parse
          (Background.chatMessages stringify message) none none).result = .ok s →
        Background.handleProcessChatMessage ollama engine stringify env parse (.ok config) message
          = .succeeded (js "reply") s) ∧
      (∀ e, (chat (updateConfig ollama (Background.clientConfig config)) env parse
          (Background.chatMessages stringify message) none none).result = .error e →
        Background.handleProcessChatMessage ollama engine stringify env parse (.ok config) message
          = .failed (e.message engine)) ∧
      (∀ e, Background.handleProcessChatMessage ollama engine stringify env parse (.error e) message
          = .failed (e.message engine))) := by
  refine ⟨Background.generateAction_cases _ _ _ _ _ _ _, Background.generateAction_cases _ _ _ _ _ _ _,
    Background.generateAction_cases _ _ _ _ _ _ _, ?_, ?_, ?_⟩
  · intro s h; simp [Background.handleProcessChatMessage, h]
  · intro e h; simp [Background.handleProcessChatMessage, h]
  · intro e; rfl

open OllamaAPI in
/-- Witness for C18: a server streaming `Hi` gives `{ success: true, summary:
'Hi' }`; a network that is down gives `{ success: false, error: 'Failed to
fetch' }`. -/
theorem failures_are_structured_results_witness :
    ((generate (updateConfig sampleClient (Background.clientConfig Background.DEFAULT_CONFIG))
          (sampleEnv [sampleChunk] .done) sampleParse (Background.summarizePrompt (js "text")) none
          none).result = .ok (js "Hi") ∧
      Background.summarizeText sampleClient sampleEngine (sampleEnv [sampleChunk] .done) sampleParse
          (js "text") Background.DEFAULT_CONFIG = .succeeded (js "summary") (js "Hi")) ∧
    ((chat (updateConfig sampleClient (Background.clientConfig Background.DEFAULT_CONFIG)) offlineEnv sampleParse
          (Background.chatMessages (fun _ => []) ⟨js "hello", none⟩) none none).result
        = .error (.other (js "TypeError") (js "Failed to fetch")) ∧
      Background.handleProcessChatMessage sampleClient sampleEngine (fun _ => []) offlineEnv sampleParse
          (.ok Background.DEFAULT_CONFIG) ⟨js "hello", none⟩ = .failed (js "Failed to fetch")) :=
  ⟨⟨rfl, (failures_are_structured_results sampleClient sampleEngine (fun _ => [])
      (sampleEnv [sampleChunk] .done) sampleParse (js "text") Background.DEFAULT_CONFIG
      ⟨js "hello", none⟩).1.1 (js "Hi") rfl⟩,
    ⟨rfl, (failures_are_structured_results sampleClient sampleEngine (fun _ => []) offlineEnv
      sampleParse (js "text") Background.DEFAULT_CONFIG ⟨js "hello", none⟩).2.2.2.2.1
      (.other (js "TypeError") (js "Failed to fetch")) rfl⟩⟩

namespace OllamaAPI

theorem rethrow_httpError (r : Response) : rethrow (httpError r) = httpError r := by
  have h1 : ¬ (js "TypeError" = js "AbortError") := by decide
  have h2 : ¬ (js "Error" = js "AbortError") := by decide
  unfold httpError
  split
  · simp [rethrow, JsError.name, h1]
  · split
    · split
      · simp [rethrow, JsError.name, h1]
      · simp [rethrow, JsError.name, h2]
    · simp [rethrow, JsError.name, h2]

theorem streamCall_of_not_ok (self : Instance) (env : Env) (parse : JStr → Option JVal)
    (path : JStr) (payload : Payload) (delta : JVal → Option JVal)
    (onToken : Option OnToken) (signal : Option Signal) (r : Response)
    (htimer : env.aborted Signal.timer = false)
    (hreply : ∀ resource init, env.reply resource init = .resolved r)
    (hok : r.ok = false) :
    streamCall self env parse path payload delta onToken signal
      = Outcome.failed (httpError r) := by
  simp [streamCall, _fetchWithTimeout, fetch, fetchInit, htimer, hreply, hok, rethrow_httpError]

end OllamaAPI

open OllamaAPI in
/-- C19, where the claim fails: a response with status 500 whose error body is
`{"error":"model not found"}` makes `generate` and `chat` fail with
`Error('model not found')`. The same error results for status 404: the failure
does not carry the status code. -/
theorem server_message_replaces_status :
    (generate sampleClient (errorEnv 500 (some modelNotFound)) sampleParse (js "hello") none
        none).result = .error (.error (js "model not found")) ∧
    (generate sampleClient (errorEnv 404 (some modelNotFound)) sampleParse (js "hello") none
        none).result = .error (.error (js "model not found")) ∧
    (chat sampleClient (errorEnv 500 (some modelNotFound)) sampleParse [] none none).result
      = .error (.error (js "model not found")) ∧
    (chat sampleClient (errorEnv 404 (some modelNotFound)) sampleParse [] none none).result
      = .error (.error (js "model not found")) ∧
    Dom.includes (js "model not found") (natText 500) = false :=
  ⟨rfl, rfl, rfl, rfl, by decide⟩

open OllamaAPI in
/-- C19, amended: for a response whose status is not 2xx, `generate` and `chat`
fail with an `Error` whose message is the `error` text of the error body when
that body is an object with a non-empty `error` string, and
`API request failed with status <status>` when the body cannot be read as JSON
or is an object without a truthy `error`. -/
theorem http_error_has_message_or_status (self : Instance) (env : Env)
    (parse : JStr → Option JVal) (prompt : JStr) (messages : List Message)
    (onToken : Option OnToken) (signal : Option Signal) (r : Response)
    (htimer : env.aborted Signal.timer = false)
    (hreply : ∀ resource init, env.reply resource init = .resolved r)
    (hok : r.ok = false) :
    ((generate self env parse prompt onToken signal).result = .error (httpError r) ∧
      (chat self env parse messages onToken signal).result = .error (httpError r)) ∧
    (∀ (fields : List (JStr × JVal)) (text : JStr), r.json = some (.obj fields) →
      JVal.field fields (js "error") = .str text → text ≠ [] →
      httpError r = .error text) ∧
    (r.json = none →
      httpError r = .error (js "API request failed with status " ++ natText r.status)) ∧
    (∀ fields : List (JStr × JVal), r.json = some (.obj fields) →
      (JVal.field fields (js "error")).truthy = false →
      httpError r = .error (js "API request failed with status " ++ natText r.status)) := by
  refine ⟨⟨?_, ?_⟩, ?_, ?_, ?_⟩
  · unfold generate
    rw [streamCall_of_not_ok _ _ _ _ _ _ _ _ r htimer hreply hok]; rfl
  · unfold chat
    rw [streamCall_of_not_ok _ _ _ _ _ _ _ _ r htimer hreply hok]; rfl
  · intro fields text hjson hfield hne
    have ht : (JVal.str text).truthy = true := by
      cases text with
      | nil => exact absurd rfl hne
      | cons c cs => rfl
    simp [httpError, hjson, JVal.getProp, hfield, ht, JVal.toStr]
  · intro hjson
    simp [httpError, hjson, JVal.getProp, JVal.field, JVal.truthy]
  · intro fields hjson hfalsy
    simp [httpError, hjson, JVal.getProp, hfalsy]

open OllamaAPI in
/-- Witness for C19 as amended: status 500 with no readable error body gives
`API request failed with status 500`. -/
theorem http_error_has_message_or_status_witness :
    (errorEnv 500 none).aborted Signal.timer = false ∧
    (generate sampleClient (errorEnv 500 none) sampleParse (js "hello") none none).result
      = .error (.error (js "API request failed with status 500")) :=
  ⟨rfl,
    ((http_error_has_message_or_status sampleClient (errorEnv 500 none) sampleParse (js "hello")
      [] none none ⟨500, none, some ⟨[], .done⟩⟩ rfl (fun _ _ => rfl) rfl).1.1).trans rfl⟩

open OllamaAPI in
/-- C20, where the claim fails: with an empty endpoint, an empty model and an
empty prompt the request is made all the same. `generate`, `chat` and
`summarizeText` return what the server streams, and on a network that is down
they fail with the network's error, not with a validation failure. -/
theorem empty_configuration_is_not_rejected :
    (generate blankClient (sampleEnv [sampleChunk] .done) sampleParse [] none none).result
      = .ok (js "Hi") ∧
    (chat blankClient (sampleEnv [sampleChunk] .done) sampleParse [] none none).result
      = .ok (js "Hi") ∧
    Background.summarizeText sampleClient sampleEngine (sampleEnv [sampleChunk] .done)
        sampleParse [] { Background.DEFAULT_CONFIG with endpoint := [], model := [] }
      = .succeeded (js "summary") (js "Hi") ∧
    (generate blankClient offlineEnv sampleParse [] none none).result
      = .error (.other (js "TypeError") (js "Failed to fetch")) ∧
    (generate blankClient
        (pickyEnv (fun resource init =>
          resource == js "/api/generate" && (init.body.map (fun b => b.model)) == some []))
        sampleParse [] none none).result = .ok (js "Hi") :=
  ⟨rfl, rfl, rfl, rfl, rfl⟩

namespace OllamaAPI

theorem streamCall_of_reply_resolved (self : Instance) (env : Env) (parse : JStr → Option JVal)
    (path : JStr) (payload : Payload) (delta : JVal → Option JVal)
    (onToken : Option OnToken) (signal : Option Signal) (r : Response) (chunks : List JStr)
    (htimer : env.aborted Signal.timer = false)
    (hreply : env.reply (self.config.endpoint ++ path)
        (fetchInit (requestOptions self payload signal)) = .resolved r)
    (hok : r.ok = true) (hbody : r.body = some ⟨chunks, .done⟩) :
    streamCall self env parse path payload delta onToken signal
      = ⟨.ok (readAll delta parse onToken chunks).fullResponse,
          (readAll delta parse onToken chunks).tokens,
          (readAll delta parse onToken chunks).logged⟩ := by
  unfold streamCall _fetchWithTimeout fetch
  simp only [fetchInit, Option.map_some', Option.getD_some] at hreply ⊢
  simp [htimer, hreply, hok, hbody]

theorem streamCall_of_reply_rejected (self : Instance) (env : Env) (parse : JStr → Option JVal)
    (path : JStr) (payload : Payload) (delta : JVal → Option JVal)
    (onToken : Option OnToken) (signal : Option Signal) (e : JsError)
    (htimer : env.aborted Signal.timer = false)
    (hreply : env.reply (self.config.endpoint ++ path)
        (fetchInit (requestOptions self payload signal)) = .rejected e)
    (hname : e.name ≠ js "AbortError") :
    streamCall self env parse path payload delta onToken signal = Outcome.failed e := by
  unfold streamCall _fetchWithTimeout fetch
  simp only [fetchInit, Option.map_some', Option.getD_some] at hreply ⊢
  simp [htimer, hreply, hname, rethrow]

end OllamaAPI

open OllamaAPI in
/-- C20, amended: no call is validated. For every configuration, prompt,
message list and text, empty ones included, `generate`, `chat` and
`summarizeText` send their request to `<endpoint>/api/generate` or
`<endpoint>/api/chat` and return the outcome of that exchange: the streamed text
when the server answers this request with a complete stream, and the error of
the network when it rejects this request (for `summarizeText`, a result carrying
the message of that error). -/
theorem requests_are_not_validated (self ollama : Instance) (engine : JsError → JStr)
    (env : Env) (parse : JStr → Option JVal) (prompt text : JStr) (messages : List Message)
    (config : Background.Config) (htimer : env.aborted Signal.timer = false) :
    (∀ (r : Response) (chunks : List JStr),
      env.reply (self.config.endpoint ++ js "/api/generate")
          (fetchInit (requestOptions self (.prompt prompt) none)) = .resolved r →
      r.ok = true → r.body = some ⟨chunks, .done⟩ →
      (generate self env parse prompt none none).result
        = .ok (readAll responseOf parse none chunks).fullResponse) ∧
    (∀ e : JsError,
      env.reply (self.config.endpoint ++ js "/api/generate")
          (fetchInit (requestOptions self (.prompt prompt) none)) = .rejected e →
      e.name ≠ js "AbortError" →
      (generate self env parse prompt none none).result = .error e) ∧
    (∀ (r : Response) (chunks : List JStr),
      env.reply (self.config.endpoint ++ js "/api/chat")
          (fetchInit (requestOptions self (.messages messages) none)) = .resolved r →
      r.ok = true → r.body = some ⟨chunks, .done⟩ →
      (chat self env parse messages none none).result
        = .ok (readAll contentOf parse none chunks).fullResponse) ∧
    (∀ e : JsError,
      env.reply (self.config.endpoint ++ js "/api/chat")
          (fetchInit (requestOptions self (.messages messages) none)) = .rejected e →
      e.name ≠ js "AbortError" →
      (chat self env parse messages none none).result = .error e) ∧
    (∀ (r : Response) (chunks : List JStr),
      env.reply (config.endpoint ++ js "/api/generate")
          (fetchInit (requestOptions (updateConfig ollama (Background.clientConfig config))
            (.prompt (Background.summarizePrompt text)) none)) = .resolved r →
      r.ok = true → r.body = some ⟨chunks, .done⟩ →
      Background.summarizeText ollama engine env parse text config
        = .succeeded (js "summary") (readAll responseOf parse none chunks).fullResponse) ∧
    (∀ e : JsError,
      env.reply (config.endpoint ++ js "/api/generate")
          (fetchInit (requestOptions (updateConfig ollama (Background.clientConfig config))
            (.prompt (Background.summarizePrompt text)) none)) = .rejected e →
      e.name ≠ js "AbortError" →
      Background.summarizeText ollama engine env parse text config
        = .failed (e.message engine)) ∧
    (fetchInit (requestOptions (updateConfig ollama (Background.clientConfig config))
        (.prompt (Background.summarizePrompt text)) none)).body
      = some
        { model := config.model
          payload := .prompt (Background.summarizePrompt text)
          stream := true
          temperature := config.temperature
          num_predict := config.maxTokens } := by
  refine ⟨?_, ?_, ?_, ?_, ?_, ?_, rfl⟩
  · intro r chunks hreply hok hbody
    unfold generate
    rw [streamCall_of_reply_resolved self env parse _ _ responseOf none none r chunks htimer
      hreply hok hbody]
  · intro e hreply hname
    unfold generate
    rw [streamCall_of_reply_rejected self env parse _ _ responseOf none none e htimer hreply
      hname]
    rfl
  · intro r chunks hreply hok hbody
    unfold chat
    rw [streamCall_of_reply_resolved self env parse _ _ contentOf none none r chunks htimer
      hreply hok hbody]
  · intro e hreply hname
    unfold chat
    rw [streamCall_of_reply_rejected self env parse _ _ contentOf none none e htimer hreply
      hname]
    rfl
  · intro r chunks hreply hok hbody
    have h := streamCall_of_reply_resolved (updateConfig ollama (Background.clientConfig config))
      env parse (js "/api/generate") (.prompt (Background.summarizePrompt text)) responseOf none
      none r chunks htimer hreply hok hbody
    simp only [Background.summarizeText, Background.generateAction, generate, h]
  · intro e hreply hname
    have h := streamCall_of_reply_rejected (updateConfig ollama (Background.clientConfig config))
      env parse (js "/api/generate") (.prompt (Background.summarizePrompt text)) responseOf none
      none e htimer hreply hname
    simp only [Background.summarizeText, Background.generateAction, generate, h, Outcome.failed]

open OllamaAPI in
/-- Witness for C20 as amended: the client with empty endpoint and model, and an
empty prompt, against a server that answers only the request to `/api/generate`
whose model is empty, and on a network that is down. -/
theorem requests_are_not_validated_witness :
    blankClient.config.endpoint = [] ∧ blankClient.config.model = [] ∧
    (generate blankClient
        (pickyEnv (fun resource init =>
          resource == js "/api/generate" && (init.body.map (fun b => b.model)) == some []))
        sampleParse [] none none).result
      = .ok (readAll responseOf sampleParse none [sampleChunk]).fullResponse ∧
    (generate blankClient offlineEnv sampleParse [] none none).result
      = .error (.other (js "TypeError") (js "Failed to fetch")) ∧
    Background.summarizeText sampleClient sampleEngine offlineEnv sampleParse []
        { Background.DEFAULT_CONFIG with endpoint := [], model := [] }
      = .failed (js "Failed to fetch") :=
  ⟨rfl, rfl,
    (requests_are_not_validated blankClient sampleClient sampleEngine
      (pickyEnv (fun resource init =>
        resource == js "/api/generate" && (init.body.map (fun b => b.model)) == some []))
      sampleParse [] [] [] Background.DEFAULT_CONFIG rfl).1
      ⟨200, none, some ⟨[sampleChunk], .done⟩⟩ [sampleChunk] rfl rfl rfl,
    (requests_are_not_validated blankClient sampleClient sampleEngine offlineEnv sampleParse
      [] [] [] Background.DEFAULT_CONFIG rfl).2.1
      (.other (js "TypeError") (js "Failed to fetch")) rfl (by decide),
    (requests_are_not_validated blankClient sampleClient sampleEngine offlineEnv sampleParse
      [] [] [] { Background.DEFAULT_CONFIG with endpoint := [], model := [] } rfl).2.2.2.2.2.1
      (.other (js "TypeError") (js "Failed to fetch")) rfl (by decide)⟩

/-! ## The connectivity probe -/

/-- C21: `checkConnection` never throws. It always returns a boolean: the `ok`
flag of the response when the `GET` to `<endpoint>/api/tags` resolves, and
`false` when the request is rejected by the network or cut off by the timer. -/
theorem checkConnection_degrades_to_false (self : OllamaAPI.Instance) (env : OllamaAPI.Env) :
    (∀ r, env.aborted OllamaAPI.Signal.timer = false →
        env.reply (self.config.endpoint ++ js "/api/tags") OllamaAPI.probeInit = .resolved r →
        OllamaAPI.checkConnection self env = r.ok) ∧
    (∀ e, env.aborted OllamaAPI.Signal.timer = false →
        env.reply (self.config.endpoint ++ js "/api/tags") OllamaAPI.probeInit = .rejected e →
        OllamaAPI.checkConnection self env = false) ∧
    (env.aborted OllamaAPI.Signal.timer = true → OllamaAPI.checkConnection self env = false) := by
  refine ⟨?_, ?_, ?_⟩
  · intro r ha hr
    have hr2 : env.reply (self.config.endpoint ++ js "/api/tags")
        { signal := some OllamaAPI.Signal.timer } = .resolved r := hr
    simp [OllamaAPI.checkConnection, OllamaAPI._fetchWithTimeout, OllamaAPI.fetch,
      OllamaAPI.fetchInit, ha, hr2]
  · intro e ha hr
    have hr2 : env.reply (self.config.endpoint ++ js "/api/tags")
        { signal := some OllamaAPI.Signal.timer } = .rejected e := hr
    simp only [OllamaAPI.checkConnection, OllamaAPI._fetchWithTimeout, OllamaAPI.fetch,
      OllamaAPI.fetchInit, Option.map_some', Option.getD_some, ha, hr2]
    simp only [Bool.false_eq_true, if_false]
    by_cases hn : e.name = js "AbortError" <;> simp [hn]
  · intro ha
    simp [OllamaAPI.checkConnection, OllamaAPI._fetchWithTimeout, OllamaAPI.fetch,
      OllamaAPI.fetchInit, ha, JsError.name]

/-- Witness for C21: a reachable server answers 200 and the probe returns `true`;
a server answering 500 makes it return `false`; so do a refused connection and a
timer that fires. -/
theorem checkConnection_degrades_to_false_witness :
    OllamaAPI.checkConnection OllamaAPI.sampleClient (OllamaAPI.sampleEnv [] .done) = true ∧
    OllamaAPI.checkConnection OllamaAPI.sampleClient
        (OllamaAPI.errorEnv 500 none) = false ∧
    OllamaAPI.checkConnection OllamaAPI.sampleClient OllamaAPI.offlineEnv = false ∧
    OllamaAPI.checkConnection OllamaAPI.sampleClient
        (OllamaAPI.timedOutEnv [] .done) = false :=
  ⟨(checkConnection_degrades_to_false OllamaAPI.sampleClient
      (OllamaAPI.sampleEnv [] .done)).1 ⟨200, none, some ⟨[], .done⟩⟩ rfl rfl,
    rfl, rfl,
    (checkConnection_degrades_to_false OllamaAPI.sampleClient
      (OllamaAPI.timedOutEnv [] .done)).2.2 rfl⟩

/-! ## Chunk boundaries -/

namespace OllamaAPI

theorem processLine_shift (delta : JVal → Option JVal) (parse : JStr → Option JVal)
    (onToken : Option OnToken) (st : Progress) (line : JStr) :
    (processLine delta parse onToken st line).fullResponse
        = st.fullResponse ++ (processLine delta parse onToken Progress.init line).fullResponse ∧
      (processLine delta parse onToken st line).tokens
        = st.tokens ++ (processLine delta parse onToken Progress.init line).tokens ∧
      (processLine delta parse onToken st line).logged
        = st.logged + (processLine delta parse onToken Progress.init line).logged := by
  unfold processLine
  by_cases h1 : startsWith line (js "data: ") = true
  · by_cases h2 : line.drop 6 = js "[DONE]"
    · simp [h1, h2, Progress.init]
    · cases hp : parse (line.drop 6) with
      | none => simp [h1, h2, hp, Progress.init]
      | some parsed =>
        cases hd : delta parsed with
        | none => simp [h1, h2, hp, hd, Progress.init]
        | some d =>
          by_cases ht : d.truthy = true
          · cases hs : d.toStr with
            | none => simp [h1, h2, hp, hd, ht, hs, Progress.init]
            | some text =>
              cases onToken with
              | none => simp [h1, h2, hp, hd, ht, hs, Progress.init]
              | some cb =>
                by_cases hc : cb d = true <;> simp [h1, h2, hp, hd, ht, hs, hc, Progress.init]
          · simp [h1, h2, hp, hd, ht, Progress.init]
  · simp [h1, Progress.init]

theorem foldl_processLine_shift (delta : JVal → Option JVal) (parse : JStr → Option JVal)
    (onToken : Option OnToken) (lines : List JStr) (st : Progress) :
    (lines.foldl (processLine delta parse onToken) st).fullResponse
        = st.fullResponse
          ++ (lines.foldl (processLine delta parse onToken) Progress.init).fullResponse ∧
      (lines.foldl (processLine delta parse onToken) st).tokens
        = st.tokens ++ (lines.foldl (processLine delta parse onToken) Progress.init).tokens ∧
      (lines.foldl (processLine delta parse onToken) st).logged
        = st.logged + (lines.foldl (processLine delta parse onToken) Progress.init).logged := by
  induction lines generalizing st with
  | nil => simp [Progress.init]
  | cons line rest ih =>
    obtain ⟨a1, a2, a3⟩ := processLine_shift delta parse onToken st line
    obtain ⟨b1, b2, b3⟩ := ih (processLine delta parse onToken st line)
    obtain ⟨c1, c2, c3⟩ := ih (processLine delta parse onToken Progress.init line)
    simp only [List.foldl_cons]
    rw [b1, b2, b3, c1, c2, c3, a1, a2, a3]
    simp [List.append_assoc, Nat.add_assoc]

theorem foldl_processChunk_shift (delta : JVal → Option JVal) (parse : JStr → Option JVal)
    (onToken : Option OnToken) (chunks : List JStr) (st : Progress) :
    (chunks.foldl (processChunk delta parse onToken) st).fullResponse
        = st.fullResponse ++
          (chunks.map fun c => (readAll delta parse onToken [c]).fullResponse).flatten ∧
      (chunks.foldl (processChunk delta parse onToken) st).tokens
        = st.tokens ++ (chunks.map fun c => (readAll delta parse onToken [c]).tokens).flatten ∧
      (chunks.foldl (processChunk delta parse onToken) st).logged
        = st.logged + (chunks.map fun c => (readAll delta parse onToken [c]).logged).sum := by
  induction chunks generalizing st with
  | nil => simp
  | cons chunk rest ih =>
    obtain ⟨a1, a2, a3⟩ := foldl_processLine_shift delta parse onToken (linesOf chunk) st
    obtain ⟨b1, b2, b3⟩ := ih (processChunk delta parse onToken st chunk)
    simp only [List.foldl_cons]
    rw [b1, b2, b3]
    simp only [processChunk, readAll, List.foldl_cons, List.foldl_nil, List.map_cons,
      List.flatten_cons, List.sum_cons]
    rw [a1, a2, a3]
    simp [List.append_assoc, Nat.add_assoc]

theorem readAll_chunkwise (delta : JVal → Option JVal) (parse : JStr → Option JVal)
    (onToken : Option OnToken) (chunks : List JStr) :
    (readAll delta parse onToken chunks).fullResponse
        = (chunks.map fun c => (readAll delta parse onToken [c]).fullResponse).flatten ∧
      (readAll delta parse onToken chunks).tokens
        = (chunks.map fun c => (readAll delta parse onToken [c]).tokens).flatten := by
  obtain ⟨h1, h2, _⟩ := foldl_processChunk_shift delta parse onToken chunks Progress.init
  exact ⟨by simpa [Progress.init] using h1, by simpa [Progress.init] using h2⟩

theorem processLine_of_not_prefixed (delta : JVal → Option JVal) (parse : JStr → Option JVal)
    (onToken : Option OnToken) (st : Progress) (line : JStr)
    (h : startsWith line (js "data: ") = false) :
    processLine delta parse onToken st line = st := by
  simp [processLine, h]

theorem readAll_of_not_prefixed (delta : JVal → Option JVal) (parse : JStr → Option JVal)
    (onToken : Option OnToken) (chunks : List JStr)
    (h : ∀ chunk ∈ chunks, ∀ line ∈ splitLines chunk, startsWith line (js "data: ") = false) :
    readAll delta parse onToken chunks = Progress.init := by
  have hl : ∀ (lines : List JStr) (st : Progress),
      (∀ line ∈ lines, startsWith line (js "data: ") = false) →
      lines.foldl (processLine delta parse onToken) st = st := by
    intro lines
    induction lines with
    | nil => intro st _; rfl
    | cons line rest ih =>
      intro st hs
      simp only [List.foldl_cons]
      rw [processLine_of_not_prefixed delta parse onToken st line (hs line (by simp))]
      exact ih st (fun l hm => hs l (by simp [hm]))
  have hc : ∀ (cs : List JStr) (st : Progress),
      (∀ chunk ∈ cs, ∀ line ∈ splitLines chunk, startsWith line (js "data: ") = false) →
      cs.foldl (processChunk delta parse onToken) st = st := by
    intro cs
    induction cs with
    | nil => intro st _; rfl
    | cons c rest ih =>
      intro st hs
      simp only [List.foldl_cons]
      have : processChunk delta parse onToken st c = st := by
        unfold processChunk linesOf
        exact hl _ st (fun l hm => hs c (by simp) l (List.mem_filter.mp hm).1)
      rw [this]
      exact ih st (fun c2 hm => hs c2 (by simp [hm]))
  exact hc chunks Progress.init h

end OllamaAPI

/-- C28: stream processing in `generate` and `chat` is chunk-local. When the
server delivers a complete stream, the returned text and the reported deltas
are the concatenation of what each chunk yields when it is processed on its own.
The result therefore depends on the chunk boundaries: the line of `wholeLine`
yields the token `Hi` when it arrives in one chunk and nothing when the same
bytes arrive cut in two in the middle of the line. -/
theorem stream_processing_is_chunk_local (self : OllamaAPI.Instance) (env : OllamaAPI.Env)
    (parse : JStr → Option JVal) (prompt : JStr) (messages : List OllamaAPI.Message)
    (onToken : Option OllamaAPI.OnToken) (signal : Option OllamaAPI.Signal)
    (r : OllamaAPI.Response) (chunks : List JStr)
    (htimer : env.aborted OllamaAPI.Signal.timer = false)
    (hreply : ∀ resource init, env.reply resource init = .resolved r)
    (hok : r.ok = true) (hbody : r.body = some ⟨chunks, .done⟩) :
    ((OllamaAPI.generate self env parse prompt onToken signal).result
        = .ok (chunks.map fun c =>
            (OllamaAPI.readAll OllamaAPI.responseOf parse onToken [c]).fullResponse).flatten ∧
      (OllamaAPI.generate self env parse prompt onToken signal).tokens
        = (chunks.map fun c =>
            (OllamaAPI.readAll OllamaAPI.responseOf parse onToken [c]).tokens).flatten ∧
      (OllamaAPI.chat self env parse messages onToken signal).result
        = .ok (chunks.map fun c =>
            (OllamaAPI.readAll OllamaAPI.contentOf parse onToken [c]).fullResponse).flatten ∧
      (OllamaAPI.chat self env parse messages onToken signal).tokens
        = (chunks.map fun c =>
            (OllamaAPI.readAll OllamaAPI.contentOf parse onToken [c]).tokens).flatten) ∧
    (OllamaAPI.splitLine.flatten = OllamaAPI.wholeLine ∧
      (OllamaAPI.generate OllamaAPI.sampleClient
          (OllamaAPI.sampleEnv [OllamaAPI.wholeLine] .done) OllamaAPI.sampleParse (js "hello")
          (some fun _ => false) none).result = .ok (js "Hi") ∧
      (OllamaAPI.generate OllamaAPI.sampleClient
          (OllamaAPI.sampleEnv [OllamaAPI.wholeLine] .done) OllamaAPI.sampleParse (js "hello")
          (some fun _ => false) none).tokens = [.str (js "Hi")] ∧
      (OllamaAPI.generate OllamaAPI.sampleClient
          (OllamaAPI.sampleEnv OllamaAPI.splitLine .done) OllamaAPI.sampleParse (js "hello")
          (some fun _ => false) none).result = .ok [] ∧
      (OllamaAPI.generate OllamaAPI.sampleClient
          (OllamaAPI.sampleEnv OllamaAPI.splitLine .done) OllamaAPI.sampleParse (js "hello")
          (some fun _ => false) none).tokens = []) := by
  have hg := OllamaAPI.streamCall_of_resolved self env parse (js "/api/generate")
    (.prompt prompt) OllamaAPI.responseOf onToken signal r ⟨chunks, .done⟩ htimer hreply hok hbody
  have hc := OllamaAPI.streamCall_of_resolved self env parse (js "/api/chat")
    (.messages messages) OllamaAPI.contentOf onToken signal r ⟨chunks, .done⟩ htimer hreply hok
    hbody
  obtain ⟨g1, g2⟩ := OllamaAPI.readAll_chunkwise OllamaAPI.responseOf parse onToken chunks
  obtain ⟨c1, c2⟩ := OllamaAPI.readAll_chunkwise OllamaAPI.contentOf parse onToken chunks
  refine ⟨?_, rfl, rfl, rfl, rfl, rfl⟩
  unfold OllamaAPI.generate OllamaAPI.chat
  rw [hg, hc]
  simp only []
  rw [← g1, ← g2, ← c1, ← c2]
  exact ⟨rfl, rfl, rfl, rfl⟩

/-- Witness for C28: a server streaming `sampleChunk` twice; `generate` returns
the two per-chunk texts one after the other. -/
theorem stream_processing_is_chunk_local_witness :
    (OllamaAPI.generate OllamaAPI.sampleClient
        (OllamaAPI.sampleEnv [OllamaAPI.sampleChunk, OllamaAPI.sampleChunk] .done)
        OllamaAPI.sampleParse (js "hello") (some fun _ => false) none).result = .ok (js "HiHi") ∧
    (OllamaAPI.generate OllamaAPI.sampleClient
        (OllamaAPI.sampleEnv [OllamaAPI.sampleChunk, OllamaAPI.sampleChunk] .done)
        OllamaAPI.sampleParse (js "hello") (some fun _ => false) none).result
      = .ok ([OllamaAPI.sampleChunk, OllamaAPI.sampleChunk].map fun c =>
          (OllamaAPI.readAll OllamaAPI.responseOf OllamaAPI.sampleParse (some fun _ => false)
            [c]).fullResponse).flatten :=
  ⟨rfl,
    (stream_processing_is_chunk_local OllamaAPI.sampleClient
      (OllamaAPI.sampleEnv [OllamaAPI.sampleChunk, OllamaAPI.sampleChunk] .done)
      OllamaAPI.sampleParse (js "hello") [] (some fun _ => false) none
      ⟨200, none, some ⟨[OllamaAPI.sampleChunk, OllamaAPI.sampleChunk], .done⟩⟩
      [OllamaAPI.sampleChunk, OllamaAPI.sampleChunk] rfl (fun _ _ => rfl) rfl rfl).1.1⟩

/-- C29: a line contributes only if it begins with the six characters `data: `.
When the server delivers a complete stream in which no line of any chunk starts
with `data: `, `generate` and `chat` return the empty string, never call
`onToken`, log nothing and do not fail. -/
theorem unprefixed_lines_are_ignored (self : OllamaAPI.Instance) (env : OllamaAPI.Env)
    (parse : JStr → Option JVal) (prompt : JStr) (messages : List OllamaAPI.Message)
    (onToken : Option OllamaAPI.OnToken) (signal : Option OllamaAPI.Signal)
    (r : OllamaAPI.Response) (chunks : List JStr)
    (htimer : env.aborted OllamaAPI.Signal.timer = false)
    (hreply : ∀ resource init, env.reply resource init = .resolved r)
    (hok : r.ok = true) (hbody : r.body = some ⟨chunks, .done⟩)
    (hplain : ∀ chunk ∈ chunks, ∀ line ∈ splitLines chunk,
      startsWith line (js "data: ") = false) :
    OllamaAPI.generate self env parse prompt onToken signal = ⟨.ok [], [], 0⟩ ∧
    OllamaAPI.chat self env parse messages onToken signal = ⟨.ok [], [], 0⟩ := by
  have hg := OllamaAPI.streamCall_of_resolved self env parse (js "/api/generate")
    (.prompt prompt) OllamaAPI.responseOf onToken signal r ⟨chunks, .done⟩ htimer hreply hok hbody
  have hc := OllamaAPI.streamCall_of_resolved self env parse (js "/api/chat")
    (.messages messages) OllamaAPI.contentOf onToken signal r ⟨chunks, .done⟩ htimer hreply hok
    hbody
  unfold OllamaAPI.generate OllamaAPI.chat
  rw [hg, hc, OllamaAPI.readAll_of_not_prefixed _ parse onToken chunks hplain,
    OllamaAPI.readAll_of_not_prefixed _ parse onToken chunks hplain]
  exact ⟨rfl, rfl⟩

/-- Witness for C29: a server streaming `unprefixedChunk`, whose two lines carry
a token payload but no `data: ` prefix at the start of the line. -/
theorem unprefixed_lines_are_ignored_witness :
    (∀ chunk ∈ [OllamaAPI.unprefixedChunk], ∀ line ∈ splitLines chunk,
      startsWith line (js "data: ") = false) ∧
    OllamaAPI.generate OllamaAPI.sampleClient
        (OllamaAPI.sampleEnv [OllamaAPI.unprefixedChunk] .done) OllamaAPI.sampleParse
        (js "hello") (some fun _ => false) none = ⟨.ok [], [], 0⟩ :=
  ⟨by decide,
    (unprefixed_lines_are_ignored OllamaAPI.sampleClient
      (OllamaAPI.sampleEnv [OllamaAPI.unprefixedChunk] .done) OllamaAPI.sampleParse
      (js "hello") [] (some fun _ => false) none
      ⟨200, none, some ⟨[OllamaAPI.unprefixedChunk], .done⟩⟩ [OllamaAPI.unprefixedChunk]
      rfl (fun _ _ => rfl) rfl rfl (by decide)).1⟩

/-! ## The stored configuration -/

/-- C22 (counterexample): with no stored overrides the configuration that
`getConfig` returns has no timeout at all, rather than 30000 ms; the same holds
for stored overrides that define other options only. -/
theorem getConfig_has_no_default_timeout :
    (Background.getConfig none).timeout = none ∧
    (Background.getConfig none).timeout ≠ some 30000 ∧
    (Background.getConfig (some { model := some (js "llama3") })).timeout ≠ some 30000 :=
  ⟨rfl, by decide, by decide⟩

/-- C22 (amended): for every stored override record, `getConfig` returns for
each option the stored value when the record defines it and otherwise the
default of `background.js`: endpoint `http://127.0.0.1:11434`, model `mistral`,
temperature 0.7, maxTokens 1000, autoOpenSidebar and includePageContext true,
maxContextChars 10000. The timeout has no default there: the returned
configuration has the stored timeout when one is defined and none otherwise.
With no stored overrides the result is exactly these defaults, without a
timeout. -/
theorem getConfig_merges_stored_over_defaults (s : Background.StoredConfig) :
    (Background.getConfig (some s)).endpoint = s.endpoint.getD (js "http://127.0.0.1:11434") ∧
    (Background.getConfig (some s)).model = s.model.getD (js "mistral") ∧
    (Background.getConfig (some s)).temperature = s.temperature.getD (.num false (js "0.7")) ∧
    (Background.getConfig (some s)).maxTokens = s.maxTokens.getD (.num false (js "1000")) ∧
    (Background.getConfig (some s)).autoOpenSidebar = s.autoOpenSidebar.getD true ∧
    (Background.getConfig (some s)).includePageContext = s.includePageContext.getD true ∧
    (Background.getConfig (some s)).maxContextChars = s.maxContextChars.getD 10000 ∧
    (Background.getConfig (some s)).timeout = s.timeout ∧
    Background.getConfig none =
      { endpoint := js "http://127.0.0.1:11434"
        model := js "mistral"
        temperature := .num false (js "0.7")
        maxTokens := .num false (js "1000")
        autoOpenSidebar := true
        includePageContext := true
        maxContextChars := 10000
        timeout := none } := by
  refine ⟨rfl, rfl, rfl, rfl, rfl, rfl, rfl, ?_, rfl⟩
  cases h : s.timeout <;> simp [Background.getConfig, Background.DEFAULT_CONFIG, h]

open OllamaAPI in
/-- C23: the stored timeout does not reach the client. Whatever timeout the
configuration holds, the object the background actions give to `updateConfig`
leaves the timeout of the client as it was, so `_fetchWithTimeout` arms the
timer with the client's own 30000 ms. With a stored timeout of 5000 ms and a
server that does not answer, all four actions fail with
`Request timed out after 30000ms`. -/
theorem stored_timeout_is_ignored (ollama : Instance) (config : Background.Config)
    (payload : Payload) (signal : Option Signal) :
    timeoutOf (updateConfig ollama (Background.clientConfig config))
        (requestOptions (updateConfig ollama (Background.clientConfig config)) payload signal)
      = ollama.config.timeout ∧
    (Background.getConfig (some Background.fiveSeconds)).timeout = some 5000 ∧
    Background.summarizeText sampleClient sampleEngine (timedOutEnv [] .done) sampleParse
        (js "text") (Background.getConfig (some Background.fiveSeconds))
      = .failed (js "Request timed out after 30000ms") ∧
    Background.explainText sampleClient sampleEngine (timedOutEnv [] .done) sampleParse
        (js "text") (Background.getConfig (some Background.fiveSeconds))
      = .failed (js "Request timed out after 30000ms") ∧
    Background.rewriteText sampleClient sampleEngine (timedOutEnv [] .done) sampleParse
        (js "text") (Background.getConfig (some Background.fiveSeconds))
      = .failed (js "Request timed out after 30000ms") ∧
    Background.handleProcessChatMessage sampleClient sampleEngine Background.sampleStringify
        (timedOutEnv [] .done) sampleParse (.ok (Background.getConfig (some Background.fiveSeconds)))
        ⟨js "hello", none⟩
      = .failed (js "Request timed out after 30000ms") :=
  ⟨rfl, rfl, rfl, rfl, rfl, rfl⟩

open OllamaAPI in
/-- C24: the conversation `handleProcessChatMessage` passes to `ollama.chat` is
the system message with the fixed preamble, then, exactly when the request
carries a context, one system message `Page context: ` followed by the JSON text
of the context's title and url, then one user message with the text of the
request. This list is the `messages` member of the body of the request. -/
theorem chat_conversation_is_preamble_context_question (ollama : Instance)
    (engine : JsError → JStr) (stringify : Background.ChatContext → JStr) (env : Env)
    (parse : JStr → Option JVal) (config : Background.Config)
    (message : Background.ChatRequest) :
    (message.context = none →
      Background.chatMessages stringify message
        = [⟨js "system", Background.preamble⟩, ⟨js "user", message.message⟩]) ∧
    (∀ context, message.context = some context →
      Background.chatMessages stringify message
        = [⟨js "system", Background.preamble⟩,
            ⟨js "system", js "Page context: " ++ stringify ⟨context.title, context.url⟩⟩,
            ⟨js "user", message.message⟩]) ∧
    Background.handleProcessChatMessage ollama engine stringify env parse (.ok config) message
      = (match (chat (updateConfig ollama (Background.clientConfig config)) env parse
            (Background.chatMessages stringify message) none none).result with
          | .ok reply => .succeeded (js "reply") reply
          | .error error => .failed (error.message engine)) ∧
    ((fetchInit (requestOptions (updateConfig ollama (Background.clientConfig config))
        (.messages (Background.chatMessages stringify message)) none)).body.map
      fun body => body.payload)
      = some (.messages (Background.chatMessages stringify message)) := by
  refine ⟨?_, ?_, rfl, rfl⟩
  · intro h
    simp [Background.chatMessages, h]
  · intro context h
    simp [Background.chatMessages, h]

open OllamaAPI in
/-- Witness for C24: a request `hello` with the context of the page `Example`,
against a server that only answers a `POST` to `/api/chat` whose messages are
the preamble, the page context and `hello`; a request without context, against
a server that only accepts the preamble followed by `hello`. -/
theorem chat_conversation_is_preamble_context_question_witness :
    Background.handleProcessChatMessage sampleClient sampleEngine Background.sampleStringify
        (pickyEnv (expects (js "http://127.0.0.1:11434/api/chat")
          (isMessages [(js "system", Background.preamble),
            (js "system",
              js "Page context: \x7b\"title\":\"Example\",\"url\":\"https://example.org/a\"\x7d"),
            (js "user", js "hello")])))
        sampleParse (.ok Background.DEFAULT_CONFIG) ⟨js "hello", some Background.sampleContext⟩
      = .succeeded (js "reply") (js "Hi") ∧
    Background.handleProcessChatMessage sampleClient sampleEngine Background.sampleStringify
        (pickyEnv (expects (js "http://127.0.0.1:11434/api/chat")
          (isMessages [(js "system", Background.preamble), (js "user", js "hello")])))
        sampleParse (.ok Background.DEFAULT_CONFIG) ⟨js "hello", none⟩
      = .succeeded (js "reply") (js "Hi") ∧
    Background.chatMessages Background.sampleStringify ⟨js "hello", none⟩
      = [⟨js "system", Background.preamble⟩, ⟨js "user", js "hello"⟩] :=
  ⟨rfl, rfl,
    (chat_conversation_is_preamble_context_question sampleClient sampleEngine
      Background.sampleStringify (sampleEnv [] .done) sampleParse Background.DEFAULT_CONFIG
      ⟨js "hello", none⟩).1 rfl⟩

/-! ## Whole exchanges -/

namespace Sidebar

open OllamaAPI

theorem wholeExchanges_append : ∀ (l m : List Message),
    wholeExchanges l = true → wholeExchanges m = true → wholeExchanges (l ++ m) = true
  | [], _, _, hm => hm
  | [_], _, h, _ => by simp [wholeExchanges] at h
  | question :: answer :: rest, m, h, hm => by
    simp only [wholeExchanges, Bool.and_eq_true] at h
    simp only [List.cons_append, wholeExchanges, Bool.and_eq_true]
    exact ⟨h.1, wholeExchanges_append rest m h.2 hm⟩

theorem wholeExchanges_drop : ∀ (k : Nat) (l : List Message),
    wholeExchanges l = true → wholeExchanges (l.drop (2 * k)) = true
  | 0, _, h => by simpa using h
  | k + 1, [], _ => by simp [wholeExchanges]
  | k + 1, [_], h => by simp [wholeExchanges] at h
  | k + 1, question :: answer :: rest, h => by
    simp only [wholeExchanges, Bool.and_eq_true] at h
    have hk : 2 * (k + 1) = 2 * k + 1 + 1 := by ring
    rw [hk, List.drop_succ_cons, List.drop_succ_cons]
    exact wholeExchanges_drop k rest h.2

theorem wholeExchanges_length : ∀ l : List Message,
    wholeExchanges l = true → ∃ k, l.length = 2 * k
  | [], _ => ⟨0, rfl⟩
  | [_], h => by simp [wholeExchanges] at h
  | question :: answer :: rest, h => by
    simp only [wholeExchanges, Bool.and_eq_true] at h
    obtain ⟨k, hk⟩ := wholeExchanges_length rest h.2
    exact ⟨k + 1, by simp [hk]; ring⟩

theorem wholeExchanges_role : ∀ (l : List Message), wholeExchanges l = true →
    ∀ (i : Nat) (entry : Message), l[i]? = some entry →
      entry.role = if i % 2 = 0 then js "user" else js "assistant"
  | [], _, i, entry, hi => by simp at hi
  | [_], h, _, _, _ => by simp [wholeExchanges] at h
  | question :: answer :: rest, h, i, entry, hi => by
    simp only [wholeExchanges, Bool.and_eq_true, beq_iff_eq] at h
    match i, hi with
    | 0, hi =>
      simp only [List.getElem?_cons_zero, Option.some.injEq] at hi
      subst hi
      simpa using h.1.1
    | 1, hi =>
      simp only [List.getElem?_cons_succ, List.getElem?_cons_zero, Option.some.injEq] at hi
      subst hi
      simpa using h.1.2
    | j + 2, hi =>
      simp only [List.getElem?_cons_succ] at hi
      have := wholeExchanges_role rest h.2 j entry hi
      have hj : (j + 2) % 2 = j % 2 := by omega
      rw [hj]
      exact this

theorem chatHistory_saveChatHistory (st : State) (tab : Tab) :
    (saveChatHistory st tab).chatHistory = st.chatHistory := by
  unfold saveChatHistory
  cases tab.origin <;> rfl

theorem wholeExchanges_lastTwenty (l : List Message) (h : wholeExchanges l = true) :
    wholeExchanges (lastTwenty l) = true := by
  obtain ⟨k, hk⟩ := wholeExchanges_length l h
  have hd : l.length - 20 = 2 * (k - 10) := by omega
  unfold lastTwenty
  rw [hd]
  exact wholeExchanges_drop (k - 10) l h

end Sidebar

open OllamaAPI in
/-- C25: trimming the history to its last 20 entries never splits an exchange.
If the history before a successful `sendMessage` consists of whole exchanges,
a `user` entry followed by an `assistant` entry each, then so does the history
afterwards: its length is even and at most 20, the entry at every even position
is a `user` entry and the entry at every odd position an `assistant` entry, its
first entry is a `user` entry, and it holds at most 10 exchanges. -/
theorem trimming_keeps_whole_exchanges (st : Sidebar.State) (tab : Sidebar.Tab)
    (config : Except JsError Background.Config) (env : Env) (parse : JStr → Option JVal)
    (input assistantMessage : JStr)
    (hbefore : Sidebar.wholeExchanges st.chatHistory = true)
    (hinput : (trim input).isEmpty = false)
    (hsuccess : Sidebar.exchange st.chatHistory tab config env parse (trim input)
      = .ok assistantMessage) :
    Sidebar.wholeExchanges (Sidebar.sendMessage st tab config env parse input).1.chatHistory
        = true ∧
      (Sidebar.sendMessage st tab config env parse input).1.chatHistory.length ≤ 20 ∧
      (Sidebar.sendMessage st tab config env parse input).1.chatHistory.length % 2 = 0 ∧
      (Sidebar.sendMessage st tab config env parse input).1.chatHistory.length / 2 ≤ 10 ∧
      (∀ (i : Nat) (entry : Message),
        (Sidebar.sendMessage st tab config env parse input).1.chatHistory[i]? = some entry →
        entry.role = if i % 2 = 0 then js "user" else js "assistant") ∧
      ((Sidebar.sendMessage st tab config env parse input).1.chatHistory.head?.map
        fun entry => entry.role) = some (js "user") := by
  rw [Sidebar.sendMessage_of_ok st tab config env parse input assistantMessage hinput hsuccess]
  simp only [Sidebar.chatHistory_saveChatHistory]
  have hpushed : Sidebar.wholeExchanges
      (Sidebar.pushExchange st.chatHistory (trim input) assistantMessage) = true :=
    Sidebar.wholeExchanges_append _ _ hbefore (by simp [Sidebar.wholeExchanges])
  have hafter := Sidebar.wholeExchanges_lastTwenty _ hpushed
  have hlen := Sidebar.length_lastTwenty
    (Sidebar.pushExchange st.chatHistory (trim input) assistantMessage)
  have hplen : (Sidebar.pushExchange st.chatHistory (trim input) assistantMessage).length
      = st.chatHistory.length + 2 := by simp [Sidebar.pushExchange]
  obtain ⟨k, hk⟩ := Sidebar.wholeExchanges_length _ hafter
  have hroles := Sidebar.wholeExchanges_role _ hafter
  refine ⟨hafter, by omega, by omega, by omega, hroles, ?_⟩
  generalize Sidebar.lastTwenty (Sidebar.pushExchange st.chatHistory (trim input)
    assistantMessage) = after at hlen hroles hk
  cases after with
  | nil => simp at hlen; omega
  | cons first rest =>
    have := hroles 0 first (by simp)
    simpa using this

open OllamaAPI in
/-- Witness for C25: an exchange on top of a history of ten whole exchanges
leaves ten whole exchanges: the oldest exchange is dropped as a whole. -/
theorem trimming_keeps_whole_exchanges_witness :
    Sidebar.wholeExchanges Sidebar.fullState.chatHistory = true ∧
    (Sidebar.sendMessage Sidebar.fullState Sidebar.sampleTab (.ok Background.DEFAULT_CONFIG)
        (sampleEnv [sampleChunk] .done) sampleParse (js " hello ")).1.chatHistory.length = 20 ∧
    Sidebar.wholeExchanges
      (Sidebar.sendMessage Sidebar.fullState Sidebar.sampleTab (.ok Background.DEFAULT_CONFIG)
        (sampleEnv [sampleChunk] .done) sampleParse (js " hello ")).1.chatHistory = true :=
  ⟨rfl, rfl,
    (trimming_keeps_whole_exchanges Sidebar.fullState Sidebar.sampleTab
      (.ok Background.DEFAULT_CONFIG) (sampleEnv [sampleChunk] .done) sampleParse (js " hello ")
      (js "Hi") rfl rfl rfl).1⟩

/-- C26: saving the chat history writes only the entry of the current origin.
Afterwards the stored map holds the in-memory history under that origin, every
other origin has exactly the value it had before, and the in-memory history is
unchanged. -/
theorem only_the_current_origin_is_written (st : Sidebar.State) (tab : Sidebar.Tab)
    (origin : JStr) (horigin : tab.origin = some origin) :
    (Sidebar.saveChatHistory st tab).stored origin = some st.chatHistory ∧
    (∀ other, other ≠ origin → (Sidebar.saveChatHistory st tab).stored other = st.stored other) ∧
    (Sidebar.saveChatHistory st tab).chatHistory = st.chatHistory := by
  refine ⟨?_, ?_, ?_⟩
  · simp [Sidebar.saveChatHistory, horigin]
  · intro other hne
    simp [Sidebar.saveChatHistory, horigin, hne]
  · simp [Sidebar.saveChatHistory, horigin]

/-- Witness for C26: saving on `https://example.org` while storage holds a
history for `https://other.example`, which is still there afterwards. -/
theorem only_the_current_origin_is_written_witness :
    (Sidebar.saveChatHistory Sidebar.otherOriginState Sidebar.sampleTab).stored
        (js "https://example.org")
      = some [⟨js "user", js "q"⟩, ⟨js "assistant", js "a"⟩] ∧
    (Sidebar.saveChatHistory Sidebar.otherOriginState Sidebar.sampleTab).stored
        (js "https://other.example")
      = some [⟨js "user", js "x"⟩] :=
  ⟨(only_the_current_origin_is_written Sidebar.otherOriginState Sidebar.sampleTab
      (js "https://example.org") rfl).1,
    rfl⟩

/-! ## The options page -/

namespace OptionsPage

theorem saveSettings_of_valid (form : Form) (storage : Option StoredConfig)
    (hendpoint : trim form.endpoint ≠ []) (hmodel : trim form.model ≠ []) :
    saveSettings form storage
      = ⟨some (configOf form).stored, (js "Settings saved successfully!", js "success"),
          some true⟩ := by
  simp [saveSettings, configOf, hendpoint, hmodel]

/-- For every form whose server and model are non-empty and carry no blanks
around them, whose temperature is not zero and whose whole numbers are not zero
and within the range the model follows, `loadSettings` fills the form in with
the values that `saveSettings` read. -/
theorem round_trip_of_nonzero (form : Form) (storage : Option StoredConfig)
    (tokens context seconds : Int)
    (hendpoint : trim form.endpoint = form.endpoint) (hserver : form.endpoint ≠ [])
    (hmodel : trim form.model = form.model) (hname : form.model ≠ [])
    (htemperature : form.temperature.falsy = false)
    (htokens : form.maxTokens = .of tokens) (htokens0 : tokens ≠ 0)
    (htokens1 : tokens.natAbs ≤ 2 ^ 53)
    (hcontext : form.maxContext = .of context) (hcontext0 : context ≠ 0)
    (hcontext1 : context.natAbs ≤ 2 ^ 53)
    (hseconds : form.timeout = .of seconds) (hseconds0 : seconds ≠ 0)
    (hseconds1 : (seconds * 1000).natAbs ≤ 2 ^ 53) :
    (loadSettings (saveSettings form storage).storage).1.form = form := by
  rw [saveSettings_of_valid form storage (by rw [hendpoint]; exact hserver)
    (by rw [hmodel]; exact hname)]
  obtain ⟨endpoint, model, temperature, maxTokens, maxContext, timeout, a, b, c⟩ := form
  simp only at hendpoint hserver hmodel hname htemperature htokens hcontext hseconds
  subst htokens hcontext hseconds
  have hdiv : Int.tdiv (seconds * 1000) 1000 = seconds :=
    Int.mul_tdiv_cancel seconds (by decide)
  have hlimit : (2 : Nat) ^ 53 = 9007199254740992 := by norm_num
  rw [hlimit] at htokens1 hcontext1 hseconds1
  simp [loadSettings, merged, configOf, Config.stored, Display.form, Whole.orDefault,
    Whole.times1000, Whole.within, Whole.reread, Whole.rereadThousandth, exactLimit,
    Num.orDefault, orEmpty, hendpoint, hmodel, htemperature, htokens0, hcontext0, hseconds0,
    htokens1, hcontext1, hseconds1, hdiv]

end OptionsPage

/-- C27: `saveSettings` rejects missing required fields. When the server or the
model is empty after trimming, it shows an error, returns nothing and leaves the
stored configuration as it was. When both are non-empty it stores a
configuration whose endpoint and model are the trimmed inputs and whose timeout
is the product of the number of seconds read from the form and 1000, and reports
success. The product is the one of doubles: it is the product of the integers
for every number of seconds whose thousandfold is at most `2 ^ 53` in magnitude,
and `NaN` when the field holds no number. -/
theorem saveSettings_requires_endpoint_and_model (form : OptionsPage.Form)
    (storage : Option OptionsPage.StoredConfig) :
    ((trim form.endpoint = [] ∨ trim form.model = []) →
      (OptionsPage.saveSettings form storage).storage = storage ∧
      (OptionsPage.saveSettings form storage).status.2 = js "error" ∧
      (OptionsPage.saveSettings form storage).returned = none) ∧
    (trim form.endpoint ≠ [] → trim form.model ≠ [] →
      ((OptionsPage.saveSettings form storage).storage.map fun config => config.endpoint)
          = some (some (trim form.endpoint)) ∧
        ((OptionsPage.saveSettings form storage).storage.map fun config => config.model)
          = some (some (trim form.model)) ∧
        (∀ seconds : Int, form.timeout = .of seconds → (seconds * 1000).natAbs ≤ 2 ^ 53 →
          ((OptionsPage.saveSettings form storage).storage.map fun config => config.timeout)
            = some (some (.of (seconds * 1000)))) ∧
        (form.timeout = .nan →
          ((OptionsPage.saveSettings form storage).storage.map fun config => config.timeout)
            = some (some .nan)) ∧
        (OptionsPage.saveSettings form storage).status
          = (js "Settings saved successfully!", js "success") ∧
        (OptionsPage.saveSettings form storage).returned = some true) := by
  constructor
  · intro h
    by_cases he : trim form.endpoint = []
    · simp [OptionsPage.saveSettings, OptionsPage.configOf, he]
    · have hm : trim form.model = [] := h.resolve_left he
      simp [OptionsPage.saveSettings, OptionsPage.configOf, he, hm]
  · intro he hm
    rw [OptionsPage.saveSettings_of_valid form storage he hm]
    refine ⟨rfl, rfl, ?_, ?_, rfl, rfl⟩
    · intro seconds hs hbound
      have hlimit : (2 : Nat) ^ 53 = 9007199254740992 := by norm_num
      rw [hlimit] at hbound
      simp [OptionsPage.Config.stored, OptionsPage.configOf, hs, OptionsPage.Whole.times1000,
        OptionsPage.Whole.within, OptionsPage.exactLimit, hbound]
    · intro hs
      simp [OptionsPage.Config.stored, OptionsPage.configOf, hs, OptionsPage.Whole.times1000]

/-- Witness for C27: a form whose model holds only blanks leaves an earlier
configuration in storage; a form with blanks around the server and the model
and a timeout of 45 seconds stores the trimmed texts and 45000 ms. -/
theorem saveSettings_requires_endpoint_and_model_witness :
    (OptionsPage.saveSettings OptionsPage.blankModelForm
        (some OptionsPage.DEFAULT_CONFIG.stored)).storage
      = some OptionsPage.DEFAULT_CONFIG.stored ∧
    (OptionsPage.saveSettings OptionsPage.blankModelForm
        (some OptionsPage.DEFAULT_CONFIG.stored)).status
      = (js "Default model is required", js "error") ∧
    ((OptionsPage.saveSettings OptionsPage.paddedForm none).storage.map fun config =>
        config.endpoint) = some (some (js "http://127.0.0.1:11434")) ∧
    ((OptionsPage.saveSettings OptionsPage.paddedForm none).storage.map fun config =>
        config.model) = some (some (js "mistral")) ∧
    ((OptionsPage.saveSettings OptionsPage.paddedForm none).storage.map fun config =>
        config.timeout) = some (some (.of (45 * 1000))) :=
  ⟨((saveSettings_requires_endpoint_and_model OptionsPage.blankModelForm
      (some OptionsPage.DEFAULT_CONFIG.stored)).1 (Or.inr rfl)).1,
    rfl,
    ((saveSettings_requires_endpoint_and_model OptionsPage.paddedForm none).2
      (by decide) (by decide)).1,
    ((saveSettings_requires_endpoint_and_model OptionsPage.paddedForm none).2
      (by decide) (by decide)).2.1,
    ((saveSettings_requires_endpoint_and_model OptionsPage.paddedForm none).2
      (by decide) (by decide)).2.2.1 45 rfl (by decide)⟩

/-- C30: a temperature of 0 does not survive the round trip through the options
page. `saveSettings` stores it, and `loadSettings` then assigns
`config.temperature || 0.7` to the field, which is 0.7; the form no longer holds
what was entered, and saving it again stores a different configuration. Every
other value of the same form comes back as it was entered. -/
theorem zero_temperature_is_not_restored :
    ((OptionsPage.saveSettings (OptionsPage.sampleForm ⟨true, js "0"⟩) none).storage.bind
        fun config => config.temperature) = some ⟨true, js "0"⟩ ∧
    (OptionsPage.loadSettings
        (OptionsPage.saveSettings (OptionsPage.sampleForm ⟨true, js "0"⟩) none).storage).1.temperature
      = ⟨false, js "0.7"⟩ ∧
    (OptionsPage.loadSettings
        (OptionsPage.saveSettings (OptionsPage.sampleForm ⟨true, js "0"⟩) none).storage).1.form
      = OptionsPage.sampleForm ⟨false, js "0.7"⟩ ∧
    (OptionsPage.loadSettings
        (OptionsPage.saveSettings (OptionsPage.sampleForm ⟨true, js "0"⟩) none).storage).1.form
      ≠ OptionsPage.sampleForm ⟨true, js "0"⟩ ∧
    (OptionsPage.saveSettings
        (OptionsPage.loadSettings
          (OptionsPage.saveSettings (OptionsPage.sampleForm ⟨true, js "0"⟩)
            none).storage).1.form
        (OptionsPage.saveSettings (OptionsPage.sampleForm ⟨true, js "0"⟩) none).storage).storage
      ≠ (OptionsPage.saveSettings (OptionsPage.sampleForm ⟨true, js "0"⟩) none).storage ∧
    (OptionsPage.loadSettings
        (OptionsPage.saveSettings (OptionsPage.sampleForm ⟨false, js "0.5"⟩)
          none).storage).1.form
      = OptionsPage.sampleForm ⟨false, js "0.5"⟩ :=
  ⟨rfl, rfl, rfl, by decide, by decide, rfl⟩

end Callosum
